import Mathlib

/-!
# dmmserver: caches, play time ledger and identity correlation

A shallow embedding of `services/playtime/playtime.go`,
`services/banning/banning.go`, `services/serversettings/serversettings.go`, the
history methods of `model/playerinfo.go`, `RecordClientIP` of
`utils/ip_utils.go` and the device-information step of `handler/30065.go` (and
the parts of `model/` they use) together with theorems about the embedded code.

Conventions of the embedding:

* Go `int64` values are the type `I64`: an integer together with the proof
  that it lies in `[-2^63, 2^63)`; `+` and `-` wrap modulo `2^64` as in Go.
* `time.Time` is the type `Time`, a count of nanoseconds since Go's zero
  instant `0001-01-01T00:00:00Z`; `IsZero` is "the count is 0".
* The wall clock is an input of every operation that reads it: `now` stands for
  the value of `time.Now()` during the call, and `elapsed` for the value of
  `int64(time.Since(data.LastLoginTime).Seconds())`.
* Package-level variables are the fields of a `State` per package; `sync.Map`
  is an association list with at most the first entry of a key visible (a list
  of keys when every value is `true`).
* For the playtime package the database is the tables the package queries and
  it is reachable: a query either finds a row or reports
  `gorm.ErrRecordNotFound`, a statement is executed (the `Save` of a settings
  row, which has no primary key and which gorm refuses, apart), and
  `json.Marshal` of the persisted fields succeeds, so the branches for other
  database errors are never taken. For the ban registry and the settings cache the tables carry
  flags that make a scan, a read or an insert fail.
* The playtime embedding runs one goroutine at a time; its `refreshMutex` is
  part of the state, and a `Lock()` on a held mutex does not return
  (`Outcome.blocked`).
* The JSON text of the `playtime_data` column is kept in parsed form
  (`PlaytimeColumn`): the empty string, a text `json.Unmarshal` rejects, or an
  object giving some of the fields of `PlayerPlaytimeData`. The option texts of
  the settings are texts, read by the JSON reader of the namespace `Json`; a
  number outside the range of `float64` is an error, as in `json.Unmarshal`.
* The expression of `GetStableDeviceInfo` is a `RegularExpression Char`,
  matched by derivatives.
* `json.Unmarshal` into a `[]string` is a parameter `decodeStrings` of the
  history methods; examples pass `Json.unmarshalStrings`.
* `handle30065` starts at its step 4: the checks of steps 1 to 3 have passed
  and the row of `dmm_playerdata` they found is an input.
-/

namespace Dmmserver

/-! ## Go `int64` -/

/-- Reduce an integer to the `int64` range, two's complement. -/
def wrapInt64 (x : Int) : Int :=
  (x + 9223372036854775808) % 18446744073709551616 - 9223372036854775808

/-- A Go `int64`. -/
structure I64 where
  val : Int
  lo : -9223372036854775808 ≤ val
  hi : val < 9223372036854775808
deriving DecidableEq

namespace I64

/-- Conversion of an integer constant or result, wrapping. -/
def ofInt (x : Int) : I64 :=
  ⟨wrapInt64 x, by unfold wrapInt64; omega, by unfold wrapInt64; omega⟩

instance (n : Nat) : OfNat I64 n := ⟨ofInt n⟩
instance : Inhabited I64 := ⟨ofInt 0⟩
instance : Repr I64 := ⟨fun x n => reprPrec x.val n⟩

/-- Go `a + b` on `int64`. -/
def add (a b : I64) : I64 := ofInt (a.val + b.val)

/-- Go `a - b` on `int64`. -/
def sub (a b : I64) : I64 := ofInt (a.val - b.val)

instance : Add I64 := ⟨add⟩
instance : Sub I64 := ⟨sub⟩
instance : LT I64 := ⟨fun a b => a.val < b.val⟩
instance : LE I64 := ⟨fun a b => a.val ≤ b.val⟩
instance (a b : I64) : Decidable (a < b) := inferInstanceAs (Decidable (a.val < b.val))
instance (a b : I64) : Decidable (a ≤ b) := inferInstanceAs (Decidable (a.val ≤ b.val))

end I64

/-! ## `time.Time` -/

/-- An instant: nanoseconds since `0001-01-01T00:00:00Z`, the zero `time.Time`. -/
structure Time where
  ns : Int
deriving DecidableEq, Repr

namespace Time

/-- The value `time.Time{}`. -/
def zero : Time := ⟨0⟩

instance : Inhabited Time := ⟨zero⟩

/-- Go `t.IsZero()`. -/
def IsZero (t : Time) : Bool := t.ns == 0

/-- Go `t.After(u)`. -/
def After (t u : Time) : Bool := decide (u.ns < t.ns)

/-- Go `t.Add(d)` for a duration of `d` nanoseconds. -/
def Add (t : Time) (d : Int) : Time := ⟨t.ns + d⟩

end Time

/-! ## Errors -/

/-- The values of Go's `error` the playtime package returns: a
`game_error.New(code, msg)` value, `gorm.ErrRecordNotFound`, or another
database error. -/
inductive Error where
  | gameError (code : Int)
  | ErrRecordNotFound
  | dbError
deriving DecidableEq, Repr

/-- The error `game_error.New(-3001, ...)`: the play time is used up. -/
def quotaExhausted : Error := Error.gameError (-3001)

/-- The result of a Go function returning `(T, error)`. -/
inductive Result (α : Type) where
  | ok (value : α)
  | err (e : Error)
deriving DecidableEq

/-! ## Strings -/

/-- The pieces of `strings.Split(text, "\n\n")` on the characters of `text`:
`cur` holds the characters of the current piece, most recent first. The
separator is matched leftmost first and its occurrences do not overlap. -/
def splitDoubleNewlineAux : List Char → List Char → List (List Char)
  | cur, [] => [cur.reverse]
  | cur, [c] => [(c :: cur).reverse]
  | cur, c :: d :: rest =>
    if c.toNat = 10 ∧ d.toNat = 10 then
      cur.reverse :: splitDoubleNewlineAux [] rest
    else
      splitDoubleNewlineAux (c :: cur) (d :: rest)

/-- The function `splitTextByDoubleNewline` (the copy in `playtime.go` and the
one in `model/playerinfo.go` are the same): the non-empty pieces of
`strings.Split(text, "\n\n")`. -/
def splitTextByDoubleNewline (text : String) : List String :=
  if text = "" then []
  else ((splitDoubleNewlineAux [] text.data).filter (fun part => part ≠ [])).map String.mk

/-! ## Tables of the database -/

namespace Model

/-- The JSON object of a `playtime_data` column, as `json.Unmarshal` reads it
into a `PlayerPlaytimeData`: for each field of the struct, the value of the key
of that name (compared without case) when the object has one. -/
structure PlaytimeJSON where
  playedTime : Option I64
  isVIP : Option Bool
  dailyPlayTime : Option I64
  todayExtraTime : Option I64
  lastUpdateTime : Option Time
  remainingTime : Option I64
  lastLoginTime : Option Time
  deviceID : Option String
  realDeviceID : Option String
  ip : Option String
deriving DecidableEq

/-- The content of the column `playtime_data` of `dmm_playerdata`: the empty
string, a non-empty text that `json.Unmarshal` rejects for the target struct,
or a JSON object. -/
inductive PlaytimeColumn where
  | empty
  | malformed
  | object (j : PlaytimeJSON)
deriving DecidableEq

/-- The struct `PlayerData` (table `dmm_playerdata`), with the columns the
playtime package uses. -/
structure PlayerData where
  DeviceID : String
  RoleID : Int
  PlaytimeData : PlaytimeColumn
deriving DecidableEq

/-- The struct `PlayerInfo` (table `dmm_playerinfo`). -/
structure PlayerInfo where
  DeviceID : String
  RoleID : Int
  RealDeviceID : String
  DeviceInfo : String
  IP : String
deriving DecidableEq

/-- The content of the column `playtime_settings` of the settings row: the
empty string, a text `json.Unmarshal` rejects, or a JSON object giving some of
the keys `freePlaytimeSeconds`, `vipPlaytimeSeconds`, `resetHour`. -/
inductive SettingsColumn where
  | empty
  | malformed
  | object (freePlaytimeSeconds vipPlaytimeSeconds : Option I64) (resetHour : Option Int)
deriving DecidableEq

/-- The struct `ServerSettings` (table `dmm_settings`), without the two
timestamps the database fills in. -/
structure ServerSettings where
  GraphicsOptions : String
  MiscOptions : String
  ServerIP : Option String
  ServerPort : Option String
  ServerOverDayTimeStamp : I64
  PlaytimeSettings : SettingsColumn
deriving DecidableEq

/-- The helper `convertArrayToText`: the items joined by two newlines. -/
def convertArrayToText : List String → String
  | [] => ""
  | first :: rest => rest.foldl (fun result item => result ++ "\n\n" ++ item) first

/-- The method `(p *PlayerInfo) AddIP(newIP)`; the error it returns is always
nil, so the result is the record after the call. `decodeStrings` is
`json.Unmarshal` into a `[]string` (`none` when it returns an error). -/
def PlayerInfo.AddIP (decodeStrings : String → Option (List String))
    (p : PlayerInfo) (newIP : String) : PlayerInfo :=
  if p.IP = "" ∨ p.IP = "Invalid value." ∨ p.IP = "null" then { p with IP := newIP }
  else
    match decodeStrings p.IP with
    | some ips =>
      if ips.contains newIP then { p with IP := convertArrayToText ips }
      else { p with IP := convertArrayToText (ips ++ [newIP]) }
    | none =>
      let ipList := splitTextByDoubleNewline p.IP
      if ipList.contains newIP then p
      else if p.IP ≠ "" then { p with IP := p.IP ++ "\n\n" ++ newIP }
      else { p with IP := newIP }

/-- The method `(p *PlayerInfo) AddRealDeviceID(newRealDeviceID)`; the error it
returns is always nil. -/
def PlayerInfo.AddRealDeviceID (decodeStrings : String → Option (List String))
    (p : PlayerInfo) (newRealDeviceID : String) : PlayerInfo :=
  if p.RealDeviceID = "" ∨ p.RealDeviceID = "Invalid value." ∨ p.RealDeviceID = "null" then
    { p with RealDeviceID := newRealDeviceID }
  else
    match decodeStrings p.RealDeviceID with
    | some realDeviceIDs =>
      if realDeviceIDs.contains newRealDeviceID then
        { p with RealDeviceID := convertArrayToText realDeviceIDs }
      else { p with RealDeviceID := convertArrayToText (realDeviceIDs ++ [newRealDeviceID]) }
    | none =>
      let realDeviceIDList := splitTextByDoubleNewline p.RealDeviceID
      if realDeviceIDList.contains newRealDeviceID then p
      else if p.RealDeviceID ≠ "" then
        { p with RealDeviceID := p.RealDeviceID ++ "\n\n" ++ newRealDeviceID }
      else { p with RealDeviceID := newRealDeviceID }

end Model

/-- The database handle `db.DB`, reduced to the tables the package uses: the
rows of `dmm_playerdata` and `dmm_playerinfo` and the settings rows. -/
structure DB where
  playerData : List Model.PlayerData
  playerInfo : List Model.PlayerInfo
  serverSettings : List Model.ServerSettings
deriving DecidableEq

namespace DB

/-- The query `db.DB.Where("device_id = ?", deviceID).First(&player)`; `none`
is `gorm.ErrRecordNotFound`. -/
def firstPlayerData (db : DB) (deviceID : String) : Option Model.PlayerData :=
  db.playerData.find? (fun p => p.DeviceID == deviceID)

/-- The query `db.DB.Where("device_id = ?", deviceID).First(&playerInfo)`. -/
def firstPlayerInfo (db : DB) (deviceID : String) : Option Model.PlayerInfo :=
  db.playerInfo.find? (fun p => p.DeviceID == deviceID)

/-- The statement
`db.DB.Model(&model.PlayerData{}).Where("device_id = ?", deviceID).Update("playtime_data", col)`. -/
def updatePlaytimeData (db : DB) (deviceID : String) (col : Model.PlaytimeColumn) : DB :=
  { db with playerData := db.playerData.map (fun p =>
      if p.DeviceID == deviceID then { p with PlaytimeData := col } else p) }

/-- The statement `db.DB.Create(&playerInfo)`: the row is inserted unless the
primary key `DeviceID` or the unique index on `RoleID` rejects it (the callers
ignore the result). -/
def createPlayerInfo (db : DB) (row : Model.PlayerInfo) : DB :=
  if db.playerInfo.any (fun p => p.DeviceID == row.DeviceID || p.RoleID == row.RoleID) then db
  else { db with playerInfo := db.playerInfo ++ [row] }

/-- The statement `db.DB.Save(&settings)` for a settings row read from the
table. The struct `model.ServerSettings` has no primary key, so `Save` issues
an update without a condition, which gorm refuses
(`gorm.ErrMissingWhereClause`); the caller does not look at the result. The
table stays as it is. -/
def saveServerSettings (db : DB) (_row : Model.ServerSettings) : DB := db

/-- The statement `db.DB.Save(&playerInfo)` for a row read from the table: the
row of the same primary key is overwritten. -/
def savePlayerInfo (db : DB) (row : Model.PlayerInfo) : DB :=
  { db with playerInfo := db.playerInfo.map (fun p =>
      if p.DeviceID == row.DeviceID then row else p) }

end DB

/-! ## Records of `playtime.go` -/

namespace Playtime

/-- The struct `PlayerPlaytimeData`, with every field the package reads or writes. -/
structure PlayerPlaytimeData where
  PlayedTime : I64
  IsVIP : Bool
  DailyPlayTime : I64
  TodayExtraTime : I64
  LastUpdateTime : Time
  RemainingTime : I64
  LastLoginTime : Time
  DeviceID : String
  RealDeviceID : String
  IP : String
deriving DecidableEq, Inhabited

/-- The struct `PlaytimeSettings`. -/
structure PlaytimeSettings where
  FreePlaytimeSeconds : I64
  VIPPlaytimeSeconds : I64
  ResetHour : Int
deriving DecidableEq, Inhabited

/-- The constant `defaultFreePlaytime = 90 * 60`. -/
def defaultFreePlaytime : I64 := 5400
/-- The constant `defaultVIPPlaytime = 10 * 60 * 60`. -/
def defaultVIPPlaytime : I64 := 36000
/-- The constant `defaultResetHour = 1`. -/
def defaultResetHour : Int := 1

/-- The consumption block of `UpdatePlaytimeOnRequest` (the body of
`if !data.LastLoginTime.IsZero()` up to and including the assignment of
`LastLoginTime`), for `elapsed = int64(time.Since(data.LastLoginTime).Seconds())`. -/
def consumeElapsed (data : PlayerPlaytimeData) (elapsed : I64) (now : Time) :
    PlayerPlaytimeData :=
  let data :=
    if data.TodayExtraTime > 0 then
      if data.TodayExtraTime ≥ elapsed then
        { data with TodayExtraTime := data.TodayExtraTime - elapsed }
      else
        let remaining := elapsed - data.TodayExtraTime
        let data := { data with TodayExtraTime := 0 }
        let data := { data with DailyPlayTime := data.DailyPlayTime - remaining }
        if data.DailyPlayTime < 0 then { data with DailyPlayTime := 0 } else data
    else
      let data := { data with DailyPlayTime := data.DailyPlayTime - elapsed }
      if data.DailyPlayTime < 0 then { data with DailyPlayTime := 0 } else data
  { data with LastLoginTime := now }

/-! ## State of the package -/

/-- The package-level variables of `playtime.go` and the database. `refreshMutex`
is true while the mutex is held. -/
structure State where
  playerPlaytimeCache : List (String × PlayerPlaytimeData)
  playtimeSettings : PlaytimeSettings
  allPlayerInfos : List Model.PlayerInfo
  refreshMutex : Bool
  activityInWindow : Bool
  lastRefreshTime : Time
  noActivityStreakStartTime : Time
  lastResetTime : Time
  db : DB
deriving DecidableEq

/-- How a call of a function that takes `refreshMutex` ends. The embedding runs
one goroutine: a `Lock()` on a mutex that is held is a `Lock()` by its holder,
and such a call never returns; `blocked s` records the state `s` in which the
goroutine waits. -/
inductive Outcome where
  | returned (s : State)
  | blocked (s : State)
deriving DecidableEq

/-- The state in which a call ended or stopped. -/
def Outcome.state : Outcome → State
  | .returned s => s
  | .blocked s => s

/-- Run `next` after a call that returned; a blocked call stays blocked. -/
def Outcome.andThen (o : Outcome) (next : State → Outcome) : Outcome :=
  match o with
  | .returned s => next s
  | .blocked s => .blocked s

/-- A function body between `refreshMutex.Lock()` and the deferred
`refreshMutex.Unlock()`. -/
def withRefreshMutex (s : State) (body : State → Outcome) : Outcome :=
  if s.refreshMutex then .blocked s
  else
    match body { s with refreshMutex := true } with
    | .returned s1 => .returned { s1 with refreshMutex := false }
    | .blocked s1 => .blocked s1

/-- The method `Load` of the `sync.Map`. -/
def cacheLoad (cache : List (String × PlayerPlaytimeData)) (key : String) :
    Option PlayerPlaytimeData :=
  match cache with
  | [] => none
  | (k, v) :: rest => if k = key then some v else cacheLoad rest key

/-- The method `Store` of the `sync.Map`. -/
def cacheStore (key : String) (value : PlayerPlaytimeData) :
    List (String × PlayerPlaytimeData) → List (String × PlayerPlaytimeData)
  | [] => [(key, value)]
  | (k, v) :: rest =>
    if k = key then (key, value) :: rest else (k, v) :: cacheStore key value rest

/-! ## JSON of the play time record -/

/-- The call `json.Unmarshal([]byte(player.PlaytimeData), &playtimeData)` on a
zero `playtimeData`; `none` when it returns an error. -/
def jsonUnmarshal : Model.PlaytimeColumn → Option PlayerPlaytimeData
  | .empty => none
  | .malformed => none
  | .object j => some {
      PlayedTime := j.playedTime.getD 0
      IsVIP := j.isVIP.getD false
      DailyPlayTime := j.dailyPlayTime.getD 0
      TodayExtraTime := j.todayExtraTime.getD 0
      LastUpdateTime := j.lastUpdateTime.getD Time.zero
      RemainingTime := j.remainingTime.getD 0
      LastLoginTime := j.lastLoginTime.getD Time.zero
      DeviceID := j.deviceID.getD ""
      RealDeviceID := j.realDeviceID.getD ""
      IP := j.ip.getD "" }

/-- The call `json.Marshal` on the five persisted fields (the anonymous struct of
`savePlaytimeDataToDB`, the struct `PlayerPlaytimeDB` of `AddPlayerPlaytime`). -/
def jsonMarshal (data : PlayerPlaytimeData) : Model.PlaytimeColumn :=
  .object {
    playedTime := some data.PlayedTime
    isVIP := some data.IsVIP
    dailyPlayTime := some data.DailyPlayTime
    todayExtraTime := some data.TodayExtraTime
    lastUpdateTime := some data.LastUpdateTime
    remainingTime := none
    lastLoginTime := none
    deviceID := none
    realDeviceID := none
    ip := none }

/-- The default settings of `loadPlaytimeSettingsFromDB`. -/
def defaultSettings : PlaytimeSettings :=
  { FreePlaytimeSeconds := defaultFreePlaytime
    VIPPlaytimeSeconds := defaultVIPPlaytime
    ResetHour := defaultResetHour }

/-! ## Loading, saving and resetting -/

/-- The function `loadPlaytimeSettingsFromDB`. -/
def loadPlaytimeSettingsFromDB (s : State) : Outcome :=
  withRefreshMutex s fun s =>
    match s.db.serverSettings.head? with
    | none => .returned { s with playtimeSettings := defaultSettings }
    | some settings =>
      match settings.PlaytimeSettings with
      | .empty =>
        let settingsJSON := Model.SettingsColumn.object (some defaultFreePlaytime)
          (some defaultVIPPlaytime) (some defaultResetHour)
        let settings := { settings with PlaytimeSettings := settingsJSON }
        .returned { s with db := s.db.saveServerSettings settings,
                           playtimeSettings := defaultSettings }
      | .malformed => .returned { s with playtimeSettings := defaultSettings }
      | .object free vip hour =>
        .returned { s with playtimeSettings :=
          { FreePlaytimeSeconds := free.getD 0
            VIPPlaytimeSeconds := vip.getD 0
            ResetHour := hour.getD 0 } }

/-- The record `loadPlaytimeDataFromDB` builds for one row of `dmm_playerdata`
(the body of its loop before the `Store`). -/
def loadRecord (ptSettings : PlaytimeSettings) (now : Time) (player : Model.PlayerData) :
    PlayerPlaytimeData :=
  let defaults : PlayerPlaytimeData :=
    { PlayedTime := 0, IsVIP := false, DailyPlayTime := ptSettings.FreePlaytimeSeconds,
      TodayExtraTime := 0, LastUpdateTime := now, LastLoginTime := Time.zero,
      RemainingTime := 0, DeviceID := "", RealDeviceID := "", IP := "" }
  if player.PlaytimeData ≠ .empty then
    match jsonUnmarshal player.PlaytimeData with
    | none => defaults
    | some playtimeData =>
      if playtimeData.DailyPlayTime = 0 then
        if playtimeData.IsVIP then
          { playtimeData with DailyPlayTime := ptSettings.VIPPlaytimeSeconds }
        else
          { playtimeData with DailyPlayTime := ptSettings.FreePlaytimeSeconds }
      else playtimeData
  else defaults

/-- The function `loadPlaytimeDataFromDB`. -/
def loadPlaytimeDataFromDB (now : Time) (s : State) : Outcome :=
  withRefreshMutex s fun s =>
    let ptSettings := s.playtimeSettings
    let cache := s.db.playerData.foldl
      (fun cache player => cacheStore player.DeviceID (loadRecord ptSettings now player) cache)
      s.playerPlaytimeCache
    .returned { s with playerPlaytimeCache := cache, lastRefreshTime := now }

/-- The function `savePlaytimeDataToDB`: the callback of `Range` runs once for
every entry of the cache. -/
def savePlaytimeDataToDB (s : State) : Outcome :=
  withRefreshMutex s fun s =>
    let db := s.playerPlaytimeCache.foldl
      (fun db entry => DB.updatePlaytimeData db entry.fst (jsonMarshal entry.snd)) s.db
    .returned { s with db := db }

/-- The function `loadAllPlayerInfos`. -/
def loadAllPlayerInfos (s : State) : Outcome :=
  withRefreshMutex s fun s => .returned { s with allPlayerInfos := s.db.playerInfo }

/-- The callback of `Range` in `resetAllPlaytimeData`, on one record. -/
def resetRecord (ptSettings : PlaytimeSettings) (now : Time) (playtimeData : PlayerPlaytimeData) :
    PlayerPlaytimeData :=
  let playtimeData :=
    if playtimeData.IsVIP then
      let playtimeData := { playtimeData with RemainingTime := ptSettings.VIPPlaytimeSeconds }
      if playtimeData.DailyPlayTime < ptSettings.VIPPlaytimeSeconds then
        { playtimeData with DailyPlayTime := ptSettings.VIPPlaytimeSeconds }
      else playtimeData
    else
      let playtimeData := { playtimeData with RemainingTime := ptSettings.FreePlaytimeSeconds }
      if playtimeData.DailyPlayTime < ptSettings.FreePlaytimeSeconds then
        { playtimeData with DailyPlayTime := ptSettings.FreePlaytimeSeconds }
      else playtimeData
  let playtimeData := { playtimeData with TodayExtraTime := 0 }
  { playtimeData with LastUpdateTime := now }

/-- The function `resetAllPlaytimeData`: under `refreshMutex`, every cached
record is replaced by its reset, then `savePlaytimeDataToDB` is called and
`lastResetTime` is set. -/
def resetAllPlaytimeData (now : Time) (s : State) : Outcome :=
  withRefreshMutex s fun s =>
    let ptSettings := s.playtimeSettings
    let s := { s with playerPlaytimeCache :=
      s.playerPlaytimeCache.map (fun entry => (entry.fst, resetRecord ptSettings now entry.snd)) }
    (savePlaytimeDataToDB s).andThen fun s => .returned { s with lastResetTime := now }

/-- The function `NotifyActivity`. -/
def NotifyActivity (s : State) : State := { s with activityInWindow := true }

/-! ## Reading and granting play time -/

/-- The function `GetPlayerPlaytimeData`: the record and the state after the
call (a record loaded from the database is stored in the cache). -/
def GetPlayerPlaytimeData (deviceID : String) (now : Time) (s : State) :
    Result PlayerPlaytimeData × State :=
  match cacheLoad s.playerPlaytimeCache deviceID with
  | some data =>
    (.ok { data with RemainingTime := data.DailyPlayTime + data.TodayExtraTime }, s)
  | none =>
    match s.db.firstPlayerData deviceID with
    | none => (.err Error.ErrRecordNotFound, s)
    | some player =>
      let defaults : PlayerPlaytimeData :=
        { PlayedTime := 0, IsVIP := false,
          DailyPlayTime := s.playtimeSettings.FreePlaytimeSeconds,
          TodayExtraTime := 0, LastUpdateTime := now, LastLoginTime := Time.zero,
          DeviceID := deviceID, RemainingTime := 0, RealDeviceID := "", IP := "" }
      let playtimeData :=
        if player.PlaytimeData ≠ .empty then
          match jsonUnmarshal player.PlaytimeData with
          | none => defaults
          | some parsed => parsed
        else defaults
      let playtimeData :=
        match s.db.firstPlayerInfo deviceID with
        | some playerInfo =>
          let ipList := splitTextByDoubleNewline playerInfo.IP
          let playtimeData :=
            match ipList.getLast? with
            | some last => { playtimeData with IP := last }
            | none => playtimeData
          let realDeviceIDList := splitTextByDoubleNewline playerInfo.RealDeviceID
          match realDeviceIDList.getLast? with
          | some last => { playtimeData with RealDeviceID := last }
          | none => playtimeData
        | none => playtimeData
      let playtimeData := { playtimeData with
        RemainingTime := playtimeData.DailyPlayTime + playtimeData.TodayExtraTime }
      (.ok playtimeData,
        { s with playerPlaytimeCache := cacheStore deviceID playtimeData s.playerPlaytimeCache })

/-- The function `UpdatePlayerPlaytimeData`; it always returns nil. -/
def UpdatePlayerPlaytimeData (deviceID : String) (data : PlayerPlaytimeData) (s : State) :
    State :=
  { s with playerPlaytimeCache := cacheStore deviceID data s.playerPlaytimeCache }

/-- The function `SetPlayerVIPStatus`. -/
def SetPlayerVIPStatus (deviceID : String) (isVIP : Bool) (now : Time) (s : State) :
    Option Error × State :=
  match GetPlayerPlaytimeData deviceID now s with
  | (.err e, s) => (some e, s)
  | (.ok data, s) =>
    let data := { data with IsVIP := isVIP }
    let data :=
      if isVIP then
        if data.RemainingTime < s.playtimeSettings.VIPPlaytimeSeconds then
          { data with RemainingTime := s.playtimeSettings.VIPPlaytimeSeconds }
        else data
      else data
    (none, UpdatePlayerPlaytimeData deviceID data s)

/-- The function `AddPlayerPlaytime`. -/
def AddPlayerPlaytime (deviceID : String) (additionalSeconds : I64) (now : Time) (s : State) :
    Option Error × State :=
  match GetPlayerPlaytimeData deviceID now s with
  | (.err e, s) => (some e, s)
  | (.ok data, s) =>
    let data := { data with RemainingTime := data.RemainingTime + additionalSeconds }
    let dataJSON := jsonMarshal data
    let s := { s with db := s.db.updatePlaytimeData deviceID dataJSON }
    (none, { s with playerPlaytimeCache := cacheStore deviceID data s.playerPlaytimeCache })

/-- The function `ConsumePlaytime`: remaining seconds, whether the login is
allowed, and the error. -/
def ConsumePlaytime (deviceID : String) (now : Time) (s : State) :
    (I64 × Bool × Option Error) × State :=
  match GetPlayerPlaytimeData deviceID now s with
  | (.err e, s) => ((0, false, some e), s)
  | (.ok data, s) =>
    if data.RemainingTime > 0 then
      let data := { data with LastLoginTime := now }
      ((data.RemainingTime, true, none), UpdatePlayerPlaytimeData deviceID data s)
    else ((0, false, none), s)

/-- The block "update the device information" of `UpdatePlaytimeOnRequest`:
the record read, with the address and hardware id of the request filled in. -/
def requestRecord (ip realDeviceID : String) (data : PlayerPlaytimeData) : PlayerPlaytimeData :=
  let data := if ip ≠ "" then { data with IP := ip } else data
  if realDeviceID ≠ "" then { data with RealDeviceID := realDeviceID } else data

/-- The last block of `UpdatePlaytimeOnRequest`: the row of `dmm_playerinfo` of
the device is updated with the address and hardware id, or created. -/
def recordDeviceInfo (decodeStrings : String → Option (List String))
    (ip realDeviceID : String) (deviceID : String) (s : State) : State :=
  match s.db.firstPlayerInfo deviceID with
  | some playerInfo =>
    let playerInfo := if ip ≠ "" then playerInfo.AddIP decodeStrings ip else playerInfo
    let playerInfo :=
      if realDeviceID ≠ "" then playerInfo.AddRealDeviceID decodeStrings realDeviceID
      else playerInfo
    { s with db := s.db.savePlayerInfo playerInfo }
  | none =>
    match s.db.firstPlayerData deviceID with
    | some playerData =>
      let playerInfo : Model.PlayerInfo :=
        { DeviceID := deviceID, RoleID := playerData.RoleID,
          IP := ip, RealDeviceID := realDeviceID, DeviceInfo := "" }
      { s with db := s.db.createPlayerInfo playerInfo }
    | none => s

/-- The function `UpdatePlaytimeOnRequest`, for a request whose client address
is `ip` and whose form value `realDeviceID` is `realDeviceID`; `elapsed` is
`int64(time.Since(data.LastLoginTime).Seconds())` for the record read. -/
def UpdatePlaytimeOnRequest (decodeStrings : String → Option (List String))
    (ip realDeviceID : String) (deviceID : String) (elapsed : I64) (now : Time) (s : State) :
    Option Error × State :=
  let s := NotifyActivity s
  match GetPlayerPlaytimeData deviceID now s with
  | (.err e, s) => (some e, s)
  | (.ok data, s) =>
    let data := requestRecord ip realDeviceID data
    if !data.LastLoginTime.IsZero then
      let data := consumeElapsed data elapsed now
      let s := UpdatePlayerPlaytimeData deviceID data s
      if data.DailyPlayTime ≤ 0 ∧ data.TodayExtraTime ≤ 0 then (some quotaExhausted, s)
      else (none, recordDeviceInfo decodeStrings ip realDeviceID deviceID s)
    else (none, recordDeviceInfo decodeStrings ip realDeviceID deviceID s)

/-! ## Login verification -/

/-- The constant `ipWeight`. -/
def ipWeight : Int := 35
/-- The constant `realDeviceIDWeight`. -/
def realDeviceIDWeight : Int := 40
/-- The constant `deviceIDWeight`. -/
def deviceIDWeight : Int := 25
/-- The constant `scoreThreshold`. -/
def scoreThreshold : Int := 60

/-- The score `VerifyPlaytimeMultiDimension` computes for the record found for
the login's own deviceID. -/
def ownScore (playerInfo : Model.PlayerInfo) (ip realDeviceID : String) : Int :=
  let score := 0
  let ipList := splitTextByDoubleNewline playerInfo.IP
  let score := if ipList.any (fun knownIP => knownIP == ip) then score + ipWeight else score
  let realDeviceIDList := splitTextByDoubleNewline playerInfo.RealDeviceID
  let score :=
    if realDeviceIDList.any (fun knownRealDeviceID => knownRealDeviceID == realDeviceID) then
      score + realDeviceIDWeight
    else score
  score + deviceIDWeight

/-- The relation score the alias scan computes for another record. -/
def relationScore (info : Model.PlayerInfo) (ip realDeviceID : String) : Int :=
  let relationScore := 0
  let ipList := splitTextByDoubleNewline info.IP
  let relationScore :=
    if ipList.any (fun knownIP => knownIP == ip && ip != "") then relationScore + ipWeight
    else relationScore
  let realDeviceIDList := splitTextByDoubleNewline info.RealDeviceID
  let relationScore :=
    if realDeviceIDList.any (fun knownRealDeviceID =>
        knownRealDeviceID == realDeviceID && realDeviceID != "") then
      relationScore + realDeviceIDWeight
    else relationScore
  relationScore

/-- The first round of the alias scan: the deviceIDs appended to
`relatedDeviceIDs`, in the order of `allPlayerInfos`. -/
def relatedDeviceIDs (deviceID ip realDeviceID : String) :
    List Model.PlayerInfo → List String
  | [] => []
  | info :: rest =>
    if info.DeviceID = deviceID then relatedDeviceIDs deviceID ip realDeviceID rest
    else if relationScore info ip realDeviceID ≥ scoreThreshold - deviceIDWeight then
      info.DeviceID :: relatedDeviceIDs deviceID ip realDeviceID rest
    else relatedDeviceIDs deviceID ip realDeviceID rest

/-- The second round of the alias scan: the loop over `relatedDeviceIDs`; the
error is `some` when the loop returns from the function. -/
def checkRelated (now : Time) : List String → State → Option Error × State
  | [], s => (none, s)
  | relatedDeviceID :: rest, s =>
    match GetPlayerPlaytimeData relatedDeviceID now s with
    | (.err _, s) => checkRelated now rest s
    | (.ok relatedData, s) =>
      if relatedData.RemainingTime ≤ 0 then (some quotaExhausted, s)
      else checkRelated now rest s

/-- The block that ends each of the three paths of
`VerifyPlaytimeMultiDimension`: read the device's record, reject when nothing
remains, otherwise set `LastLoginTime` and store the record. -/
def authorizeOwnQuota (deviceID : String) (now : Time) (s : State) : Option Error × State :=
  match GetPlayerPlaytimeData deviceID now s with
  | (.err e, s) => (some e, s)
  | (.ok data, s) =>
    if data.RemainingTime ≤ 0 then (some quotaExhausted, s)
    else
      let data := { data with LastLoginTime := now }
      (none, UpdatePlayerPlaytimeData deviceID data s)

/-- The block of `VerifyPlaytimeMultiDimension` for a device without an
identity record: a row of `dmm_playerinfo` is created when the request carries
an address or a hardware id and the device has a row in `dmm_playerdata`. -/
def createIdentityRecord (ip realDeviceID : String) (deviceID : String) (s : State) : State :=
  if ip ≠ "" ∨ realDeviceID ≠ "" then
    match s.db.firstPlayerData deviceID with
    | some playerData =>
      let playerInfo : Model.PlayerInfo :=
        { DeviceID := deviceID, RoleID := playerData.RoleID,
          IP := ip, RealDeviceID := realDeviceID, DeviceInfo := "" }
      { s with db := s.db.createPlayerInfo playerInfo }
    | none => s
  else s

/-- The function `VerifyPlaytimeMultiDimension`, for a request whose client
address is `ip` and whose form value `realDeviceID` is `realDeviceID`. -/
def VerifyPlaytimeMultiDimension (ip realDeviceID : String) (deviceID : String) (now : Time)
    (s : State) : Option Error × State :=
  let s := NotifyActivity s
  match s.db.firstPlayerInfo deviceID with
  | some playerInfo =>
    let score := ownScore playerInfo ip realDeviceID
    if score ≥ scoreThreshold then authorizeOwnQuota deviceID now s
    else
      let related := relatedDeviceIDs deviceID ip realDeviceID s.allPlayerInfos
      match checkRelated now related s with
      | (some e, s) => (some e, s)
      | (none, s) => authorizeOwnQuota deviceID now s
  | none => authorizeOwnQuota deviceID now (createIdentityRecord ip realDeviceID deviceID s)

/-! ## The daily reset boundary -/

/-- Nanoseconds in an hour. -/
def hour : Int := 3600 * 1000000000

/-- Days from `0001-01-01` to the civil date `year-month-day` of the proleptic
Gregorian calendar (the date arithmetic of `time.Date`). -/
def daysFromCivil (year month day : Int) : Int :=
  let y := if month ≤ 2 then year - 1 else year
  let era := y / 400
  let yoe := y - era * 400
  let mp := if month > 2 then month - 3 else month + 9
  let doy := (153 * mp + 2) / 5 + day - 1
  let doe := yoe * 365 + yoe / 4 - yoe / 100 + doy
  era * 146097 + doe - 306

/-- The civil date `(year, month, day)` in UTC of an instant (the methods
`Year`, `Month` and `Day` of a `time.Time` in UTC). -/
def civilFromTime (t : Time) : Int × Int × Int :=
  let z := t.ns / (24 * hour) + 306
  let era := z / 146097
  let doe := z - era * 146097
  let yoe := (doe - doe / 1460 + doe / 36524 - doe / 146096) / 365
  let doy := doe - (365 * yoe + yoe / 4 - yoe / 100)
  let mp := (5 * doy + 2) / 153
  let day := doy - (153 * mp + 2) / 5 + 1
  let month := if mp < 10 then mp + 3 else mp - 9
  let year := if month ≤ 2 then yoe + era * 400 + 1 else yoe + era * 400
  (year, month, day)

/-- The call `time.Date(year, month, day, hourOfDay, 0, 0, 0, loc)` for a fixed
zone `loc` that is `offsetSeconds` east of UTC. -/
def timeDate (year month day hourOfDay offsetSeconds : Int) : Time :=
  ⟨daysFromCivil year month day * (24 * hour) + hourOfDay * hour - offsetSeconds * 1000000000⟩

/-- The function `calculateNextResetTime`, for `time.Now() = now`. -/
def calculateNextResetTime (now : Time) (s : State) : Time :=
  let resetHour := s.playtimeSettings.ResetHour
  let cst : Int := 8 * 60 * 60
  let date := civilFromTime now
  let resetTodayInCST := timeDate date.1 date.2.1 date.2.2 resetHour cst
  let resetToday := resetTodayInCST
  if now.After resetToday then resetToday.Add (24 * hour) else resetToday

/-! ## The refresh ticker -/

/-- The constant `refreshInterval`, in nanoseconds. -/
def refreshInterval : Int := 6 * hour
/-- The constant `maxNoActivityDuration`, in nanoseconds. -/
def maxNoActivityDuration : Int := 15 * 60 * 1000000000

/-- The four calls a tick of `startIntelligentTicker` makes when it refreshes. -/
def refreshAll (now : Time) (s : State) : Outcome :=
  (((savePlaytimeDataToDB s).andThen (loadPlaytimeDataFromDB now)).andThen
    loadPlaytimeSettingsFromDB).andThen loadAllPlayerInfos

/-- One iteration of the loop of `startIntelligentTicker`, for a tick at `now`. -/
def tick (now : Time) (s : State) : Outcome :=
  if s.activityInWindow then
    let s := { s with activityInWindow := false }
    let s := { s with noActivityStreakStartTime := Time.zero }
    refreshAll now s
  else
    if s.noActivityStreakStartTime.IsZero then
      let s := { s with noActivityStreakStartTime := now }
      refreshAll now s
    else if now.ns - s.noActivityStreakStartTime.ns ≥ maxNoActivityDuration then
      .returned s
    else refreshAll now s

/-! ## Example values -/

/-- An instant used in examples: `2024-01-01T20:00:00Z`. -/
def exampleNow : Time := timeDate 2024 1 1 20 0

/-- A record with the given bonus, daily time and VIP flag and no session. -/
def exampleRecord (bonus daily : I64) (vip : Bool) : PlayerPlaytimeData :=
  { PlayedTime := 0, IsVIP := vip, DailyPlayTime := daily, TodayExtraTime := bonus,
    LastUpdateTime := Time.zero, RemainingTime := 0, LastLoginTime := Time.zero,
    DeviceID := "", RealDeviceID := "", IP := "" }

/-- A record as `exampleRecord` with a session that started at `login`. -/
def exampleSession (bonus daily : I64) (login : Time) : PlayerPlaytimeData :=
  { exampleRecord bonus daily false with LastLoginTime := login }

/-- The record `GetPlayerPlaytimeData` returns for a cached `exampleSession`. -/
def exampleFound (bonus daily : I64) (login : Time) : PlayerPlaytimeData :=
  { exampleSession bonus daily login with RemainingTime := daily + bonus }

/-- A state with the default settings, the given cache and the given tables;
the in-memory list of identity records is the table. -/
def exampleState (cache : List (String × PlayerPlaytimeData))
    (playerData : List Model.PlayerData) (playerInfo : List Model.PlayerInfo) : State :=
  { playerPlaytimeCache := cache
    playtimeSettings := defaultSettings
    allPlayerInfos := playerInfo
    refreshMutex := false
    activityInWindow := false
    lastRefreshTime := Time.zero
    noActivityStreakStartTime := Time.zero
    lastResetTime := Time.zero
    db := { playerData := playerData, playerInfo := playerInfo, serverSettings := [] } }

/-- A decoder for `[]string` that rejects every text (no history is a JSON array). -/
def noJSONArray : String → Option (List String) := fun _ => none

/-- A state whose cache holds, for `D1`, a session started at the zero instant
plus one nanosecond with bonus 100 and daily time 500. -/
def stateActive : State :=
  exampleState [("D1", exampleSession 100 500 ⟨1⟩)] [] []

/-- A state whose cache holds, for `D1`, a record without a session. -/
def stateIdle : State :=
  exampleState [("D1", exampleRecord 100 500 false)] [] []

/-- An identity record with one address and one hardware id. -/
def exampleInfo (deviceID : String) (roleID : Int) (ip realDeviceID : String) :
    Model.PlayerInfo :=
  { DeviceID := deviceID, RoleID := roleID, RealDeviceID := realDeviceID, DeviceInfo := "",
    IP := ip }

/-- The cache of the login examples: `D1` has 600 seconds left, `D2` has none. -/
def exampleCache : List (String × PlayerPlaytimeData) :=
  [("D1", exampleRecord 100 500 false), ("D2", exampleRecord 0 0 false)]

/-- Both `D1` and `D2` list the address `1.2.3.4`. -/
def stateShared : State :=
  exampleState exampleCache [] [exampleInfo "D1" 1 "1.2.3.4" "hw1", exampleInfo "D2" 2 "1.2.3.4" "hw2"]

/-- The device `D1` has no identity record; `D2` lists the address `1.2.3.4`. -/
def stateNewDevice : State :=
  exampleState exampleCache [] [exampleInfo "D2" 2 "1.2.3.4" "hw2"]

/-- The device `D1` has an identity record that lists another address and
another hardware id; `D2` lists the address `1.2.3.4`. -/
def stateAlias : State :=
  exampleState exampleCache [] [exampleInfo "D1" 1 "9.9.9.9" "hw9", exampleInfo "D2" 2 "1.2.3.4" "hw2"]

/-- A state with an empty cache whose table `dmm_playerdata` holds a row for
`D2` with an empty `playtime_data` column and no row for `D1`. -/
def stateEmptyColumn : State :=
  exampleState [] [{ DeviceID := "D2", RoleID := 2, PlaytimeData := .empty }] []

/-- The device `D1` is an existing player with the full free allotment and no
bonus; the row of `dmm_playerdata` holds the same values. -/
def stateGrant : State :=
  exampleState [("D1", exampleRecord 0 5400 false)]
    [{ DeviceID := "D1", RoleID := 1, PlaytimeData := jsonMarshal (exampleRecord 0 5400 false) }] []

/-- The device `D1` is an existing player who has used up the daily time and
has no bonus; a request was served in the current window. -/
def stateExhausted : State :=
  { exampleState [("D1", exampleRecord 0 0 false)]
      [{ DeviceID := "D1", RoleID := 1, PlaytimeData := .empty }] [] with
    activityInWindow := true }

end Playtime

/-! ## Normalised device information -/

namespace Model

open RegularExpression in
/-- The class `\d` of the package `regexp`: an ASCII digit. -/
def regexDigit : RegularExpression Char :=
  plus (char '0') (plus (char '1') (plus (char '2') (plus (char '3') (plus (char '4')
    (plus (char '5') (plus (char '6') (plus (char '7') (plus (char '8') (char '9')))))))))

/-- The repetition `r+`. -/
def regexPlus (r : RegularExpression Char) : RegularExpression Char :=
  RegularExpression.comp r (RegularExpression.star r)

open RegularExpression in
/-- The expression of `GetStableDeviceInfo` without its anchor: `(\d+MB)_\d+`. -/
def memoryPattern : RegularExpression Char :=
  comp (comp (regexPlus regexDigit) (comp (char 'M') (char 'B')))
    (comp (char '_') (regexPlus regexDigit))

/-- Whether `pattern.FindStringSubmatch(text)` finds a match for an expression
that ends in `$`: some suffix of the text, tried from the left, matches the
expression as a whole. -/
def matchToEnd (r : RegularExpression Char) : List Char → Bool
  | [] => r.rmatch []
  | c :: cs => r.rmatch (c :: cs) || matchToEnd r cs

/-- The loop of `strings.LastIndex(text, "_")` for a one-character separator:
`position` is the index of the head of the list, `best` the last index found. -/
def lastIndexAux (sep : Char) : List Char → Int → Int → Int
  | [], _, best => best
  | c :: cs, position, best =>
    lastIndexAux sep cs (position + 1) (if c = sep then position else best)

/-- The call `strings.LastIndex(text, "_")`: the index of the last `_`, or -1. -/
def lastIndexUnderscore (text : List Char) : Int := lastIndexAux '_' text 0 (-1)

/-- The function `GetStableDeviceInfo`. -/
def GetStableDeviceInfo (deviceInfo : String) : String :=
  if deviceInfo = "" then ""
  else
    if matchToEnd memoryPattern deviceInfo.data then
      let lastPart := deviceInfo.data.drop (lastIndexUnderscore deviceInfo.data + 1).toNat
      let beforePart := deviceInfo.data.take (lastIndexUnderscore deviceInfo.data).toNat
      let beforePart := beforePart.take (lastIndexUnderscore beforePart + 1).toNat
      String.mk (beforePart ++ lastPart)
    else deviceInfo

end Model

/-! ## The ban registry (`services/banning/banning.go`) -/

namespace Banning

/-- One ban table as a scan `db.DB.Find(&rows)` sees it: the key column of its
rows, and whether the scan fails. -/
structure BanTable where
  rows : List String
  failing : Bool
deriving DecidableEq

/-- The rows a scan leaves in its destination slice; the error of the scan is
not looked at, and a failed scan leaves the slice empty. -/
def BanTable.find (t : BanTable) : List String :=
  if t.failing then [] else t.rows

/-- The four ban tables `Ban_IP`, `Ban_DeviceID`, `Ban_realDeviceID` and
`Ban_DeviceInfo`. -/
structure BanDB where
  banIP : BanTable
  banDeviceID : BanTable
  banRealDeviceID : BanTable
  banDeviceInfo : BanTable
deriving DecidableEq

/-- The package-level variables of `banning.go` and the ban tables. A
`sync.Map` whose values are all `true` is the list of its keys. No function of
the package calls another one while it holds `refreshMutex`, so in a run of one
goroutine every `Lock()` succeeds and the mutex is left out. -/
structure State where
  ipBans : List String
  deviceIDBans : List String
  realDeviceIDBans : List String
  deviceInfoBans : List String
  activityInWindow : Bool
  lastRefreshTime : Time
  noActivityStreakStartTime : Time
  db : BanDB
deriving DecidableEq

/-- The constant `refreshInterval = 55 * time.Second`, in nanoseconds. -/
def refreshInterval : Int := 55 * 1000000000
/-- The constant `maxNoActivityDuration = 15 * time.Minute`, in nanoseconds. -/
def maxNoActivityDuration : Int := 15 * 60 * 1000000000

/-- The method `Store(key, true)` of a `sync.Map`. -/
def banStore (key : String) (m : List String) : List String :=
  if m.contains key then m else m ++ [key]

/-- The method `Load(key)` of a `sync.Map`: whether the key is found. -/
def banLoad (m : List String) (key : String) : Bool := m.contains key

/-- A loop `for _, ban := range rows { newBans.Store(key(ban), true) }` on a
new map. -/
def buildBans (key : String → String) (rows : List String) : List String :=
  rows.foldl (fun newBans ban => banStore (key ban) newBans) []

/-- The function `loadBansFromDB`. -/
def loadBansFromDB (now : Time) (s : State) : State :=
  let ips := s.db.banIP.find
  let s := { s with ipBans := buildBans (fun ip => ip) ips }
  let devices := s.db.banDeviceID.find
  let s := { s with deviceIDBans := buildBans (fun deviceID => deviceID) devices }
  let realDevices := s.db.banRealDeviceID.find
  let s := { s with realDeviceIDBans := buildBans (fun realDeviceID => realDeviceID) realDevices }
  let deviceInfos := s.db.banDeviceInfo.find
  let s := { s with deviceInfoBans := buildBans Model.GetStableDeviceInfo deviceInfos }
  { s with lastRefreshTime := now }

/-- One iteration of the loop of `startIntelligentTicker`, for a tick at `now`. -/
def tick (now : Time) (s : State) : State :=
  if s.activityInWindow then
    let s := { s with activityInWindow := false }
    let s := { s with noActivityStreakStartTime := Time.zero }
    loadBansFromDB now s
  else
    if s.noActivityStreakStartTime.IsZero then
      let s := { s with noActivityStreakStartTime := now.Add (-refreshInterval) }
      loadBansFromDB now s
    else
      if now.ns - s.noActivityStreakStartTime.ns < maxNoActivityDuration then
        loadBansFromDB now s
      else s

/-- The function `NotifyActivity`. -/
def NotifyActivity (s : State) : State := { s with activityInWindow := true }

/-- The function `CheckAndRefreshIfStale`. -/
def CheckAndRefreshIfStale (now : Time) (s : State) : State :=
  if now.ns - s.lastRefreshTime.ns > refreshInterval then
    NotifyActivity (loadBansFromDB now s)
  else s

/-- The function `CheckRequestIPBanned`, for a request whose client address
(`utils.GetClientIP(c)`) is `ip`. -/
def CheckRequestIPBanned (ip : String) (s : State) : Bool :=
  if ip = "" then false else banLoad s.ipBans ip

/-- The function `CheckDeviceIDBanned`. -/
def CheckDeviceIDBanned (deviceID : String) (s : State) : Bool :=
  if deviceID = "" then false else banLoad s.deviceIDBans deviceID

/-- The function `CheckRealDeviceIDBanned`. -/
def CheckRealDeviceIDBanned (realDeviceID : String) (s : State) : Bool :=
  if realDeviceID = "" then false else banLoad s.realDeviceIDBans realDeviceID

/-- The function `CheckDeviceInfoBanned`: the `Range` stops at the first key
equal to the normalised input. -/
def CheckDeviceInfoBanned (deviceInfo : String) (s : State) : Bool :=
  if deviceInfo = "" then false
  else
    let stableDeviceInfo := Model.GetStableDeviceInfo deviceInfo
    s.deviceInfoBans.any (fun key => key == stableDeviceInfo)

/-- A run of the ticker without activity: `count` ticks, the first at
`first`, each `refreshInterval` after the one before. -/
def quietTicks : Nat → Time → State → State
  | 0, _, s => s
  | count + 1, first, s => quietTicks count (first.Add refreshInterval) (tick first s)

end Banning

/-! ## JSON texts (`encoding/json`) -/

namespace Json

/-- A decoded JSON value, as `json.Unmarshal` stores it in an `interface{}`. A
number keeps its literal (Go stores the `float64` nearest to it; a literal
whose nearest `float64` would be infinite is an error); the members
of an object are kept in the order of the text (in a Go map the last value of a
repeated key is the one that is kept). -/
inductive JSON where
  | null
  | bool (b : Bool)
  | number (literal : String)
  | str (s : String)
  | arr (items : List JSON)
  | obj (members : List (String × JSON))

/-- The lexical units of a JSON text; an `atom` is a maximal run of letters,
digits, signs and dots (a literal name or a number). -/
inductive Token where
  | beginArray
  | endArray
  | beginObject
  | endObject
  | colon
  | comma
  | str (s : String)
  | atom (text : List Char)
deriving DecidableEq

/-- An item of a string that is being read: a character, or the number written
by an escape `\uXXXX`. -/
inductive StrItem where
  | char (c : Char)
  | unit (code : Nat)

/-- What the scanner is reading; the items of a string or atom are kept most
recent first. -/
inductive LexMode where
  | normal
  | inString (acc : List StrItem)
  | inAtom (acc : List Char)

/-- JSON white space: space, tab, line feed, carriage return. -/
def isSpace (c : Char) : Bool :=
  c.toNat = 32 || c.toNat = 9 || c.toNat = 10 || c.toNat = 13

/-- A character of an atom. -/
def isAtomChar (c : Char) : Bool :=
  c.isAlphanum || c = '+' || c = '-' || c = '.'

/-- The token of a structural character. -/
def delimiter (c : Char) : Option Token :=
  if c = '[' then some .beginArray
  else if c = ']' then some .endArray
  else if c.toNat = 123 then some .beginObject
  else if c.toNat = 125 then some .endObject
  else if c = ':' then some .colon
  else if c = ',' then some .comma
  else none

/-- The value of a hexadecimal digit. -/
def hexValue (c : Char) : Option Nat :=
  if c.isDigit then some (c.toNat - 48)
  else if 97 ≤ c.toNat ∧ c.toNat ≤ 102 then some (c.toNat - 87)
  else if 65 ≤ c.toNat ∧ c.toNat ≤ 70 then some (c.toNat - 55)
  else none

/-- The number written by four hexadecimal digits. -/
def hex4 (a b c d : Char) : Option Nat :=
  match hexValue a, hexValue b, hexValue c, hexValue d with
  | some x, some y, some z, some w => some (((x * 16 + y) * 16 + z) * 16 + w)
  | _, _, _, _ => none

/-- The character of a one-letter escape. -/
def simpleEscape (c : Char) : Option Char :=
  if c.toNat = 34 then some (Char.ofNat 34)
  else if c.toNat = 92 then some (Char.ofNat 92)
  else if c = '/' then some '/'
  else if c = 'b' then some (Char.ofNat 8)
  else if c = 'f' then some (Char.ofNat 12)
  else if c = 'n' then some (Char.ofNat 10)
  else if c = 'r' then some (Char.ofNat 13)
  else if c = 't' then some (Char.ofNat 9)
  else none

/-- The characters of a string from its items, in the order of the text: an
escaped high surrogate directly followed by an escaped low surrogate is one
character, any other escaped surrogate is U+FFFD. -/
def resolveUnits : List StrItem → List Char
  | [] => []
  | .char c :: rest => c :: resolveUnits rest
  | [.unit code] =>
    if 55296 ≤ code ∧ code ≤ 57343 then [Char.ofNat 65533] else [Char.ofNat code]
  | .unit code :: .char c :: rest =>
    (if 55296 ≤ code ∧ code ≤ 57343 then Char.ofNat 65533 else Char.ofNat code)
      :: c :: resolveUnits rest
  | .unit code :: .unit low :: rest =>
    if 55296 ≤ code ∧ code ≤ 57343 then
      if code ≤ 56319 ∧ 56320 ≤ low ∧ low ≤ 57343 then
        Char.ofNat (65536 + (code - 55296) * 1024 + (low - 56320)) :: resolveUnits rest
      else Char.ofNat 65533 :: resolveUnits (.unit low :: rest)
    else Char.ofNat code :: resolveUnits (.unit low :: rest)

/-- The scanner: the tokens of a text, or `none` for a text that is not made of
JSON tokens. `tokens` holds the tokens read so far, most recent first. -/
def lex : LexMode → List Token → List Char → Option (List Token)
  | .normal, tokens, [] => some tokens.reverse
  | .inAtom acc, tokens, [] => some ((Token.atom acc.reverse :: tokens).reverse)
  | .inString _, _, [] => none
  | .normal, tokens, c :: cs =>
    if isSpace c then lex .normal tokens cs
    else if c.toNat = 34 then lex (.inString []) tokens cs
    else if isAtomChar c then lex (.inAtom [c]) tokens cs
    else
      match delimiter c with
      | some t => lex .normal (t :: tokens) cs
      | none => none
  | .inAtom acc, tokens, c :: cs =>
    if isAtomChar c then lex (.inAtom (c :: acc)) tokens cs
    else if isSpace c then lex .normal (Token.atom acc.reverse :: tokens) cs
    else if c.toNat = 34 then lex (.inString []) (Token.atom acc.reverse :: tokens) cs
    else
      match delimiter c with
      | some t => lex .normal (t :: Token.atom acc.reverse :: tokens) cs
      | none => none
  | .inString acc, tokens, c :: cs =>
    if c.toNat = 34 then
      lex .normal (Token.str (String.mk (resolveUnits acc.reverse)) :: tokens) cs
    else if c.toNat = 92 then
      match cs with
      | [] => none
      | [_] => none
      | e :: h1 :: rest =>
        if e = 'u' then
          match rest with
          | h2 :: h3 :: h4 :: rest1 =>
            match hex4 h1 h2 h3 h4 with
            | some code => lex (.inString (.unit code :: acc)) tokens rest1
            | none => none
          | _ => none
        else
          match simpleEscape e with
          | some x => lex (.inString (.char x :: acc)) tokens (h1 :: rest)
          | none => none
    else if c.toNat < 32 then none
    else lex (.inString (.char c :: acc)) tokens cs

/-- The states of the number grammar
`-? (0 | [1-9][0-9]*) (. [0-9]+)? ([eE] [+-]? [0-9]+)?`. -/
inductive NumState where
  | start
  | afterMinus
  | zero
  | intDigits
  | dot
  | fracDigits
  | exp
  | expSign
  | expDigits
deriving DecidableEq

/-- One step of the number grammar. -/
def numStep (st : NumState) (c : Char) : Option NumState :=
  match st with
  | .start =>
    if c = '-' then some .afterMinus
    else if c = '0' then some .zero
    else if c.isDigit then some .intDigits
    else none
  | .afterMinus =>
    if c = '0' then some .zero
    else if c.isDigit then some .intDigits
    else none
  | .zero =>
    if c = '.' then some .dot
    else if c = 'e' ∨ c = 'E' then some .exp
    else none
  | .intDigits =>
    if c.isDigit then some .intDigits
    else if c = '.' then some .dot
    else if c = 'e' ∨ c = 'E' then some .exp
    else none
  | .dot => if c.isDigit then some .fracDigits else none
  | .fracDigits =>
    if c.isDigit then some .fracDigits
    else if c = 'e' ∨ c = 'E' then some .exp
    else none
  | .exp =>
    if c = '+' ∨ c = '-' then some .expSign
    else if c.isDigit then some .expDigits
    else none
  | .expSign => if c.isDigit then some .expDigits else none
  | .expDigits => if c.isDigit then some .expDigits else none

/-- Whether a run of characters is a JSON number. -/
def isNumber : NumState → List Char → Bool
  | st, [] => st = .zero ∨ st = .intDigits ∨ st = .fracDigits ∨ st = .expDigits
  | st, c :: cs =>
    match numStep st c with
    | some st1 => isNumber st1 cs
    | none => false

/-- The number written by a run of decimal digits that follows the number
`acc`. -/
def digitsValue : Nat → List Char → Nat
  | acc, [] => acc
  | acc, c :: cs => digitsValue (acc * 10 + (c.toNat - 48)) cs

/-- The parts of a literal of the number grammar: the digits before and after
the point, whether the exponent has a minus sign, and the digits of the
exponent (empty without an exponent). -/
structure NumberParts where
  intDigits : List Char
  fracDigits : List Char
  expNegative : Bool
  expDigits : List Char

/-- The parts of a literal of the number grammar. -/
def numberParts (text : List Char) : NumberParts :=
  let unsigned := if text.head? = some '-' then text.tail else text
  let intDigits := unsigned.takeWhile Char.isDigit
  let afterInt := unsigned.dropWhile Char.isDigit
  let fracDigits := if afterInt.head? = some '.' then afterInt.tail.takeWhile Char.isDigit else []
  let afterFrac :=
    if afterInt.head? = some '.' then afterInt.tail.dropWhile Char.isDigit else afterInt
  let exponent := afterFrac.tail
  let signed : Bool := exponent.head? = some '-' ∨ exponent.head? = some '+'
  { intDigits := intDigits
    fracDigits := fracDigits
    expNegative := exponent.head? = some '-'
    expDigits := if signed then exponent.tail else exponent }

/-- The least magnitude that `strconv.ParseFloat(s, 64)` reports as out of
range: `2^1024 - 2^970 = (2^54 - 1) * 2^970`, half-way between the largest
`float64` and `2^1024` (the nearest `float64` is taken, a tie goes to the even
mantissa). -/
def float64Overflow : Nat := (2 ^ 54 - 1) * (2 ^ 194) ^ 5

/-- The power `10^n`. -/
def pow10 : Nat → Nat
  | 0 => 1
  | n + 1 => 10 * pow10 n

/-- Whether `strconv.ParseFloat(s, 64)` returns a range error for a literal of
the number grammar: the magnitude `mantissa * 10^(exponent - fraction digits)`
is at least `float64Overflow`. A literal that is too small in magnitude gives
zero without an error. The two comparisons that avoid a large power agree with
the exact one: a non-zero mantissa times `10^309` is out of range, and a
mantissa of at most `down` digits divided by `10^down` is below one. -/
def overflowsFloat64 (text : List Char) : Bool :=
  let parts := numberParts text
  let digits := parts.intDigits ++ parts.fracDigits
  let mantissa := digitsValue 0 digits
  let exponent := digitsValue 0 parts.expDigits
  if mantissa = 0 then false
  else if parts.expNegative = false ∧ parts.fracDigits.length ≤ exponent then
    let up := exponent - parts.fracDigits.length
    if 308 < up then true else decide (float64Overflow ≤ mantissa * pow10 up)
  else
    let down :=
      if parts.expNegative then exponent + parts.fracDigits.length
      else parts.fracDigits.length - exponent
    if digits.length ≤ down then false else decide (float64Overflow * pow10 down ≤ mantissa)

/-- The value of an atom: a literal name or a number. A number is stored in an
`interface{}` as the `float64` that `strconv.ParseFloat` returns; when that
call reports a range error `json.Unmarshal` returns an error for every target
used here (an `UnmarshalTypeError`, also when the number is an element that
would be a type error anyway), so such a literal has no value. -/
def atomValue (text : List Char) : Option JSON :=
  if text = "true".data then some (.bool true)
  else if text = "false".data then some (.bool false)
  else if text = "null".data then some .null
  else if isNumber .start text then
    if overflowsFloat64 text then none else some (.number (String.mk text))
  else none

/-- An array or object that is being read: its items or members so far, most
recent first, and for an object the key that waits for its value. -/
inductive Frame where
  | arr (items : List JSON)
  | obj (members : List (String × JSON)) (key : Option String)

/-- What the parser accepts next. -/
inductive Expect where
  | value
  | valueOrEnd
  | key
  | keyOrEnd
  | colon
  | commaOrEnd
  | done
deriving DecidableEq

/-- The state of the parser: the open arrays and objects, innermost first, what
is accepted next, and the value of the text once it is complete. -/
structure ParseState where
  stack : List Frame
  expect : Expect
  result : Option JSON

/-- The limit `maxNestingDepth` of the scanner. -/
def maxNestingDepth : Nat := 10000

/-- A value is complete: it becomes the value of the text, an item of the
innermost array or the value of the waiting key of the innermost object. -/
def complete (v : JSON) (stack : List Frame) : Option ParseState :=
  match stack with
  | [] => some { stack := [], expect := .done, result := some v }
  | .arr items :: rest =>
    some { stack := .arr (v :: items) :: rest, expect := .commaOrEnd, result := none }
  | .obj members (some key) :: rest =>
    some { stack := .obj ((key, v) :: members) none :: rest, expect := .commaOrEnd,
           result := none }
  | .obj _ none :: _ => none

/-- An array or object is opened. -/
def push (f : Frame) (next : Expect) (stack : List Frame) : Option ParseState :=
  if (f :: stack).length ≤ maxNestingDepth then
    some { stack := f :: stack, expect := next, result := none }
  else none

/-- One step of the parser. -/
def parseStep (st : ParseState) (t : Token) : Option ParseState :=
  let wantsValue : Bool := st.expect = .value ∨ st.expect = .valueOrEnd
  match t with
  | .atom text =>
    if wantsValue then
      match atomValue text with
      | some v => complete v st.stack
      | none => none
    else none
  | .str s =>
    if wantsValue then complete (.str s) st.stack
    else if st.expect = .key ∨ st.expect = .keyOrEnd then
      match st.stack with
      | .obj members none :: rest =>
        some { stack := .obj members (some s) :: rest, expect := .colon, result := none }
      | _ => none
    else none
  | .beginArray => if wantsValue then push (.arr []) .valueOrEnd st.stack else none
  | .beginObject => if wantsValue then push (.obj [] none) .keyOrEnd st.stack else none
  | .endArray =>
    if st.expect = .valueOrEnd ∨ st.expect = .commaOrEnd then
      match st.stack with
      | .arr items :: rest => complete (.arr items.reverse) rest
      | _ => none
    else none
  | .endObject =>
    if st.expect = .keyOrEnd ∨ st.expect = .commaOrEnd then
      match st.stack with
      | .obj members none :: rest => complete (.obj members.reverse) rest
      | _ => none
    else none
  | .comma =>
    if st.expect = .commaOrEnd then
      match st.stack with
      | .arr _ :: _ => some { st with expect := .value }
      | .obj _ none :: _ => some { st with expect := .key }
      | _ => none
    else none
  | .colon => if st.expect = .colon then some { st with expect := .value } else none

/-- The parser on a list of tokens. -/
def parseTokens : ParseState → List Token → Option JSON
  | st, [] => if st.expect = .done then st.result else none
  | st, t :: ts =>
    match parseStep st t with
    | some st1 => parseTokens st1 ts
    | none => none

/-- The value of a JSON text, or `none` when the text is not valid JSON or
holds a number outside the range of `float64`. -/
def decode (text : String) : Option JSON :=
  match lex .normal [] text.data with
  | some tokens => parseTokens { stack := [], expect := .value, result := none } tokens
  | none => none

/-- The call `json.Unmarshal([]byte(text), &m)` for a nil
`m map[string]interface{}`: `none` when it returns an error. A `null` leaves
the map nil. -/
def unmarshalObject (text : String) : Option (List (String × JSON)) :=
  match decode text with
  | some (.obj members) => some members
  | some .null => some []
  | _ => none

/-- The elements of a `[]map[string]interface{}` for the items of an array. -/
def objectItems : List JSON → Option (List (List (String × JSON)))
  | [] => some []
  | .obj members :: rest => (objectItems rest).map (fun tail => members :: tail)
  | .null :: rest => (objectItems rest).map (fun tail => [] :: tail)
  | _ :: _ => none

/-- The call `json.Unmarshal([]byte(text), &l)` for a nil
`l []map[string]interface{}`: `none` when it returns an error. A `null` leaves
the slice nil. -/
def unmarshalObjectArray (text : String) : Option (List (List (String × JSON))) :=
  match decode text with
  | some (.arr items) => objectItems items
  | some .null => some []
  | _ => none

/-- The value `m[key]` of a decoded object. -/
def lookup (members : List (String × JSON)) (key : String) : Option JSON :=
  (members.reverse.find? (fun member => member.fst == key)).map (fun member => member.snd)

/-- The literal of a number. -/
def JSON.numberLiteral : JSON → Option String
  | .number literal => some literal
  | _ => none

end Json

/-! ## The settings cache (`services/serversettings/serversettings.go`) -/

namespace Model

/-- The function `DefaultGraphicsOptions`. -/
def DefaultGraphicsOptions : String :=
  "[\n\t\t\x7b\"level\": 1, \"isDefault\": 0, \"shadow\": 0, \"maxParticles\": 1000, \"renderScale\": 0.8\x7d,\n\t\t\x7b\"level\": 3, \"isDefault\": 1, \"shadow\": 1, \"maxParticles\": 5000, \"renderScale\": 1\x7d\n\t]"

/-- The function `DefaultMiscOptions`. -/
def DefaultMiscOptions : String :=
  "\x7b\"outline\": 1, \"HFR\": 1, \"BRHFR\": 1, \"HFX\": 1\x7d"

end Model

namespace Serversettings

/-- The table `dmm_settings` as the package sees it: its rows, whether
`db.DB.First` fails with an error other than `gorm.ErrRecordNotFound`, whether
`db.DB.Create` fails, and the number of calls of `db.DB.Create` so far. -/
structure SettingsDB where
  rows : List Model.ServerSettings
  readFailing : Bool
  createFailing : Bool
  createAttempts : Nat
deriving DecidableEq

/-- The package-level variables of `serversettings.go` and the settings table;
`currentSettings` is `none` until a value is stored. No function of the package
calls another one while it holds `refreshMutex`, so in a run of one goroutine
every `Lock()` succeeds and the mutex is left out. -/
structure State where
  currentSettings : Option Model.ServerSettings
  activityInWindow : Bool
  lastRefreshTime : Time
  noActivityStreakStartTime : Time
  db : SettingsDB
deriving DecidableEq

/-- The constant `refreshInterval = 55 * time.Second`, in nanoseconds. -/
def refreshInterval : Int := 55 * 1000000000
/-- The constant `maxNoActivityDuration = 15 * time.Minute`, in nanoseconds. -/
def maxNoActivityDuration : Int := 15 * 60 * 1000000000

/-- The value `model.ServerSettings` with the default option texts and every
other field zero. -/
def defaultRow : Model.ServerSettings :=
  { GraphicsOptions := Model.DefaultGraphicsOptions
    MiscOptions := Model.DefaultMiscOptions
    ServerIP := none
    ServerPort := none
    ServerOverDayTimeStamp := 0
    PlaytimeSettings := .empty }

/-- The statement `db.DB.Create(&settings)`. -/
def SettingsDB.create (db : SettingsDB) (row : Model.ServerSettings) : SettingsDB :=
  if db.createFailing then { db with createAttempts := db.createAttempts + 1 }
  else { db with rows := db.rows ++ [row], createAttempts := db.createAttempts + 1 }

/-- The function `loadSettingsFromDB`. -/
def loadSettingsFromDB (now : Time) (s : State) : State :=
  if s.db.readFailing then s
  else
    match s.db.rows.head? with
    | some settings =>
      { s with currentSettings := some settings, lastRefreshTime := now }
    | none =>
      let defaultGraphicsOptions := Model.DefaultGraphicsOptions
      let defaultMiscOptions := Model.DefaultMiscOptions
      let settings := { defaultRow with
        GraphicsOptions := defaultGraphicsOptions, MiscOptions := defaultMiscOptions }
      let createFailed := s.db.createFailing
      let s := { s with db := s.db.create settings }
      let settings :=
        if createFailed then
          { settings with
            GraphicsOptions := defaultGraphicsOptions, MiscOptions := defaultMiscOptions }
        else settings
      { s with currentSettings := some settings, lastRefreshTime := now }

/-- One iteration of the loop of `startIntelligentTicker`, for a tick at `now`. -/
def tick (now : Time) (s : State) : State :=
  if s.activityInWindow then
    let s := { s with activityInWindow := false }
    let s := { s with noActivityStreakStartTime := Time.zero }
    let s := { s with activityInWindow := false }
    loadSettingsFromDB now s
  else
    let currentTime := now
    if s.noActivityStreakStartTime.IsZero then
      let s := { s with noActivityStreakStartTime := now.Add (-refreshInterval) }
      loadSettingsFromDB now s
    else
      if currentTime.ns - s.noActivityStreakStartTime.ns < maxNoActivityDuration then
        loadSettingsFromDB now s
      else s

/-- The function `GetSettings`: the settings returned and the state after the
call. -/
def GetSettings (now : Time) (s : State) : Model.ServerSettings × State :=
  match s.currentSettings with
  | some settings => (settings, s)
  | none =>
    let s := loadSettingsFromDB now s
    match s.currentSettings with
    | some settings => (settings, s)
    | none =>
      ({ defaultRow with
          GraphicsOptions := Model.DefaultGraphicsOptions
          MiscOptions := Model.DefaultMiscOptions }, s)

/-- The function `NotifyActivity`. -/
def NotifyActivity (s : State) : State := { s with activityInWindow := true }

/-- The function `CheckAndRefreshIfStale`. -/
def CheckAndRefreshIfStale (now : Time) (s : State) : State :=
  if now.ns - s.lastRefreshTime.ns > refreshInterval ∧
      now.ns - s.noActivityStreakStartTime.ns > maxNoActivityDuration then
    let s := loadSettingsFromDB now s
    let s := { s with noActivityStreakStartTime := Time.zero }
    { s with activityInWindow := false }
  else s

/-- A run of the ticker without activity: `count` ticks, the first at
`first`, each `refreshInterval` after the one before. -/
def quietTicks : Nat → Time → State → State
  | 0, _, s => s
  | count + 1, first, s => quietTicks count (first.Add refreshInterval) (tick first s)

/-- The function `ParseGraphicsOptions`. -/
def ParseGraphicsOptions (jsonStr : String) : List (List (String × Json.JSON)) :=
  match Json.unmarshalObjectArray jsonStr with
  | none => (Json.unmarshalObjectArray Model.DefaultGraphicsOptions).getD []
  | some options => options

/-- The function `ParseMiscOptions`. -/
def ParseMiscOptions (jsonStr : String) : List (String × Json.JSON) :=
  match Json.unmarshalObject jsonStr with
  | none => (Json.unmarshalObject Model.DefaultMiscOptions).getD []
  | some options => options

/-- The number literals of the members of a decoded object (`none` for a
member that is not a number). -/
def numberMembers (options : List (String × Json.JSON)) : List (String × Option String) :=
  options.map (fun member => (member.fst, member.snd.numberLiteral))

end Serversettings

/-! ## Histories of the identity record (`model/playerinfo.go`) -/

namespace Json

/-- The elements of a decoded array as Go strings: a `null` element leaves the
zero value, an element of another kind is a type error. -/
def stringItems : List JSON → Option (List String)
  | [] => some []
  | .str s :: rest => (stringItems rest).map (fun tail => s :: tail)
  | .null :: rest => (stringItems rest).map (fun tail => "" :: tail)
  | _ :: _ => none

/-- The call `json.Unmarshal([]byte(text), &l)` for a nil `l []string`: `none`
when it returns an error. A `null` leaves the slice nil. -/
def unmarshalStrings (text : String) : Option (List String) :=
  match decode text with
  | some (.arr items) => stringItems items
  | some .null => some []
  | _ => none

end Json

namespace Model

/-- The method `(p *PlayerInfo) AddDeviceInfo(newDeviceInfo)`; the error it
returns is always nil. The value is replaced by its stable form first. -/
def PlayerInfo.AddDeviceInfo (decodeStrings : String → Option (List String))
    (p : PlayerInfo) (newDeviceInfo : String) : PlayerInfo :=
  let newDeviceInfo := GetStableDeviceInfo newDeviceInfo
  if p.DeviceInfo = "" ∨ p.DeviceInfo = "Invalid value." ∨ p.DeviceInfo = "null" then
    { p with DeviceInfo := newDeviceInfo }
  else
    match decodeStrings p.DeviceInfo with
    | some deviceInfos =>
      if deviceInfos.contains newDeviceInfo then
        { p with DeviceInfo := convertArrayToText deviceInfos }
      else { p with DeviceInfo := convertArrayToText (deviceInfos ++ [newDeviceInfo]) }
    | none =>
      let deviceInfoList := splitTextByDoubleNewline p.DeviceInfo
      if deviceInfoList.contains newDeviceInfo then p
      else if p.DeviceInfo ≠ "" then
        { p with DeviceInfo := p.DeviceInfo ++ "\n\n" ++ newDeviceInfo }
      else { p with DeviceInfo := newDeviceInfo }

/-- The body shared by `GetRealDeviceIDCount`, `GetDeviceInfoCount` and
`GetIPCount` (three copies in the source), on the text of the history. -/
def historyCount (decodeStrings : String → Option (List String)) (text : String) : Nat :=
  if text = "" ∨ text = "Invalid value." ∨ text = "null" then 0
  else
    match decodeStrings text with
    | some items => items.length
    | none => (splitTextByDoubleNewline text).length

/-- The method `(p *PlayerInfo) GetRealDeviceIDCount()`; its error is always nil. -/
def PlayerInfo.GetRealDeviceIDCount (decodeStrings : String → Option (List String))
    (p : PlayerInfo) : Nat :=
  historyCount decodeStrings p.RealDeviceID

/-- The method `(p *PlayerInfo) GetDeviceInfoCount()`; its error is always nil. -/
def PlayerInfo.GetDeviceInfoCount (decodeStrings : String → Option (List String))
    (p : PlayerInfo) : Nat :=
  historyCount decodeStrings p.DeviceInfo

/-- The method `(p *PlayerInfo) GetIPCount()`; its error is always nil. No
function of the repository calls it. -/
def PlayerInfo.GetIPCount (decodeStrings : String → Option (List String))
    (p : PlayerInfo) : Nat :=
  historyCount decodeStrings p.IP

end Model

namespace DB

/-- The query `db.DB.Where("role_id = ?", roleID).First(&existingPlayerInfo)`. -/
def firstPlayerInfoByRole (db : DB) (roleID : Int) : Option Model.PlayerInfo :=
  db.playerInfo.find? (fun p => p.RoleID == roleID)

end DB

/-! ## Recording the client address (`utils/ip_utils.go`) -/

namespace Utils

/-- The function `RecordClientIP` for a request whose client address
(`GetClientIP(c)`) is `ip`, on a database whose statements succeed: the error it
returns and the tables after the call. -/
def RecordClientIP (decodeStrings : String → Option (List String)) (ip deviceID : String)
    (db : DB) : Option Error × DB :=
  if ip = "" then (none, db)
  else
    match db.firstPlayerData deviceID with
    | none => (some Error.ErrRecordNotFound, db)
    | some playerData =>
      match db.firstPlayerInfo deviceID with
      | none =>
        match db.firstPlayerInfoByRole playerData.RoleID with
        | some _ => (some (Error.gameError (-3001)), db)
        | none =>
          let playerInfo : Model.PlayerInfo :=
            { DeviceID := deviceID, RoleID := playerData.RoleID, RealDeviceID := "",
              DeviceInfo := "", IP := ip }
          (none, db.createPlayerInfo playerInfo)
      | some playerInfo =>
        match db.firstPlayerData deviceID with
        | none => (some Error.ErrRecordNotFound, db)
        | some playerData =>
          if playerInfo.RoleID ≠ playerData.RoleID then (some (Error.gameError (-3001)), db)
          else
            let playerInfo := playerInfo.AddIP decodeStrings ip
            (none, db.savePlayerInfo playerInfo)

end Utils

/-! ## The device information of a login (`handler/30065.go`) -/

namespace Handler

/-- Step 4 of `handle30065` (the update of the device information), on a
database whose statements succeed. Steps 1 to 3 have passed: `deviceID` and
`deviceInfo` are the non-empty fields of the message and `playerData` is the row
of `dmm_playerdata` step 2 found for `deviceID`. The field `realDeviceID` of the
message is `none` when it is missing or not a string. The result is the error
of the handler (`none` when it goes on to build the response) and the tables
after the call. -/
def handle30065 (decodeStrings : String → Option (List String))
    (playerData : Model.PlayerData) (deviceID deviceInfo : String)
    (realDeviceID : Option String) (db : DB) : Option Error × DB :=
  match realDeviceID with
  | none => (some (Error.gameError (-5)), db)
  | some realDeviceID =>
    if realDeviceID = "" then (some (Error.gameError (-5)), db)
    else
      match db.firstPlayerInfo deviceID with
      | none =>
        match db.firstPlayerInfoByRole playerData.RoleID with
        | some _ => (some (Error.gameError (-15)), db)
        | none =>
          let playerInfo : Model.PlayerInfo :=
            { DeviceID := deviceID, RoleID := playerData.RoleID, RealDeviceID := "",
              DeviceInfo := "", IP := "" }
          let playerInfo := playerInfo.AddRealDeviceID decodeStrings realDeviceID
          let playerInfo := playerInfo.AddDeviceInfo decodeStrings deviceInfo
          (none, db.createPlayerInfo playerInfo)
      | some playerInfo =>
        let realDeviceIDCount := playerInfo.GetRealDeviceIDCount decodeStrings
        let deviceInfoCount := playerInfo.GetDeviceInfoCount decodeStrings
        if realDeviceIDCount ≥ 10 ∨ deviceInfoCount ≥ 10 then
          (some (Error.gameError (-14)), db)
        else
          let playerInfo := playerInfo.AddRealDeviceID decodeStrings realDeviceID
          let playerInfo := playerInfo.AddDeviceInfo decodeStrings deviceInfo
          (none, db.savePlayerInfo playerInfo)

end Handler

/-! ## Words of the specification and example values -/

namespace Model

/-- The ASCII digits. -/
def asciiDigits : List Char := "0123456789".data

/-- A non-empty string of ASCII digits. -/
def IsDigits (m : String) : Prop := m ≠ "" ∧ ∀ c ∈ m.data, c ∈ asciiDigits

/-- The string ends in `<digits>MB_<digits>`. -/
def EndsInMemoryToken (s : String) : Prop :=
  ∃ before m n : String, IsDigits m ∧ IsDigits n ∧ s = before ++ m ++ "MB_" ++ n

/-- The device information of the comment of `GetStableDeviceInfo`, up to the
memory size token. -/
def exampleDeviceInfoHead : String :=
  "OnePlus PJF110_Android OS 14 / API-34 (UP1A.231005.007/U.19fe0de^3e4c^3e4d)_15315MB_ARM64 FP ASIMD AES_Adreno (TM) 732_OpenGLES3_4096MB_8_5606"

end Model

namespace Banning

/-- A ban table that can be scanned. -/
def exampleTable (rows : List String) : BanTable := { rows := rows, failing := false }

/-- A registry that has loaded the address `1.2.3.4`, the device `D7`, the
hardware id `hw7` and one device information, from tables that hold the same. -/
def exampleState : State :=
  { ipBans := ["1.2.3.4"]
    deviceIDBans := ["D7"]
    realDeviceIDBans := ["hw7"]
    deviceInfoBans := ["Phone_8_50"]
    activityInWindow := false
    lastRefreshTime := Time.zero
    noActivityStreakStartTime := Time.zero
    db := { banIP := exampleTable ["1.2.3.4"]
            banDeviceID := exampleTable ["D7"]
            banRealDeviceID := exampleTable ["hw7"]
            banDeviceInfo := exampleTable ["Phone_8_4096MB_50"] } }

/-- The registry of `exampleState` at a moment when the scan of `Ban_IP` fails. -/
def stateScanFails : State :=
  { exampleState with
    db := { exampleState.db with banIP := { rows := ["1.2.3.4"], failing := true } } }

end Banning

namespace Serversettings

/-- A settings cache before its first load. -/
def exampleState (db : SettingsDB) : State :=
  { currentSettings := none
    activityInWindow := false
    lastRefreshTime := Time.zero
    noActivityStreakStartTime := Time.zero
    db := db }

/-- An empty settings table that rejects every insert. -/
def stateCreateFails : State :=
  exampleState { rows := [], readFailing := false, createFailing := true, createAttempts := 0 }

/-- An empty settings table that accepts inserts. -/
def stateEmptyTable : State :=
  exampleState { rows := [], readFailing := false, createFailing := false, createAttempts := 0 }

/-- A settings table that cannot be read. -/
def stateReadFails : State :=
  exampleState { rows := [], readFailing := true, createFailing := false, createAttempts := 0 }

end Serversettings

namespace Banning

/-- The iterations of the loop of `startIntelligentTicker` for ticks at the
given instants, in order. -/
def ticks : List Time → State → State
  | [], s => s
  | now :: later, s => ticks later (tick now s)

/-- A registry over the tables of `exampleState` that holds no ban yet and
whose last reload was 60 seconds before `2024-01-01T20:00:00Z`. -/
def stateUnloaded : State :=
  { exampleState with
    ipBans := []
    deviceIDBans := []
    realDeviceIDBans := []
    deviceInfoBans := []
    lastRefreshTime := Playtime.exampleNow.Add (-(60 * 1000000000)) }

/-- The registry of `exampleState` after a reload at `2024-01-01T20:00:00Z`,
with a quiet streak that started 20 minutes before. -/
def statePaused : State :=
  { exampleState with
    lastRefreshTime := Playtime.exampleNow
    noActivityStreakStartTime := Playtime.exampleNow.Add (-(20 * 60 * 1000000000)) }

end Banning

namespace Serversettings

/-- The iterations of the loop of `startIntelligentTicker` for ticks at the
given instants, in order. -/
def ticks : List Time → State → State
  | [], s => s
  | now :: later, s => ticks later (tick now s)

/-- A settings cache over a readable table with one row, loaded 60 seconds
before `2024-01-01T20:00:00Z`, whose quiet streak started 5 minutes before
that instant. -/
def stateStaleInGrace : State :=
  { currentSettings := some defaultRow
    activityInWindow := false
    lastRefreshTime := Playtime.exampleNow.Add (-(60 * 1000000000))
    noActivityStreakStartTime := Playtime.exampleNow.Add (-(5 * 60 * 1000000000))
    db := { rows := [defaultRow], readFailing := false, createFailing := false,
            createAttempts := 0 } }

/-- The settings cache of `stateStaleInGrace` with a quiet streak that started
20 minutes before `2024-01-01T20:00:00Z`. -/
def stateStalePaused : State :=
  { stateStaleInGrace with
    noActivityStreakStartTime := Playtime.exampleNow.Add (-(20 * 60 * 1000000000)) }

end Serversettings

namespace Playtime

/-- The device `D1` has a row in `dmm_playerdata` and a cached record with a
session that started at the zero instant plus one nanosecond. -/
def stateSession : State :=
  exampleState [("D1", exampleSession 100 500 ⟨1⟩)]
    [{ DeviceID := "D1", RoleID := 1, PlaytimeData := .empty }] []

end Playtime

namespace Model

/-- The string ends in `<digits>MB`. -/
def EndsInMemorySize (p : String) : Prop :=
  ∃ before m : String, IsDigits m ∧ p = before ++ m ++ "MB"

end Model

namespace Banning

/-- The registry of `exampleState` over a table `Ban_DeviceInfo` whose only row
is `x_1MB_3`, the stable form of the device information `x_1MB_2MB_3`. -/
def stateStoredStable : State :=
  { exampleState with
    db := { exampleState.db with banDeviceInfo := exampleTable ["x_1MB_3"] } }

end Banning

namespace Model

/-- A value of a history in the words of the specification: not empty and
without a newline (the character of code 10). -/
def IsHistoryValue (v : String) : Prop := v ≠ "" ∧ ∀ c ∈ v.data, c.toNat ≠ 10

/-- The text is the double-newline-separated format of the entries, each of
them a value. -/
def IsHistoryOf (text : String) (entries : List String) : Prop :=
  text = convertArrayToText entries ∧ ∀ e ∈ entries, IsHistoryValue e

/-- A column that the `Add` methods and the counters read as a history in the
double-newline-separated format with the given entries: it is the format of
the entries, it is not one of the two texts that stand for no value, and it
does not decode as a JSON array of strings. -/
def IsStoredHistory (decodeStrings : String → Option (List String)) (text : String)
    (entries : List String) : Prop :=
  IsHistoryOf text entries ∧ text ≠ "Invalid value." ∧ text ≠ "null" ∧
    decodeStrings text = none

/-- The entries of a deduplicated append-only history after the value `v` is
recorded. -/
def recordValue (entries : List String) (v : String) : List String :=
  if v ∈ entries then entries else entries ++ [v]

/-- An identity record without any history. -/
def emptyInfo : PlayerInfo :=
  { DeviceID := "D1", RoleID := 1, RealDeviceID := "", DeviceInfo := "", IP := "" }

end Model

namespace Model

/-- An identity record whose address history holds `1.1.1.1` and `2.2.2.2`. -/
def infoTwoAddresses : PlayerInfo :=
  { emptyInfo with IP := "1.1.1.1\n\n2.2.2.2" }

end Model

namespace Handler

/-- The row of `dmm_playerdata` of the device `D1`. -/
def exampleRow : Model.PlayerData := { DeviceID := "D1", RoleID := 1, PlaytimeData := .empty }

/-- The tables in which the identity record of `D1` lists ten addresses,
`10.0.0.1` to `10.0.0.10`, and no other history. -/
def dbTenAddresses : DB :=
  { playerData := [exampleRow]
    playerInfo := [{ Model.emptyInfo with
      IP := "10.0.0.1\n\n10.0.0.2\n\n10.0.0.3\n\n10.0.0.4\n\n10.0.0.5\n\n10.0.0.6\n\n10.0.0.7\n\n10.0.0.8\n\n10.0.0.9\n\n10.0.0.10" }]
    serverSettings := [] }

/-- The tables in which the identity record of `D1` lists ten hardware ids,
`hw1` to `hw10`, and the device information `Phone_8_50`. -/
def dbTenDevices : DB :=
  { playerData := [exampleRow]
    playerInfo := [{ Model.emptyInfo with
      RealDeviceID := "hw1\n\nhw2\n\nhw3\n\nhw4\n\nhw5\n\nhw6\n\nhw7\n\nhw8\n\nhw9\n\nhw10"
      DeviceInfo := "Phone_8_50" }]
    serverSettings := [] }

/-- The tables in which the identity record of `D1` lists the hardware id
`hw1` and the device information `Phone_8_50`. -/
def dbOneDevice : DB :=
  { playerData := [exampleRow]
    playerInfo := [{ Model.emptyInfo with RealDeviceID := "hw1", DeviceInfo := "Phone_8_50" }]
    serverSettings := [] }

end Handler

namespace Banning

/-- The four sets of the registry hold what the scans of the tables return
(`BanTable.find`: the rows, or nothing for a scan that fails): every address,
device and hardware id of a row, and the stable form of every device
information of a row, and nothing else. -/
def HoldsBansOf (s : State) (tables : BanDB) : Prop :=
  (∀ x : String, x ∈ s.ipBans ↔ x ∈ tables.banIP.find) ∧
  (∀ x : String, x ∈ s.deviceIDBans ↔ x ∈ tables.banDeviceID.find) ∧
  (∀ x : String, x ∈ s.realDeviceIDBans ↔ x ∈ tables.banRealDeviceID.find) ∧
  (∀ x : String, x ∈ s.deviceInfoBans ↔
    ∃ b ∈ tables.banDeviceInfo.find, Model.GetStableDeviceInfo b = x)

end Banning

namespace Serversettings

/-- The cache holds the snapshot a reload at `now` publishes from the table
`db`: the first row, or the default row when the table is empty, stamped with
`now`. -/
def PublishedFrom (s : State) (db : SettingsDB) (now : Time) : Prop :=
  s.currentSettings = some (db.rows.head?.getD defaultRow) ∧ s.lastRefreshTime = now

end Serversettings

/-! ## Theorems -/

theorem wrapInt64_of_range (x : Int) (h1 : -9223372036854775808 ≤ x)
    (h2 : x < 9223372036854775808) : wrapInt64 x = x := by
  unfold wrapInt64; omega

namespace I64

theorem ext_val {a b : I64} (h : a.val = b.val) : a = b := by
  cases a; cases b; simp_all

theorem lt_def (a b : I64) : a < b ↔ a.val < b.val := Iff.rfl
theorem le_def (a b : I64) : a ≤ b ↔ a.val ≤ b.val := Iff.rfl
theorem add_val (a b : I64) : (a + b).val = wrapInt64 (a.val + b.val) := rfl
theorem sub_val (a b : I64) : (a - b).val = wrapInt64 (a.val - b.val) := rfl
theorem zero_val : (0 : I64).val = 0 := by decide

end I64

namespace Playtime

/-! ### The cache -/

theorem cacheLoad_cacheStore_same (key : String) (value : PlayerPlaytimeData)
    (cache : List (String × PlayerPlaytimeData)) :
    cacheLoad (cacheStore key value cache) key = some value := by
  induction cache with
  | nil => simp [cacheStore, cacheLoad]
  | cons entry rest ih =>
    obtain ⟨k, v⟩ := entry
    by_cases hk : k = key
    · simp [cacheStore, cacheLoad, hk]
    · simp [cacheStore, cacheLoad, hk, ih]

theorem cacheLoad_cacheStore_other (key other : String) (value : PlayerPlaytimeData)
    (cache : List (String × PlayerPlaytimeData)) (hne : other ≠ key) :
    cacheLoad (cacheStore key value cache) other = cacheLoad cache other := by
  induction cache with
  | nil => simp [cacheStore, cacheLoad, Ne.symm hne]
  | cons entry rest ih =>
    obtain ⟨k, v⟩ := entry
    by_cases hk : k = key
    · have hko : ¬ k = other := fun h => hne (h.symm.trans hk)
      simp [cacheStore, cacheLoad, hk, Ne.symm hne]
    · by_cases hko : k = other
      · subst hko
        simp [cacheStore, cacheLoad, hk]
      · simp [cacheStore, cacheLoad, hk, hko, ih]

theorem cacheLoad_map (f : PlayerPlaytimeData → PlayerPlaytimeData)
    (cache : List (String × PlayerPlaytimeData)) (key : String) :
    cacheLoad (cache.map (fun entry => (entry.fst, f entry.snd))) key
      = (cacheLoad cache key).map f := by
  induction cache with
  | nil => simp [cacheLoad]
  | cons entry rest ih =>
    obtain ⟨k, v⟩ := entry
    by_cases hk : k = key
    · simp [cacheLoad, hk]
    · simp [cacheLoad, hk, ih]

/-! ### The consumption step -/

/-- The consumption step on non-negative inputs: the bonus is drained first,
the rest is taken from the daily time, both are clamped at 0. -/
theorem consumeElapsed_spec (data : PlayerPlaytimeData) (e : I64) (now : Time)
    (hB : 0 ≤ data.TodayExtraTime.val) (hD : 0 ≤ data.DailyPlayTime.val) (he : 0 ≤ e.val) :
    (consumeElapsed data e now).TodayExtraTime.val = max 0 (data.TodayExtraTime.val - e.val) ∧
    (consumeElapsed data e now).DailyPlayTime.val
      = max 0 (data.DailyPlayTime.val - max 0 (e.val - data.TodayExtraTime.val)) ∧
    (consumeElapsed data e now).LastLoginTime = now ∧
    0 ≤ (consumeElapsed data e now).TodayExtraTime.val ∧
    0 ≤ (consumeElapsed data e now).DailyPlayTime.val := by
  have hB2 := data.TodayExtraTime.hi
  have hD2 := data.DailyPlayTime.hi
  have he2 := e.hi
  unfold consumeElapsed
  simp only [GT.gt, GE.ge, I64.lt_def, I64.le_def, I64.zero_val]
  split_ifs <;>
    simp_all only [I64.sub_val, I64.zero_val, I64.lt_def, I64.le_def, true_and, and_true] <;>
    (unfold wrapInt64 at *; omega)

/-! ### `GetPlayerPlaytimeData` -/

theorem GetPlayerPlaytimeData_hit (deviceID : String) (now : Time) (s : State)
    (data : PlayerPlaytimeData) (h : cacheLoad s.playerPlaytimeCache deviceID = some data) :
    GetPlayerPlaytimeData deviceID now s
      = (.ok { data with RemainingTime := data.DailyPlayTime + data.TodayExtraTime }, s) := by
  simp [GetPlayerPlaytimeData, h]

/-- A record returned by `GetPlayerPlaytimeData` is the cached record of the
state after the call with the derived `RemainingTime` filled in. -/
theorem GetPlayerPlaytimeData_ok (deviceID : String) (now : Time) (s s1 : State)
    (data : PlayerPlaytimeData) (h : GetPlayerPlaytimeData deviceID now s = (.ok data, s1)) :
    ∃ r, cacheLoad s1.playerPlaytimeCache deviceID = some r ∧
      data = { r with RemainingTime := r.DailyPlayTime + r.TodayExtraTime } := by
  unfold GetPlayerPlaytimeData at h
  split at h
  · rename_i cached hc
    simp only [Prod.mk.injEq, Result.ok.injEq] at h
    obtain ⟨hd, hs⟩ := h
    subst hs
    exact ⟨cached, hc, hd.symm⟩
  · split at h
    · simp at h
    · simp only [Prod.mk.injEq, Result.ok.injEq] at h
      obtain ⟨hd, hs⟩ := h
      subst hs
      refine ⟨data, ?_, ?_⟩
      · simp only [← hd]
        exact cacheLoad_cacheStore_same _ _ _
      · rw [← hd]

/-- The call `GetPlayerPlaytimeData` changes nothing but the cache. -/
theorem GetPlayerPlaytimeData_frame (deviceID : String) (now : Time) (s : State) :
    (GetPlayerPlaytimeData deviceID now s).2
      = { s with playerPlaytimeCache := (GetPlayerPlaytimeData deviceID now s).2.playerPlaytimeCache } := by
  unfold GetPlayerPlaytimeData
  split
  · rfl
  · split <;> rfl

/-- The play time fields after the consumption step depend only on the play
time fields before it. -/
theorem consumeElapsed_congr (d1 d2 : PlayerPlaytimeData) (e : I64) (t : Time)
    (hD : d1.DailyPlayTime = d2.DailyPlayTime) (hB : d1.TodayExtraTime = d2.TodayExtraTime) :
    (consumeElapsed d1 e t).DailyPlayTime = (consumeElapsed d2 e t).DailyPlayTime ∧
    (consumeElapsed d1 e t).TodayExtraTime = (consumeElapsed d2 e t).TodayExtraTime := by
  unfold consumeElapsed
  simp only [hD, hB]
  split_ifs <;> exact ⟨rfl, rfl⟩

theorem consumeElapsed_lastLogin (d : PlayerPlaytimeData) (e : I64) (t : Time) :
    (consumeElapsed d e t).LastLoginTime = t := by
  unfold consumeElapsed
  rfl

/-! ### `UpdatePlaytimeOnRequest` -/

theorem requestRecord_fields (ip realDeviceID : String) (data : PlayerPlaytimeData) :
    (requestRecord ip realDeviceID data).DailyPlayTime = data.DailyPlayTime ∧
    (requestRecord ip realDeviceID data).TodayExtraTime = data.TodayExtraTime ∧
    (requestRecord ip realDeviceID data).LastLoginTime = data.LastLoginTime := by
  unfold requestRecord
  split_ifs <;> exact ⟨rfl, rfl, rfl⟩

theorem recordDeviceInfo_cache (decodeStrings : String → Option (List String))
    (ip realDeviceID deviceID : String) (s : State) :
    (recordDeviceInfo decodeStrings ip realDeviceID deviceID s).playerPlaytimeCache
      = s.playerPlaytimeCache := by
  unfold recordDeviceInfo
  split
  · rfl
  · split <;> rfl

/-- With an active session, `UpdatePlaytimeOnRequest` stores the consumed record
and reports the quota error exactly when both components are used up. -/
theorem UpdatePlaytimeOnRequest_active (decodeStrings : String → Option (List String))
    (ip realDeviceID deviceID : String) (elapsed : I64) (now : Time) (s s1 : State)
    (data : PlayerPlaytimeData)
    (hget : GetPlayerPlaytimeData deviceID now (NotifyActivity s) = (.ok data, s1))
    (hactive : data.LastLoginTime.IsZero = false) :
    (UpdatePlaytimeOnRequest decodeStrings ip realDeviceID deviceID elapsed now s).2.playerPlaytimeCache
      = cacheStore deviceID (consumeElapsed (requestRecord ip realDeviceID data) elapsed now)
          s1.playerPlaytimeCache ∧
    ((UpdatePlaytimeOnRequest decodeStrings ip realDeviceID deviceID elapsed now s).1
        = some quotaExhausted ↔
      ((consumeElapsed (requestRecord ip realDeviceID data) elapsed now).DailyPlayTime ≤ 0 ∧
       (consumeElapsed (requestRecord ip realDeviceID data) elapsed now).TodayExtraTime ≤ 0)) := by
  have hact : (requestRecord ip realDeviceID data).LastLoginTime.IsZero = false := by
    rw [(requestRecord_fields ip realDeviceID data).2.2]; exact hactive
  unfold UpdatePlaytimeOnRequest
  simp only [hget, hact, Bool.not_false, if_true]
  by_cases hq : (consumeElapsed (requestRecord ip realDeviceID data) elapsed now).DailyPlayTime ≤ 0 ∧
      (consumeElapsed (requestRecord ip realDeviceID data) elapsed now).TodayExtraTime ≤ 0
  · simp only [hq, and_self, if_true, iff_true]
    exact ⟨rfl, trivial⟩
  · simp only [hq, if_false, iff_false, recordDeviceInfo_cache]
    exact ⟨rfl, by simp⟩

/-- Without an active session, `UpdatePlaytimeOnRequest` returns nil and leaves
the cache as `GetPlayerPlaytimeData` left it. -/
theorem UpdatePlaytimeOnRequest_idle (decodeStrings : String → Option (List String))
    (ip realDeviceID deviceID : String) (elapsed : I64) (now : Time) (s s1 : State)
    (data : PlayerPlaytimeData)
    (hget : GetPlayerPlaytimeData deviceID now (NotifyActivity s) = (.ok data, s1))
    (hidle : data.LastLoginTime.IsZero = true) :
    (UpdatePlaytimeOnRequest decodeStrings ip realDeviceID deviceID elapsed now s).1 = none ∧
    (UpdatePlaytimeOnRequest decodeStrings ip realDeviceID deviceID elapsed now s).2.playerPlaytimeCache
      = s1.playerPlaytimeCache := by
  have hid : (requestRecord ip realDeviceID data).LastLoginTime.IsZero = true := by
    rw [(requestRecord_fields ip realDeviceID data).2.2]; exact hidle
  unfold UpdatePlaytimeOnRequest
  simp [hget, hid, recordDeviceInfo_cache]

/-- C2: for a record with an active session, bonus `B ≥ 0`, daily `D ≥ 0` and
elapsed whole seconds `e ≥ 0`, `UpdatePlaytimeOnRequest` stores in the cache a
record with `todayExtraTime = max 0 (B - e)`,
`dailyPlayTime = max 0 (D - max 0 (e - B))` and `lastLoginTime` the current time;
both components are `≥ 0`. -/
theorem UpdatePlaytimeOnRequest_consumes (decodeStrings : String → Option (List String))
    (ip realDeviceID deviceID : String) (elapsed : I64) (now : Time) (s s1 : State)
    (data : PlayerPlaytimeData)
    (hget : GetPlayerPlaytimeData deviceID now (NotifyActivity s) = (.ok data, s1))
    (hactive : data.LastLoginTime.IsZero = false)
    (hB : 0 ≤ data.TodayExtraTime.val) (hD : 0 ≤ data.DailyPlayTime.val)
    (he : 0 ≤ elapsed.val) :
    ∃ r, cacheLoad (UpdatePlaytimeOnRequest decodeStrings ip realDeviceID deviceID elapsed
          now s).2.playerPlaytimeCache deviceID = some r ∧
      r.TodayExtraTime.val = max 0 (data.TodayExtraTime.val - elapsed.val) ∧
      r.DailyPlayTime.val
        = max 0 (data.DailyPlayTime.val - max 0 (elapsed.val - data.TodayExtraTime.val)) ∧
      r.LastLoginTime = now ∧ 0 ≤ r.TodayExtraTime.val ∧ 0 ≤ r.DailyPlayTime.val := by
  obtain ⟨hcache, -⟩ := UpdatePlaytimeOnRequest_active decodeStrings ip realDeviceID deviceID
    elapsed now s s1 data hget hactive
  obtain ⟨hfD, hfB, -⟩ := requestRecord_fields ip realDeviceID data
  refine ⟨consumeElapsed (requestRecord ip realDeviceID data) elapsed now, ?_, ?_⟩
  · rw [hcache]; exact cacheLoad_cacheStore_same _ _ _
  · have h := consumeElapsed_spec (requestRecord ip realDeviceID data) elapsed now
      (by rw [hfB]; exact hB) (by rw [hfD]; exact hD) he
    rw [hfB, hfD] at h
    exact h

/-- Witness of `UpdatePlaytimeOnRequest_consumes`: an active session with bonus
100 and daily time 500, 150 seconds elapsed. -/
theorem UpdatePlaytimeOnRequest_consumes_witness :
    ∃ r, cacheLoad (UpdatePlaytimeOnRequest noJSONArray "1.2.3.4" "hw1" "D1" 150
          exampleNow stateActive).2.playerPlaytimeCache "D1" = some r ∧
      r.TodayExtraTime.val = max 0 ((100 : I64).val - (150 : I64).val) ∧
      r.DailyPlayTime.val = max 0 ((500 : I64).val - max 0 ((150 : I64).val - (100 : I64).val)) ∧
      r.LastLoginTime = exampleNow ∧ 0 ≤ r.TodayExtraTime.val ∧ 0 ≤ r.DailyPlayTime.val :=
  UpdatePlaytimeOnRequest_consumes noJSONArray "1.2.3.4" "hw1" "D1" 150 exampleNow stateActive
    (NotifyActivity stateActive)
    (exampleFound 100 500 ⟨1⟩)
    (by decide) (by decide) (by decide) (by decide) (by decide)

/-- Two consumption steps in a row leave `max 0 (B + D - e1 - e2)` in total. -/
theorem consumeElapsed_consumeElapsed (data : PlayerPlaytimeData) (e1 e2 : I64) (t1 t2 : Time)
    (hB : 0 ≤ data.TodayExtraTime.val) (hD : 0 ≤ data.DailyPlayTime.val)
    (h1 : 0 ≤ e1.val) (h2 : 0 ≤ e2.val) :
    (consumeElapsed (consumeElapsed data e1 t1) e2 t2).DailyPlayTime.val
      + (consumeElapsed (consumeElapsed data e1 t1) e2 t2).TodayExtraTime.val
      = max 0 (data.TodayExtraTime.val + data.DailyPlayTime.val - e1.val - e2.val) := by
  obtain ⟨hx1, hd1, -, hxn, hdn⟩ := consumeElapsed_spec data e1 t1 hB hD h1
  obtain ⟨hx2, hd2, -, -, -⟩ :=
    consumeElapsed_spec (consumeElapsed data e1 t1) e2 t2 hxn hdn h2
  rw [hx2, hd2, hx1, hd1]
  omega

/-- C3: for a record with an active session, bonus `B ≥ 0` and daily `D ≥ 0`,
a call of `UpdatePlaytimeOnRequest` with elapsed `e1 ≥ 0` followed by a call
with elapsed `e2 ≥ 0` leaves in the cache a record with
`dailyPlayTime + todayExtraTime = max 0 (B + D - e1 - e2)`; the record is the
consumption step applied twice. -/
theorem UpdatePlaytimeOnRequest_twice (decodeStrings : String → Option (List String))
    (ip1 rd1 ip2 rd2 deviceID : String) (e1 e2 : I64) (t1 t2 : Time) (s s1 : State)
    (data : PlayerPlaytimeData)
    (hget : GetPlayerPlaytimeData deviceID t1 (NotifyActivity s) = (.ok data, s1))
    (hactive : data.LastLoginTime.IsZero = false) (ht1 : t1.IsZero = false)
    (hB : 0 ≤ data.TodayExtraTime.val) (hD : 0 ≤ data.DailyPlayTime.val)
    (h1 : 0 ≤ e1.val) (h2 : 0 ≤ e2.val) :
    ∃ r, cacheLoad (UpdatePlaytimeOnRequest decodeStrings ip2 rd2 deviceID e2 t2
          (UpdatePlaytimeOnRequest decodeStrings ip1 rd1 deviceID e1 t1
            s).2).2.playerPlaytimeCache deviceID = some r ∧
      r.DailyPlayTime = (consumeElapsed (consumeElapsed data e1 t1) e2 t2).DailyPlayTime ∧
      r.TodayExtraTime = (consumeElapsed (consumeElapsed data e1 t1) e2 t2).TodayExtraTime ∧
      r.DailyPlayTime.val + r.TodayExtraTime.val
        = max 0 (data.TodayExtraTime.val + data.DailyPlayTime.val - e1.val - e2.val) := by
  obtain ⟨hcache1, -⟩ := UpdatePlaytimeOnRequest_active decodeStrings ip1 rd1 deviceID
    e1 t1 s s1 data hget hactive
  obtain ⟨hfD, hfB, -⟩ := requestRecord_fields ip1 rd1 data
  obtain ⟨hc1D, hc1B⟩ := consumeElapsed_congr (requestRecord ip1 rd1 data) data e1 t1 hfD hfB
  generalize hs2 : (UpdatePlaytimeOnRequest decodeStrings ip1 rd1 deviceID e1 t1 s).2 = s2
    at hcache1 ⊢
  generalize hc1 : consumeElapsed (requestRecord ip1 rd1 data) e1 t1 = c1 at hcache1 hc1D hc1B
  have hlast : c1.LastLoginTime = t1 := by
    rw [← hc1]; exact consumeElapsed_lastLogin _ _ _
  have hload : cacheLoad (NotifyActivity s2).playerPlaytimeCache deviceID = some c1 := by
    show cacheLoad s2.playerPlaytimeCache deviceID = some c1
    rw [hcache1]; exact cacheLoad_cacheStore_same _ _ _
  have hget2 := GetPlayerPlaytimeData_hit deviceID t2 (NotifyActivity s2) c1 hload
  have hactive2 : ({ c1 with RemainingTime := c1.DailyPlayTime + c1.TodayExtraTime } :
      PlayerPlaytimeData).LastLoginTime.IsZero = false := by
    show c1.LastLoginTime.IsZero = false
    rw [hlast]; exact ht1
  obtain ⟨hcache2, -⟩ := UpdatePlaytimeOnRequest_active decodeStrings ip2 rd2 deviceID
    e2 t2 s2 (NotifyActivity s2) _ hget2 hactive2
  obtain ⟨hgD, hgB, -⟩ := requestRecord_fields ip2 rd2
    { c1 with RemainingTime := c1.DailyPlayTime + c1.TodayExtraTime }
  obtain ⟨hc2D, hc2B⟩ := consumeElapsed_congr
    (requestRecord ip2 rd2 { c1 with RemainingTime := c1.DailyPlayTime + c1.TodayExtraTime })
    (consumeElapsed data e1 t1) e2 t2 (hgD.trans hc1D) (hgB.trans hc1B)
  refine ⟨_, ?_, hc2D, hc2B, ?_⟩
  · rw [hcache2]; exact cacheLoad_cacheStore_same _ _ _
  · rw [hc2D, hc2B]
    exact consumeElapsed_consumeElapsed data e1 e2 t1 t2 hB hD h1 h2

/-- Witness of `UpdatePlaytimeOnRequest_twice`, the example of the
specification: bonus 100 and daily 500; after 150 seconds the bonus is 0 and
the daily time 450; after 500 more seconds the daily time is 0 and the combined
time 0. -/
theorem UpdatePlaytimeOnRequest_twice_witness :
    ((UpdatePlaytimeOnRequest noJSONArray "1.2.3.4" "hw1" "D1" 150 exampleNow
        stateActive).2.playerPlaytimeCache.map
          (fun entry => (entry.fst, entry.snd.TodayExtraTime, entry.snd.DailyPlayTime))
      = [("D1", 0, 450)]) ∧
    ((UpdatePlaytimeOnRequest noJSONArray "1.2.3.4" "hw1" "D1" 500 exampleNow
        (UpdatePlaytimeOnRequest noJSONArray "1.2.3.4" "hw1" "D1" 150 exampleNow
          stateActive).2).2.playerPlaytimeCache.map
          (fun entry => (entry.fst, entry.snd.TodayExtraTime, entry.snd.DailyPlayTime))
      = [("D1", 0, 0)]) ∧
    ∃ r, cacheLoad (UpdatePlaytimeOnRequest noJSONArray "1.2.3.4" "hw1" "D1" 500 exampleNow
          (UpdatePlaytimeOnRequest noJSONArray "1.2.3.4" "hw1" "D1" 150 exampleNow
            stateActive).2).2.playerPlaytimeCache "D1" = some r ∧
      r.DailyPlayTime = (consumeElapsed (consumeElapsed (exampleFound 100 500 ⟨1⟩) 150
        exampleNow) 500 exampleNow).DailyPlayTime ∧
      r.TodayExtraTime = (consumeElapsed (consumeElapsed (exampleFound 100 500 ⟨1⟩) 150
        exampleNow) 500 exampleNow).TodayExtraTime ∧
      r.DailyPlayTime.val + r.TodayExtraTime.val
        = max 0 ((exampleFound 100 500 ⟨1⟩).TodayExtraTime.val
            + (exampleFound 100 500 ⟨1⟩).DailyPlayTime.val - (150 : I64).val - (500 : I64).val) :=
  ⟨by decide, by decide,
    UpdatePlaytimeOnRequest_twice noJSONArray "1.2.3.4" "hw1" "1.2.3.4" "hw1" "D1" 150 500
      exampleNow exampleNow stateActive (NotifyActivity stateActive) (exampleFound 100 500 ⟨1⟩)
      (by decide) (by decide) (by decide) (by decide) (by decide) (by decide) (by decide)⟩

/-- C4: for a record found for the device, `UpdatePlaytimeOnRequest` returns the
quota error (-3001) if and only if the session is active and the record it
stored has `dailyPlayTime ≤ 0` and `todayExtraTime ≤ 0`; with an active session
the stored record is the result of the consumption step; without one the call
returns nil and the cached record keeps its `dailyPlayTime` and
`todayExtraTime`. -/
theorem UpdatePlaytimeOnRequest_quota_iff (decodeStrings : String → Option (List String))
    (ip realDeviceID deviceID : String) (elapsed : I64) (now : Time) (s s1 : State)
    (data : PlayerPlaytimeData)
    (hget : GetPlayerPlaytimeData deviceID now (NotifyActivity s) = (.ok data, s1)) :
    ((UpdatePlaytimeOnRequest decodeStrings ip realDeviceID deviceID elapsed now s).1
        = some quotaExhausted ↔
      (data.LastLoginTime.IsZero = false ∧
        ∃ r, cacheLoad (UpdatePlaytimeOnRequest decodeStrings ip realDeviceID deviceID elapsed
            now s).2.playerPlaytimeCache deviceID = some r ∧
          r.DailyPlayTime ≤ 0 ∧ r.TodayExtraTime ≤ 0)) ∧
    (data.LastLoginTime.IsZero = false →
      cacheLoad (UpdatePlaytimeOnRequest decodeStrings ip realDeviceID deviceID elapsed
          now s).2.playerPlaytimeCache deviceID
        = some (consumeElapsed (requestRecord ip realDeviceID data) elapsed now)) ∧
    (data.LastLoginTime.IsZero = true →
      (UpdatePlaytimeOnRequest decodeStrings ip realDeviceID deviceID elapsed now s).1 = none ∧
      (UpdatePlaytimeOnRequest decodeStrings ip realDeviceID deviceID elapsed
          now s).2.playerPlaytimeCache = s1.playerPlaytimeCache ∧
      ∃ r, cacheLoad (UpdatePlaytimeOnRequest decodeStrings ip realDeviceID deviceID elapsed
            now s).2.playerPlaytimeCache deviceID = some r ∧
        r.DailyPlayTime = data.DailyPlayTime ∧ r.TodayExtraTime = data.TodayExtraTime) := by
  cases hz : data.LastLoginTime.IsZero with
  | false =>
    obtain ⟨hcache, hiff⟩ := UpdatePlaytimeOnRequest_active decodeStrings ip realDeviceID
      deviceID elapsed now s s1 data hget hz
    have hload := cacheLoad_cacheStore_same deviceID
      (consumeElapsed (requestRecord ip realDeviceID data) elapsed now) s1.playerPlaytimeCache
    refine ⟨?_, ?_, ?_⟩
    · rw [hiff, hcache, hload]
      constructor
      · intro h
        exact ⟨rfl, _, rfl, h⟩
      · rintro ⟨-, r, hr, h⟩
        cases hr
        exact h
    · intro _
      rw [hcache, hload]
    · intro h
      cases h
  | true =>
    obtain ⟨hnone, hcache⟩ := UpdatePlaytimeOnRequest_idle decodeStrings ip realDeviceID
      deviceID elapsed now s s1 data hget hz
    obtain ⟨r, hr, hd⟩ := GetPlayerPlaytimeData_ok deviceID now _ s1 data hget
    refine ⟨?_, ?_, ?_⟩
    · rw [hnone]
      constructor
      · intro h
        cases h
      · rintro ⟨h, -⟩
        cases h
    · intro h
      cases h
    · intro _
      refine ⟨hnone, hcache, r, ?_, ?_, ?_⟩
      · rw [hcache]; exact hr
      · rw [hd]
      · rw [hd]

/-- Witness of `UpdatePlaytimeOnRequest_quota_iff`: a session with bonus 100 and
daily time 500 and a request 700 seconds later. -/
theorem UpdatePlaytimeOnRequest_quota_iff_witness :
    GetPlayerPlaytimeData "D1" exampleNow (NotifyActivity stateActive)
      = (.ok (exampleFound 100 500 ⟨1⟩), NotifyActivity stateActive) ∧
    (UpdatePlaytimeOnRequest noJSONArray "1.2.3.4" "hw1" "D1" 700 exampleNow stateActive).1
      = some quotaExhausted ∧
    ((UpdatePlaytimeOnRequest noJSONArray "1.2.3.4" "hw1" "D1" 700 exampleNow stateActive).1
        = some quotaExhausted ↔
      ((exampleFound 100 500 ⟨1⟩).LastLoginTime.IsZero = false ∧
        ∃ r, cacheLoad (UpdatePlaytimeOnRequest noJSONArray "1.2.3.4" "hw1" "D1" 700
            exampleNow stateActive).2.playerPlaytimeCache "D1" = some r ∧
          r.DailyPlayTime ≤ 0 ∧ r.TodayExtraTime ≤ 0)) :=
  ⟨by decide, by decide,
    (UpdatePlaytimeOnRequest_quota_iff noJSONArray "1.2.3.4" "hw1" "D1" 700 exampleNow
      stateActive (NotifyActivity stateActive) (exampleFound 100 500 ⟨1⟩) (by decide)).1⟩

/-- A failing `GetPlayerPlaytimeData` leaves the state as it was. -/
theorem GetPlayerPlaytimeData_err (deviceID : String) (now : Time) (s s1 : State) (e : Error)
    (h : GetPlayerPlaytimeData deviceID now s = (.err e, s1)) : s1 = s := by
  unfold GetPlayerPlaytimeData at h
  split at h
  · simp at h
  · split at h
    · simp only [Prod.mk.injEq] at h
      exact h.2.symm
    · simp at h

/-- The record `GetPlayerPlaytimeData` returns depends on the cached entry of
the device, the database and the settings only. -/
theorem GetPlayerPlaytimeData_congr (deviceID : String) (now : Time) (s t : State)
    (hdb : s.db = t.db) (hset : s.playtimeSettings = t.playtimeSettings)
    (hc : cacheLoad s.playerPlaytimeCache deviceID = cacheLoad t.playerPlaytimeCache deviceID) :
    (GetPlayerPlaytimeData deviceID now s).1 = (GetPlayerPlaytimeData deviceID now t).1 := by
  unfold GetPlayerPlaytimeData
  rw [hdb, hset, hc]
  cases cacheLoad t.playerPlaytimeCache deviceID with
  | some data => rfl
  | none =>
    cases t.db.firstPlayerData deviceID with
    | none => rfl
    | some player => rfl

/-- Reading one device does not change the cached entry of another. -/
theorem GetPlayerPlaytimeData_cache_other (deviceID other : String) (now : Time) (s : State)
    (hne : other ≠ deviceID) :
    cacheLoad (GetPlayerPlaytimeData deviceID now s).2.playerPlaytimeCache other
      = cacheLoad s.playerPlaytimeCache other := by
  unfold GetPlayerPlaytimeData
  split
  · rfl
  · split
    · rfl
    · exact cacheLoad_cacheStore_other _ _ _ _ hne

/-- Reading a device returns the same record after any other read. -/
theorem GetPlayerPlaytimeData_stable (deviceID other : String) (now : Time) (s : State) :
    (GetPlayerPlaytimeData deviceID now (GetPlayerPlaytimeData other now s).2).1
      = (GetPlayerPlaytimeData deviceID now s).1 := by
  by_cases hne : deviceID = other
  · subst hne
    cases hget : GetPlayerPlaytimeData deviceID now s with
    | mk res s1 =>
      cases res with
      | err e =>
        have hs := GetPlayerPlaytimeData_err deviceID now s s1 e hget
        subst hs
        rw [hget]
      | ok data =>
        obtain ⟨r, hr, hd⟩ := GetPlayerPlaytimeData_ok deviceID now s s1 data hget
        rw [GetPlayerPlaytimeData_hit deviceID now s1 r hr, hd]
  · have hframe := GetPlayerPlaytimeData_frame other now s
    apply GetPlayerPlaytimeData_congr
    · rw [hframe]
    · rw [hframe]
    · exact GetPlayerPlaytimeData_cache_other other deviceID now s hne

theorem GetPlayerPlaytimeData_NotifyActivity (deviceID : String) (now : Time) (s : State) :
    (GetPlayerPlaytimeData deviceID now (NotifyActivity s)).1
      = (GetPlayerPlaytimeData deviceID now s).1 :=
  GetPlayerPlaytimeData_congr deviceID now (NotifyActivity s) s rfl rfl rfl

/-! ### The alias scan -/

/-- The entries of a history are never empty. -/
theorem splitTextByDoubleNewline_ne_empty (text entry : String)
    (h : entry ∈ splitTextByDoubleNewline text) : entry ≠ "" := by
  unfold splitTextByDoubleNewline at h
  split at h
  · simp at h
  · simp only [List.mem_map, List.mem_filter] at h
    obtain ⟨chars, ⟨-, hne⟩, rfl⟩ := h
    intro hempty
    have hdata : chars = [] := congrArg String.data hempty
    simp [hdata] at hne

/-- The second round of the alias scan returns the quota error as soon as one
related device has no time left. -/
theorem checkRelated_rejects (now : Time) (ids : List String) (s : State) (related : String)
    (r : PlayerPlaytimeData) (hmem : related ∈ ids)
    (hget : (GetPlayerPlaytimeData related now s).1 = .ok r) (hrem : r.RemainingTime ≤ 0) :
    (checkRelated now ids s).1 = some quotaExhausted := by
  induction ids generalizing s with
  | nil => simp at hmem
  | cons first rest ih =>
    unfold checkRelated
    have hstable := GetPlayerPlaytimeData_stable related first now s
    cases hfirst : GetPlayerPlaytimeData first now s with
    | mk res s1 =>
      rw [hfirst] at hstable
      simp only at hstable
      have hrest : related ∈ rest ∨ related = first := by
        rcases List.mem_cons.mp hmem with h | h
        · exact Or.inr h
        · exact Or.inl h
      cases res with
      | err e =>
        simp only
        rcases hrest with h | h
        · exact ih s1 h (hstable.trans hget)
        · subst h
          rw [hfirst] at hget
          simp at hget
      | ok data =>
        simp only
        by_cases hq : data.RemainingTime ≤ 0
        · simp [hq]
        · simp only [hq, if_false]
          rcases hrest with h | h
          · exact ih s1 h (hstable.trans hget)
          · subst h
            rw [hfirst] at hget
            simp only [Result.ok.injEq] at hget
            subst hget
            exact absurd hrem hq

/-- A record of another device that shares the login address scores at least
the relation threshold. -/
theorem relationScore_of_ip (other : Model.PlayerInfo) (ip realDeviceID : String)
    (hip : ip ∈ splitTextByDoubleNewline other.IP) :
    relationScore other ip realDeviceID ≥ scoreThreshold - deviceIDWeight := by
  have hne : ip ≠ "" := splitTextByDoubleNewline_ne_empty _ _ hip
  have hany : (splitTextByDoubleNewline other.IP).any (fun knownIP => knownIP == ip && ip != "")
      = true := by
    rw [List.any_eq_true]
    exact ⟨ip, hip, by simp [hne]⟩
  unfold relationScore
  simp only [hany, if_true, ipWeight, realDeviceIDWeight, scoreThreshold, deviceIDWeight]
  split_ifs <;> omega

/-- The first round of the alias scan keeps every other record that scores at
least the relation threshold. -/
theorem relatedDeviceIDs_mem (deviceID ip realDeviceID : String) (infos : List Model.PlayerInfo)
    (other : Model.PlayerInfo) (hmem : other ∈ infos) (hne : other.DeviceID ≠ deviceID)
    (hscore : relationScore other ip realDeviceID ≥ scoreThreshold - deviceIDWeight) :
    other.DeviceID ∈ relatedDeviceIDs deviceID ip realDeviceID infos := by
  induction infos with
  | nil => simp at hmem
  | cons first rest ih =>
    unfold relatedDeviceIDs
    rcases List.mem_cons.mp hmem with h | h
    · subst h
      simp [hne, hscore]
    · have := ih h
      split_ifs
      · exact this
      · exact List.mem_cons_of_mem _ this
      · exact this

/-- Without a match of address or hardware id the own-record score is the bare
deviceID weight, below the threshold. -/
theorem ownScore_no_match (own : Model.PlayerInfo) (ip realDeviceID : String)
    (hip : ip ∉ splitTextByDoubleNewline own.IP)
    (hrd : realDeviceID ∉ splitTextByDoubleNewline own.RealDeviceID) :
    ¬ ownScore own ip realDeviceID ≥ scoreThreshold := by
  have h1 : (splitTextByDoubleNewline own.IP).any (fun knownIP => knownIP == ip) = false := by
    rw [List.any_eq_false]
    intro x hx
    simp only [beq_iff_eq]
    intro h
    exact hip (h ▸ hx)
  have h2 : (splitTextByDoubleNewline own.RealDeviceID).any
      (fun knownRealDeviceID => knownRealDeviceID == realDeviceID) = false := by
    rw [List.any_eq_false]
    intro x hx
    simp only [beq_iff_eq]
    intro h
    exact hrd (h ▸ hx)
  unfold ownScore
  simp [h1, h2, deviceIDWeight, scoreThreshold]

/-! ### `VerifyPlaytimeMultiDimension` -/

/-- When the closing block of a path of `VerifyPlaytimeMultiDimension` returns
nil, the cached record of the device has the current time as `LastLoginTime`
and a positive derived remaining time. -/
theorem authorizeOwnQuota_none (deviceID : String) (now : Time) (s : State)
    (h : (authorizeOwnQuota deviceID now s).1 = none) :
    ∃ r, cacheLoad (authorizeOwnQuota deviceID now s).2.playerPlaytimeCache deviceID = some r ∧
      r.LastLoginTime = now ∧ 0 < r.DailyPlayTime + r.TodayExtraTime := by
  unfold authorizeOwnQuota at h ⊢
  cases hget : GetPlayerPlaytimeData deviceID now s with
  | mk res s1 =>
    cases res with
    | err e => simp [hget] at h
    | ok data =>
      obtain ⟨r0, -, hd⟩ := GetPlayerPlaytimeData_ok deviceID now s s1 data hget
      simp only [hget] at h ⊢
      by_cases hq : data.RemainingTime ≤ 0
      · simp [hq] at h
      · simp only [hq, if_false, UpdatePlayerPlaytimeData]
        refine ⟨{ data with LastLoginTime := now }, cacheLoad_cacheStore_same _ _ _, rfl, ?_⟩
        have hrem : data.RemainingTime = data.DailyPlayTime + data.TodayExtraTime := by
          rw [hd]
        rw [I64.le_def, I64.zero_val] at hq
        rw [I64.lt_def, I64.zero_val]
        show 0 < (data.DailyPlayTime + data.TodayExtraTime).val
        rw [← hrem]
        omega

/-- C5: whenever `VerifyPlaytimeMultiDimension` returns nil, on each of its
paths, the cached record of the device has `lastLoginTime` equal to the current
time and its derived remaining time `dailyPlayTime + todayExtraTime` (the
`int64` sum `GetPlayerPlaytimeData` reports) is `> 0`. -/
theorem VerifyPlaytimeMultiDimension_allowed (ip realDeviceID deviceID : String) (now : Time)
    (s : State)
    (h : (VerifyPlaytimeMultiDimension ip realDeviceID deviceID now s).1 = none) :
    ∃ r, cacheLoad (VerifyPlaytimeMultiDimension ip realDeviceID deviceID now
          s).2.playerPlaytimeCache deviceID = some r ∧
      r.LastLoginTime = now ∧ 0 < r.DailyPlayTime + r.TodayExtraTime := by
  unfold VerifyPlaytimeMultiDimension at h ⊢
  simp only at h ⊢
  cases hpi : (NotifyActivity s).db.firstPlayerInfo deviceID with
  | none =>
    simp only [hpi] at h ⊢
    exact authorizeOwnQuota_none _ _ _ h
  | some playerInfo =>
    simp only [hpi] at h ⊢
    by_cases hs : ownScore playerInfo ip realDeviceID ≥ scoreThreshold
    · simp only [hs, if_true] at h ⊢
      exact authorizeOwnQuota_none _ _ _ h
    · simp only [hs, if_false] at h ⊢
      cases hc : checkRelated now
          (relatedDeviceIDs deviceID ip realDeviceID (NotifyActivity s).allPlayerInfos)
          (NotifyActivity s) with
      | mk e s2 =>
        cases e with
        | some e => simp [hc] at h
        | none =>
          simp only [hc] at h ⊢
          exact authorizeOwnQuota_none _ _ _ h

/-- Witness of `VerifyPlaytimeMultiDimension_allowed`: a device without an
identity record whose cached record has time left. -/
theorem VerifyPlaytimeMultiDimension_allowed_witness :
    (VerifyPlaytimeMultiDimension "1.2.3.4" "hw1" "D1" exampleNow stateIdle).1 = none ∧
    ∃ r, cacheLoad (VerifyPlaytimeMultiDimension "1.2.3.4" "hw1" "D1" exampleNow
          stateIdle).2.playerPlaytimeCache "D1" = some r ∧
      r.LastLoginTime = exampleNow ∧ 0 < r.DailyPlayTime + r.TodayExtraTime :=
  ⟨by decide,
    VerifyPlaytimeMultiDimension_allowed "1.2.3.4" "hw1" "D1" exampleNow stateIdle (by decide)⟩

/-! ### `resetAllPlaytimeData` -/

/-- The reset of one record: the bonus is zeroed and the daily time is raised to
the allotment of the record's tier when it is below it. -/
theorem resetRecord_spec (ptSettings : PlaytimeSettings) (now : Time) (r : PlayerPlaytimeData) :
    (resetRecord ptSettings now r).TodayExtraTime = 0 ∧
    (resetRecord ptSettings now r).IsVIP = r.IsVIP ∧
    (resetRecord ptSettings now r).DailyPlayTime.val
      = max r.DailyPlayTime.val
          (if r.IsVIP then ptSettings.VIPPlaytimeSeconds else ptSettings.FreePlaytimeSeconds).val := by
  unfold resetRecord
  cases hv : r.IsVIP
  · by_cases hlt : r.DailyPlayTime < ptSettings.FreePlaytimeSeconds
    · rw [I64.lt_def] at hlt
      simp [hv, hlt, I64.lt_def]
      omega
    · rw [I64.lt_def] at hlt
      simp [hv, hlt, I64.lt_def]
      omega
  · by_cases hlt : r.DailyPlayTime < ptSettings.VIPPlaytimeSeconds
    · rw [I64.lt_def] at hlt
      simp [hv, hlt, I64.lt_def]
      omega
    · rw [I64.lt_def] at hlt
      simp [hv, hlt, I64.lt_def]
      omega

/-- C6: when `resetAllPlaytimeData` runs with `refreshMutex` free, then for
every cached record and every policy the cache afterwards holds for that device
a record with `todayExtraTime = 0`, the same VIP flag and
`dailyPlayTime = max (old dailyPlayTime) A`, where `A` is the VIP allotment for a
VIP record and the free allotment otherwise; so `dailyPlayTime` does not
decrease and the derived remaining time is `≥ A`. -/
theorem resetAllPlaytimeData_record (now : Time) (s : State) (deviceID : String)
    (r : PlayerPlaytimeData) (hfree : s.refreshMutex = false)
    (hr : cacheLoad s.playerPlaytimeCache deviceID = some r) :
    ∃ r1, cacheLoad (resetAllPlaytimeData now s).state.playerPlaytimeCache deviceID = some r1 ∧
      r1.TodayExtraTime = 0 ∧ r1.IsVIP = r.IsVIP ∧
      r1.DailyPlayTime.val
        = max r.DailyPlayTime.val
            (if r.IsVIP then s.playtimeSettings.VIPPlaytimeSeconds
              else s.playtimeSettings.FreePlaytimeSeconds).val ∧
      r.DailyPlayTime ≤ r1.DailyPlayTime ∧
      (if r.IsVIP then s.playtimeSettings.VIPPlaytimeSeconds
        else s.playtimeSettings.FreePlaytimeSeconds) ≤ r1.DailyPlayTime + r1.TodayExtraTime := by
  obtain ⟨hx, hv, hd⟩ := resetRecord_spec s.playtimeSettings now r
  refine ⟨resetRecord s.playtimeSettings now r, ?_, hx, hv, hd, ?_, ?_⟩
  · simp only [resetAllPlaytimeData, withRefreshMutex, hfree, savePlaytimeDataToDB,
      Outcome.andThen, Outcome.state, Bool.false_eq_true, if_false, if_true]
    rw [cacheLoad_map, hr]
    rfl
  · rw [I64.le_def, hd]
    omega
  · have hlo := (resetRecord s.playtimeSettings now r).DailyPlayTime.lo
    have hhi := (resetRecord s.playtimeSettings now r).DailyPlayTime.hi
    rw [I64.le_def, I64.add_val, hx, I64.zero_val, hd]
    rw [hd] at hlo hhi
    unfold wrapInt64
    omega

/-- Witness of `resetAllPlaytimeData_record`: a free record with bonus 100 and
daily time 500 under the default policy. -/
theorem resetAllPlaytimeData_record_witness :
    (stateIdle.refreshMutex = false ∧
      cacheLoad stateIdle.playerPlaytimeCache "D1" = some (exampleRecord 100 500 false)) ∧
    ∃ r1, cacheLoad (resetAllPlaytimeData exampleNow stateIdle).state.playerPlaytimeCache "D1"
        = some r1 ∧
      r1.TodayExtraTime = 0 ∧ r1.IsVIP = (exampleRecord 100 500 false).IsVIP ∧
      r1.DailyPlayTime.val
        = max (exampleRecord 100 500 false).DailyPlayTime.val
            (if (exampleRecord 100 500 false).IsVIP then stateIdle.playtimeSettings.VIPPlaytimeSeconds
              else stateIdle.playtimeSettings.FreePlaytimeSeconds).val ∧
      (exampleRecord 100 500 false).DailyPlayTime ≤ r1.DailyPlayTime ∧
      (if (exampleRecord 100 500 false).IsVIP then stateIdle.playtimeSettings.VIPPlaytimeSeconds
        else stateIdle.playtimeSettings.FreePlaytimeSeconds)
          ≤ r1.DailyPlayTime + r1.TodayExtraTime :=
  ⟨⟨by decide, by decide⟩,
    resetAllPlaytimeData_record exampleNow stateIdle "D1" (exampleRecord 100 500 false)
      (by decide) (by decide)⟩

/-! ### The anti-evasion rule -/

/-- C1, counterexample: `D2` lists the login address `1.2.3.4` and has no time
left, yet the login of `D1` is allowed, both when `D1` lists that address in its
own history (direct path) and when `D1` has no identity record (new device). -/
theorem VerifyPlaytimeMultiDimension_alias_counterexample :
    ((exampleInfo "D2" 2 "1.2.3.4" "hw2") ∈ stateShared.allPlayerInfos ∧
      (exampleInfo "D2" 2 "1.2.3.4" "hw2") ∈ stateShared.db.playerInfo ∧
      (exampleInfo "D2" 2 "1.2.3.4" "hw2").DeviceID ≠ "D1" ∧
      "1.2.3.4" ∈ splitTextByDoubleNewline (exampleInfo "D2" 2 "1.2.3.4" "hw2").IP ∧
      (GetPlayerPlaytimeData "D2" exampleNow stateShared).1
        = .ok (exampleRecord 0 0 false) ∧
      (exampleRecord 0 0 false).DailyPlayTime + (exampleRecord 0 0 false).TodayExtraTime = 0 ∧
      (VerifyPlaytimeMultiDimension "1.2.3.4" "hw1" "D1" exampleNow stateShared).1 = none) ∧
    ((exampleInfo "D2" 2 "1.2.3.4" "hw2") ∈ stateNewDevice.allPlayerInfos ∧
      (exampleInfo "D2" 2 "1.2.3.4" "hw2") ∈ stateNewDevice.db.playerInfo ∧
      stateNewDevice.db.firstPlayerInfo "D1" = none ∧
      (GetPlayerPlaytimeData "D2" exampleNow stateNewDevice).1
        = .ok (exampleRecord 0 0 false) ∧
      (VerifyPlaytimeMultiDimension "1.2.3.4" "hw1" "D1" exampleNow stateNewDevice).1 = none) := by
  decide

/-- C1, amended: when the login's device has an identity record whose histories
contain neither the login address nor the login hardware id, and another record
of the in-memory list `allPlayerInfos` lists the login address, and
`GetPlayerPlaytimeData` reports for that other device a remaining time `≤ 0`,
then `VerifyPlaytimeMultiDimension` returns the quota error (-3001), whatever
the device's own remaining time. -/
theorem VerifyPlaytimeMultiDimension_alias_rejected (ip realDeviceID deviceID : String)
    (now : Time) (s : State) (own other : Model.PlayerInfo) (r : PlayerPlaytimeData)
    (hown : s.db.firstPlayerInfo deviceID = some own)
    (hip : ip ∉ splitTextByDoubleNewline own.IP)
    (hrd : realDeviceID ∉ splitTextByDoubleNewline own.RealDeviceID)
    (hother : other ∈ s.allPlayerInfos) (hne : other.DeviceID ≠ deviceID)
    (hshare : ip ∈ splitTextByDoubleNewline other.IP)
    (hget : (GetPlayerPlaytimeData other.DeviceID now s).1 = .ok r)
    (hrem : r.RemainingTime ≤ 0) :
    (VerifyPlaytimeMultiDimension ip realDeviceID deviceID now s).1 = some quotaExhausted := by
  have hscore := ownScore_no_match own ip realDeviceID hip hrd
  have hrel := relatedDeviceIDs_mem deviceID ip realDeviceID s.allPlayerInfos other hother hne
    (relationScore_of_ip other ip realDeviceID hshare)
  have hget1 : (GetPlayerPlaytimeData other.DeviceID now (NotifyActivity s)).1 = .ok r :=
    (GetPlayerPlaytimeData_NotifyActivity _ _ _).trans hget
  have hcheck := checkRelated_rejects now _ (NotifyActivity s) other.DeviceID r hrel hget1 hrem
  have hown1 : (NotifyActivity s).db.firstPlayerInfo deviceID = some own := hown
  unfold VerifyPlaytimeMultiDimension
  simp only [hown1, hscore, if_false]
  change (checkRelated now (relatedDeviceIDs deviceID ip realDeviceID s.allPlayerInfos)
    (NotifyActivity s)).1 = some quotaExhausted at hcheck
  cases hc : checkRelated now (relatedDeviceIDs deviceID ip realDeviceID
      (NotifyActivity s).allPlayerInfos) (NotifyActivity s) with
  | mk e s2 =>
    have he : e = some quotaExhausted := by
      have := hcheck
      rw [show (NotifyActivity s).allPlayerInfos = s.allPlayerInfos from rfl] at hc
      rw [hc] at this
      exact this
    subst he
    rfl

/-- Witness of `VerifyPlaytimeMultiDimension_alias_rejected`: `D1` logs in from
`1.2.3.4`, an address its own record does not list and the record of the
exhausted `D2` does. -/
theorem VerifyPlaytimeMultiDimension_alias_rejected_witness :
    (stateAlias.db.firstPlayerInfo "D1" = some (exampleInfo "D1" 1 "9.9.9.9" "hw9") ∧
      "1.2.3.4" ∉ splitTextByDoubleNewline (exampleInfo "D1" 1 "9.9.9.9" "hw9").IP ∧
      "hw1" ∉ splitTextByDoubleNewline (exampleInfo "D1" 1 "9.9.9.9" "hw9").RealDeviceID ∧
      (GetPlayerPlaytimeData "D1" exampleNow stateAlias).1
        = .ok { exampleRecord 100 500 false with RemainingTime := 600 }) ∧
    (VerifyPlaytimeMultiDimension "1.2.3.4" "hw1" "D1" exampleNow stateAlias).1
      = some quotaExhausted :=
  ⟨by decide,
    VerifyPlaytimeMultiDimension_alias_rejected "1.2.3.4" "hw1" "D1" exampleNow stateAlias
      (exampleInfo "D1" 1 "9.9.9.9" "hw9") (exampleInfo "D2" 2 "1.2.3.4" "hw2")
      (exampleRecord 0 0 false)
      (by decide) (by decide) (by decide) (by decide) (by decide) (by decide) (by decide)
      (by decide)⟩

/-! ### Records of unknown devices -/

/-- C10, failing input: the device `D1` has neither a cached record nor a row
in `dmm_playerdata`. `GetPlayerPlaytimeData` does not create default data: it
fails with `gorm.ErrRecordNotFound` and stores nothing in the cache. -/
theorem GetPlayerPlaytimeData_unknown_device_fails :
    cacheLoad stateEmptyColumn.playerPlaytimeCache "D1" = none ∧
    stateEmptyColumn.db.firstPlayerData "D1" = none ∧
    GetPlayerPlaytimeData "D1" exampleNow stateEmptyColumn
      = (.err Error.ErrRecordNotFound, stateEmptyColumn) := by
  decide

/-- What `GetPlayerPlaytimeData` does on a cache miss: it
fails with `gorm.ErrRecordNotFound` and leaves the state unchanged when
`dmm_playerdata` has no row for it; when it has a row whose `playtime_data` is
empty or is rejected by `json.Unmarshal`, the call returns a default record
(`dailyPlayTime` the free daily allotment, `todayExtraTime = 0`, zero
`lastLoginTime`, not VIP, `RemainingTime = dailyPlayTime`) and stores it in the
cache. -/
theorem GetPlayerPlaytimeData_miss (deviceID : String) (now : Time) (s : State)
    (hmiss : cacheLoad s.playerPlaytimeCache deviceID = none) :
    (s.db.firstPlayerData deviceID = none →
      GetPlayerPlaytimeData deviceID now s = (.err Error.ErrRecordNotFound, s)) ∧
    (∀ player, s.db.firstPlayerData deviceID = some player →
      (player.PlaytimeData = .empty ∨ player.PlaytimeData = .malformed) →
      ∃ r, (GetPlayerPlaytimeData deviceID now s).1 = .ok r ∧
        r.DailyPlayTime = s.playtimeSettings.FreePlaytimeSeconds ∧
        r.TodayExtraTime = 0 ∧ r.LastLoginTime = Time.zero ∧ r.IsVIP = false ∧
        r.RemainingTime = r.DailyPlayTime ∧
        cacheLoad (GetPlayerPlaytimeData deviceID now s).2.playerPlaytimeCache deviceID
          = some r) := by
  constructor
  · intro hrow
    simp [GetPlayerPlaytimeData, hmiss, hrow]
  · intro player hrow hcol
    have hun : jsonUnmarshal player.PlaytimeData = none := by
      rcases hcol with h | h <;> rw [h] <;> rfl
    have hadd : s.playtimeSettings.FreePlaytimeSeconds + (0 : I64)
        = s.playtimeSettings.FreePlaytimeSeconds := by
      apply I64.ext_val
      rw [I64.add_val, I64.zero_val, Int.add_zero]
      exact wrapInt64_of_range _ s.playtimeSettings.FreePlaytimeSeconds.lo
        s.playtimeSettings.FreePlaytimeSeconds.hi
    unfold GetPlayerPlaytimeData
    simp only [hmiss, hrow, hun]
    cases s.db.firstPlayerInfo deviceID with
    | none =>
      refine ⟨_, rfl, ?_, ?_, ?_, ?_, ?_, cacheLoad_cacheStore_same _ _ _⟩
      all_goals (split_ifs <;> first | rfl | exact hadd)
    | some playerInfo =>
      refine ⟨_, rfl, ?_, ?_, ?_, ?_, ?_, cacheLoad_cacheStore_same _ _ _⟩
      all_goals
        simp only
        cases (splitTextByDoubleNewline playerInfo.IP).getLast? <;>
          cases (splitTextByDoubleNewline playerInfo.RealDeviceID).getLast? <;>
          (split_ifs <;> first | rfl | exact hadd)

/-- Witness of `GetPlayerPlaytimeData_miss`: the device `D2` has a row with an
empty `playtime_data` column and no cached record. -/
theorem GetPlayerPlaytimeData_miss_witness :
    cacheLoad stateEmptyColumn.playerPlaytimeCache "D2" = none ∧
    (GetPlayerPlaytimeData "D2" exampleNow stateEmptyColumn).1
      = .ok { exampleRecord 0 5400 false with
          LastUpdateTime := exampleNow, RemainingTime := 5400, DeviceID := "D2" } ∧
    (∀ player, stateEmptyColumn.db.firstPlayerData "D2" = some player →
      (player.PlaytimeData = .empty ∨ player.PlaytimeData = .malformed) →
      ∃ r, (GetPlayerPlaytimeData "D2" exampleNow stateEmptyColumn).1 = .ok r ∧
        r.DailyPlayTime = stateEmptyColumn.playtimeSettings.FreePlaytimeSeconds ∧
        r.TodayExtraTime = 0 ∧ r.LastLoginTime = Time.zero ∧ r.IsVIP = false ∧
        r.RemainingTime = r.DailyPlayTime ∧
        cacheLoad (GetPlayerPlaytimeData "D2" exampleNow
          stateEmptyColumn).2.playerPlaytimeCache "D2" = some r) :=
  ⟨by decide, by decide,
    (GetPlayerPlaytimeData_miss "D2" exampleNow stateEmptyColumn (by decide)).2⟩

/-! ### The reset boundary -/

/-- C7, failing input: with reset hour 1 and `now = 2024-01-01T20:00:00Z`
(04:00 on 2 January in UTC+8, past 01:00 of that day), `calculateNextResetTime`
returns `2024-01-01T17:00:00Z` (01:00 on 2 January in UTC+8), an instant three
hours before `now`, and not the next boundary `2024-01-02T17:00:00Z`. -/
theorem calculateNextResetTime_in_the_past :
    stateIdle.playtimeSettings.ResetHour = 1 ∧
    exampleNow = timeDate 2024 1 2 4 (8 * 60 * 60) ∧
    calculateNextResetTime exampleNow stateIdle = timeDate 2024 1 2 1 (8 * 60 * 60) ∧
    (calculateNextResetTime exampleNow stateIdle).ns < exampleNow.ns ∧
    calculateNextResetTime exampleNow stateIdle ≠ timeDate 2024 1 3 1 (8 * 60 * 60) := by
  decide

/-! ### Bonus grants -/

/-- C8, failing input: `D1` has 5400 seconds left; after
`AddPlayerPlaytime("D1", 600)` returns nil, `GetPlayerPlaytimeData` still
reports 5400 seconds (not 6000), and the row written to the database carries no
bonus either. -/
theorem AddPlayerPlaytime_not_reported :
    (GetPlayerPlaytimeData "D1" exampleNow stateGrant).1
      = .ok { exampleRecord 0 5400 false with RemainingTime := 5400 } ∧
    (AddPlayerPlaytime "D1" 600 exampleNow stateGrant).1 = none ∧
    (GetPlayerPlaytimeData "D1" exampleNow (AddPlayerPlaytime "D1" 600 exampleNow stateGrant).2).1
      = .ok { exampleRecord 0 5400 false with RemainingTime := 5400 } ∧
    (AddPlayerPlaytime "D1" 600 exampleNow stateGrant).2.db = stateGrant.db := by
  decide

/-! ### The refresh cycle -/

/-- C9, failing input: `D1` is an existing player whose cached record has
`dailyPlayTime = 0` and `todayExtraTime = 0`; after `savePlaytimeDataToDB`
followed by `loadPlaytimeDataFromDB`, and after a whole tick of
`startIntelligentTicker`, the cached record has `dailyPlayTime = 5400`, the free
allotment. -/
theorem refresh_tops_up_exhausted :
    cacheLoad stateExhausted.playerPlaytimeCache "D1" = some (exampleRecord 0 0 false) ∧
    (stateExhausted.db.firstPlayerData "D1").isSome = true ∧
    (((savePlaytimeDataToDB stateExhausted).andThen
        (loadPlaytimeDataFromDB exampleNow)).state.playerPlaytimeCache.map
          (fun entry => (entry.fst, entry.snd.DailyPlayTime, entry.snd.TodayExtraTime)))
      = [("D1", 5400, 0)] ∧
    ((tick exampleNow stateExhausted).state.playerPlaytimeCache.map
          (fun entry => (entry.fst, entry.snd.DailyPlayTime, entry.snd.TodayExtraTime)))
      = [("D1", 5400, 0)] := by
  decide

end Playtime

namespace Banning

/-! ### The ban sets -/

theorem mem_banStore (key x : String) (m : List String) :
    x ∈ banStore key m ↔ x ∈ m ∨ x = key := by
  unfold banStore
  split
  · rename_i h
    have hk : key ∈ m := by simpa using h
    constructor
    · intro hx; exact Or.inl hx
    · rintro (hx | hx)
      · exact hx
      · rw [hx]; exact hk
  · simp

theorem mem_foldl_banStore (key : String → String) (rows acc : List String) (x : String) :
    x ∈ rows.foldl (fun newBans ban => banStore (key ban) newBans) acc
      ↔ x ∈ acc ∨ ∃ ban ∈ rows, key ban = x := by
  induction rows generalizing acc with
  | nil => simp
  | cons first rest ih =>
    rw [List.foldl_cons, ih, mem_banStore]
    constructor
    · rintro ((h | h) | ⟨ban, hb, hk⟩)
      · exact Or.inl h
      · exact Or.inr ⟨first, List.mem_cons_self _ _, h.symm⟩
      · exact Or.inr ⟨ban, List.mem_cons_of_mem _ hb, hk⟩
    · rintro (h | ⟨ban, hb, hk⟩)
      · exact Or.inl (Or.inl h)
      · rcases List.mem_cons.mp hb with hfirst | hrest
        · subst hfirst
          exact Or.inl (Or.inr hk.symm)
        · exact Or.inr ⟨ban, hrest, hk⟩

/-- The keys of a ban set built from the rows of a table. -/
theorem mem_buildBans (key : String → String) (rows : List String) (x : String) :
    x ∈ buildBans key rows ↔ ∃ ban ∈ rows, key ban = x := by
  unfold buildBans
  rw [mem_foldl_banStore]
  simp

theorem banLoad_eq_true (m : List String) (key : String) : banLoad m key = true ↔ key ∈ m := by
  unfold banLoad
  simp

theorem find_of_not_failing (t : BanTable) (h : t.failing = false) : t.find = t.rows := by
  unfold BanTable.find
  simp [h]

/-- C11: after `loadBansFromDB` over tables whose scans succeed, each of
`CheckRequestIPBanned`, `CheckDeviceIDBanned` and `CheckRealDeviceIDBanned`
returns true for `x` if and only if `x` is not empty and is a row of the table
of its category at the time of the reload; in every state the three checks
return false for the empty string. -/
theorem loadBansFromDB_checks (now : Time) (s t : State) (x : String)
    (hip : s.db.banIP.failing = false) (hdev : s.db.banDeviceID.failing = false)
    (hreal : s.db.banRealDeviceID.failing = false) :
    (CheckRequestIPBanned x (loadBansFromDB now s) = true ↔ x ≠ "" ∧ x ∈ s.db.banIP.rows) ∧
    (CheckDeviceIDBanned x (loadBansFromDB now s) = true
      ↔ x ≠ "" ∧ x ∈ s.db.banDeviceID.rows) ∧
    (CheckRealDeviceIDBanned x (loadBansFromDB now s) = true
      ↔ x ≠ "" ∧ x ∈ s.db.banRealDeviceID.rows) ∧
    CheckRequestIPBanned "" t = false ∧ CheckDeviceIDBanned "" t = false ∧
    CheckRealDeviceIDBanned "" t = false := by
  refine ⟨?_, ?_, ?_, rfl, rfl, rfl⟩
  · unfold CheckRequestIPBanned
    by_cases hx : x = ""
    · simp [hx]
    · simp only [hx, if_false, banLoad_eq_true, loadBansFromDB, mem_buildBans,
        find_of_not_failing _ hip]
      simp [hx]
  · unfold CheckDeviceIDBanned
    by_cases hx : x = ""
    · simp [hx]
    · simp only [hx, if_false, banLoad_eq_true, loadBansFromDB, mem_buildBans,
        find_of_not_failing _ hdev]
      simp [hx]
  · unfold CheckRealDeviceIDBanned
    by_cases hx : x = ""
    · simp [hx]
    · simp only [hx, if_false, banLoad_eq_true, loadBansFromDB, mem_buildBans,
        find_of_not_failing _ hreal]
      simp [hx]

/-- Witness of `loadBansFromDB_checks`: the registry with one row in each
table; the banned address is reported, and so are the banned device and
hardware id. -/
theorem loadBansFromDB_checks_witness :
    CheckRequestIPBanned "1.2.3.4" (loadBansFromDB Playtime.exampleNow exampleState) = true ∧
    ((CheckRequestIPBanned "1.2.3.4" (loadBansFromDB Playtime.exampleNow exampleState) = true
        ↔ "1.2.3.4" ≠ "" ∧ "1.2.3.4" ∈ exampleState.db.banIP.rows) ∧
    (CheckDeviceIDBanned "1.2.3.4" (loadBansFromDB Playtime.exampleNow exampleState) = true
      ↔ "1.2.3.4" ≠ "" ∧ "1.2.3.4" ∈ exampleState.db.banDeviceID.rows) ∧
    (CheckRealDeviceIDBanned "1.2.3.4" (loadBansFromDB Playtime.exampleNow exampleState) = true
      ↔ "1.2.3.4" ≠ "" ∧ "1.2.3.4" ∈ exampleState.db.banRealDeviceID.rows) ∧
    CheckRequestIPBanned "" exampleState = false ∧ CheckDeviceIDBanned "" exampleState = false ∧
    CheckRealDeviceIDBanned "" exampleState = false) :=
  ⟨by decide,
    loadBansFromDB_checks Playtime.exampleNow exampleState exampleState "1.2.3.4"
      (by decide) (by decide) (by decide)⟩

/-- C12: after `loadBansFromDB` over a table `T` of banned device information
whose scan succeeds, `CheckDeviceInfoBanned d` is true if and only if `d` is not
empty and `GetStableDeviceInfo d` equals `GetStableDeviceInfo b` for a row `b`
of `T`. -/
theorem loadBansFromDB_deviceInfo (now : Time) (s : State) (d : String)
    (hscan : s.db.banDeviceInfo.failing = false) :
    CheckDeviceInfoBanned d (loadBansFromDB now s) = true
      ↔ d ≠ "" ∧ ∃ b ∈ s.db.banDeviceInfo.rows,
          Model.GetStableDeviceInfo b = Model.GetStableDeviceInfo d := by
  unfold CheckDeviceInfoBanned
  by_cases hd : d = ""
  · simp [hd]
  · simp only [hd, if_false, List.any_eq_true, beq_iff_eq, loadBansFromDB, mem_buildBans,
      find_of_not_failing _ hscan]
    constructor
    · rintro ⟨key, ⟨b, hb, hkey⟩, heq⟩
      exact ⟨hd, b, hb, hkey.trans heq⟩
    · rintro ⟨-, b, hb, heq⟩
      exact ⟨_, ⟨b, hb, rfl⟩, heq⟩

/-- Witness of `loadBansFromDB_deviceInfo`: the banned row and the checked
value differ in the memory size token only. -/
theorem loadBansFromDB_deviceInfo_witness :
    CheckDeviceInfoBanned "Phone_8_2048MB_50" (loadBansFromDB Playtime.exampleNow exampleState)
      = true ∧
    (CheckDeviceInfoBanned "Phone_8_2048MB_50" (loadBansFromDB Playtime.exampleNow exampleState)
        = true
      ↔ "Phone_8_2048MB_50" ≠ "" ∧ ∃ b ∈ exampleState.db.banDeviceInfo.rows,
          Model.GetStableDeviceInfo b = Model.GetStableDeviceInfo "Phone_8_2048MB_50") :=
  ⟨by decide,
    loadBansFromDB_deviceInfo Playtime.exampleNow exampleState "Phone_8_2048MB_50" (by decide)⟩

/-- C14, failing input: the registry reports `1.2.3.4` as banned; during the
next `loadBansFromDB` the scan of `Ban_IP` fails; afterwards the set of banned
addresses is empty and `1.2.3.4` is reported as not banned. -/
theorem loadBansFromDB_failed_scan_clears :
    stateScanFails.db.banIP.failing = true ∧
    CheckRequestIPBanned "1.2.3.4" stateScanFails = true ∧
    (loadBansFromDB Playtime.exampleNow stateScanFails).ipBans = [] ∧
    CheckRequestIPBanned "1.2.3.4" (loadBansFromDB Playtime.exampleNow stateScanFails) = false := by
  decide

end Banning

namespace Model

open RegularExpression

/-! ### The expression of `GetStableDeviceInfo` -/

theorem mem_asciiDigits (c : Char) :
    c ∈ asciiDigits ↔ c = '0' ∨ c = '1' ∨ c = '2' ∨ c = '3' ∨ c = '4' ∨ c = '5' ∨ c = '6' ∨
      c = '7' ∨ c = '8' ∨ c = '9' := by
  simp [asciiDigits]

theorem mem_matches_char (a : Char) (l : List Char) :
    l ∈ (RegularExpression.char a).matches' ↔ l = [a] := Iff.rfl

theorem mem_matches_plus (P Q : RegularExpression Char) (l : List Char) :
    l ∈ (RegularExpression.plus P Q).matches' ↔ l ∈ P.matches' ∨ l ∈ Q.matches' := Iff.rfl

theorem mem_matches_comp (P Q : RegularExpression Char) (l : List Char) :
    l ∈ (RegularExpression.comp P Q).matches'
      ↔ ∃ a ∈ P.matches', ∃ b ∈ Q.matches', a ++ b = l := by
  rw [comp_def, matches'_mul, Language.mem_mul]

theorem mem_regexDigit (l : List Char) :
    l ∈ regexDigit.matches' ↔ ∃ c ∈ asciiDigits, l = [c] := by
  simp only [regexDigit, mem_matches_plus, mem_matches_char, mem_asciiDigits]
  constructor
  · intro h
    rcases h with h | h | h | h | h | h | h | h | h | h <;>
      (subst h; exact ⟨_, by simp, rfl⟩)
  · rintro ⟨c, hc, rfl⟩
    rcases hc with h | h | h | h | h | h | h | h | h | h <;> subst h <;> simp

theorem mem_star_regexDigit (l : List Char) :
    l ∈ (RegularExpression.star regexDigit).matches' ↔ ∀ c ∈ l, c ∈ asciiDigits := by
  rw [matches'_star, Language.mem_kstar]
  constructor
  · rintro ⟨L, rfl, hL⟩ c hc
    rw [List.mem_flatten] at hc
    obtain ⟨y, hy, hcy⟩ := hc
    obtain ⟨d, hd, rfl⟩ := (mem_regexDigit y).mp (hL y hy)
    rw [List.mem_singleton] at hcy
    rw [hcy]
    exact hd
  · intro h
    refine ⟨l.map (fun c => [c]), ?_, ?_⟩
    · induction l with
      | nil => rfl
      | cons c cs ih =>
        rw [List.map_cons, List.flatten_cons, ← ih (fun x hx => h x (List.mem_cons_of_mem _ hx))]
        rfl
    · intro y hy
      rw [List.mem_map] at hy
      obtain ⟨c, hc, rfl⟩ := hy
      exact (mem_regexDigit [c]).mpr ⟨c, h c hc, rfl⟩

/-- The language of `\d+`: the non-empty runs of ASCII digits. -/
theorem mem_regexPlus_regexDigit (l : List Char) :
    l ∈ (regexPlus regexDigit).matches' ↔ l ≠ [] ∧ ∀ c ∈ l, c ∈ asciiDigits := by
  unfold regexPlus
  rw [mem_matches_comp]
  constructor
  · rintro ⟨a, ha, b, hb, rfl⟩
    obtain ⟨d, hd, rfl⟩ := (mem_regexDigit a).mp ha
    refine ⟨by simp, ?_⟩
    intro c hc
    rcases List.mem_append.mp hc with h | h
    · rw [List.mem_singleton] at h
      rw [h]
      exact hd
    · exact (mem_star_regexDigit b).mp hb c h
  · rintro ⟨hne, hall⟩
    cases l with
    | nil => exact absurd rfl hne
    | cons c cs =>
      refine ⟨[c], (mem_regexDigit [c]).mpr ⟨c, hall c (List.mem_cons_self _ _), rfl⟩, cs, ?_, rfl⟩
      exact (mem_star_regexDigit cs).mpr (fun x hx => hall x (List.mem_cons_of_mem _ hx))

/-- The language of `(\d+MB)_\d+`. -/
theorem mem_memoryPattern (l : List Char) :
    l ∈ memoryPattern.matches' ↔
      ∃ m n : List Char, (m ≠ [] ∧ ∀ c ∈ m, c ∈ asciiDigits) ∧
        (n ≠ [] ∧ ∀ c ∈ n, c ∈ asciiDigits) ∧ l = m ++ 'M' :: 'B' :: '_' :: n := by
  unfold memoryPattern
  simp only [mem_matches_comp, mem_matches_char, mem_regexPlus_regexDigit]
  constructor
  · rintro ⟨a, ⟨m, hm, b, ⟨x, rfl, y, rfl, rfl⟩, rfl⟩, c, ⟨u, rfl, n, hn, rfl⟩, rfl⟩
    exact ⟨m, n, hm, hn, by simp⟩
  · rintro ⟨m, n, hm, hn, rfl⟩
    exact ⟨m ++ ['M', 'B'], ⟨m, hm, ['M', 'B'], ⟨['M'], rfl, ['B'], rfl, rfl⟩, rfl⟩,
      '_' :: n, ⟨['_'], rfl, n, hn, rfl⟩, by simp⟩

/-- A match that has to end at the end of the text is a match of a suffix. -/
theorem matchToEnd_eq_true (r : RegularExpression Char) (l : List Char) :
    matchToEnd r l = true ↔ ∃ before suffix, l = before ++ suffix ∧ r.rmatch suffix = true := by
  induction l with
  | nil =>
    unfold matchToEnd
    constructor
    · intro h
      exact ⟨[], [], rfl, h⟩
    · rintro ⟨before, suffix, h, hm⟩
      have hs : suffix = [] := (List.append_eq_nil.mp h.symm).2
      rw [hs] at hm
      exact hm
  | cons c cs ih =>
    unfold matchToEnd
    rw [Bool.or_eq_true, ih]
    constructor
    · rintro (h | ⟨before, suffix, h, hm⟩)
      · exact ⟨[], c :: cs, rfl, h⟩
      · exact ⟨c :: before, suffix, by rw [h]; rfl, hm⟩
    · rintro ⟨before, suffix, h, hm⟩
      cases before with
      | nil =>
        left
        rw [List.nil_append] at h
        rw [h]
        exact hm
      | cons b rest =>
        right
        rw [List.cons_append, List.cons.injEq] at h
        exact ⟨rest, suffix, h.2, hm⟩

/-- The expression of `GetStableDeviceInfo` finds a match exactly in the texts
that end in digits, `MB_`, digits. -/
theorem matchToEnd_memoryPattern (l : List Char) :
    matchToEnd memoryPattern l = true ↔
      ∃ before m n : List Char, (m ≠ [] ∧ ∀ c ∈ m, c ∈ asciiDigits) ∧
        (n ≠ [] ∧ ∀ c ∈ n, c ∈ asciiDigits) ∧ l = before ++ (m ++ 'M' :: 'B' :: '_' :: n) := by
  rw [matchToEnd_eq_true]
  constructor
  · rintro ⟨before, suffix, rfl, hm⟩
    rw [rmatch_iff_matches', mem_memoryPattern] at hm
    obtain ⟨m, n, hdm, hdn, rfl⟩ := hm
    exact ⟨before, m, n, hdm, hdn, rfl⟩
  · rintro ⟨before, m, n, hdm, hdn, rfl⟩
    refine ⟨before, _, rfl, ?_⟩
    rw [rmatch_iff_matches', mem_memoryPattern]
    exact ⟨m, n, hdm, hdn, rfl⟩

/-! ### `strings.LastIndex` -/

theorem lastIndexAux_not_mem (sep : Char) (l : List Char) (position best : Int)
    (h : sep ∉ l) : lastIndexAux sep l position best = best := by
  induction l generalizing position best with
  | nil => rfl
  | cons c cs ih =>
    unfold lastIndexAux
    have hc : ¬ c = sep := fun e => h (e ▸ List.mem_cons_self _ _)
    rw [if_neg hc]
    exact ih _ _ (fun hm => h (List.mem_cons_of_mem _ hm))

theorem lastIndexAux_append (sep : Char) (a b : List Char) (position best : Int)
    (h : sep ∉ b) :
    lastIndexAux sep (a ++ sep :: b) position best = position + a.length := by
  induction a generalizing position best with
  | nil =>
    rw [List.nil_append]
    unfold lastIndexAux
    rw [if_pos rfl, lastIndexAux_not_mem sep b _ _ h]
    simp
  | cons c cs ih =>
    rw [List.cons_append]
    unfold lastIndexAux
    rw [ih]
    simp only [List.length_cons, Nat.cast_add, Nat.cast_one]
    omega

/-- The index of the last `_` of a text whose tail after that `_` has none. -/
theorem lastIndexUnderscore_append (a b : List Char) (h : '_' ∉ b) :
    lastIndexUnderscore (a ++ '_' :: b) = a.length := by
  unfold lastIndexUnderscore
  rw [lastIndexAux_append '_' a b 0 (-1) h]
  simp

theorem underscore_not_mem_digits (n : List Char) (h : ∀ c ∈ n, c ∈ asciiDigits) :
    '_' ∉ n := by
  intro hm
  have := h _ hm
  revert this
  decide

/-! ### `GetStableDeviceInfo` -/

/-- The result of `GetStableDeviceInfo` on a text `p_<digits>MB_<digits>`. -/
theorem GetStableDeviceInfo_chars (p m n : List Char)
    (hm : m ≠ [] ∧ ∀ c ∈ m, c ∈ asciiDigits) (hn : n ≠ [] ∧ ∀ c ∈ n, c ∈ asciiDigits) :
    GetStableDeviceInfo (String.mk (p ++ '_' :: (m ++ 'M' :: 'B' :: '_' :: n)))
      = String.mk (p ++ '_' :: n) := by
  have hmatch : matchToEnd memoryPattern (p ++ '_' :: (m ++ 'M' :: 'B' :: '_' :: n)) = true :=
    (matchToEnd_memoryPattern _).mpr ⟨p ++ ['_'], m, n, hm, hn, by simp⟩
  have hn_us : '_' ∉ n := underscore_not_mem_digits n hn.2
  have hm_us : '_' ∉ m ++ ['M', 'B'] := by
    intro h
    rcases List.mem_append.mp h with h | h
    · exact underscore_not_mem_digits m hm.2 h
    · revert h; decide
  have hsplit : p ++ '_' :: (m ++ 'M' :: 'B' :: '_' :: n)
      = (p ++ '_' :: (m ++ ['M', 'B'])) ++ '_' :: n := by simp
  have hidx : lastIndexUnderscore (p ++ '_' :: (m ++ 'M' :: 'B' :: '_' :: n))
      = ((p ++ '_' :: (m ++ ['M', 'B'])).length : Int) := by
    rw [hsplit]; exact lastIndexUnderscore_append _ _ hn_us
  have hidx2 : lastIndexUnderscore (p ++ '_' :: (m ++ ['M', 'B'])) = (p.length : Int) :=
    lastIndexUnderscore_append _ _ hm_us
  have hne : String.mk (p ++ '_' :: (m ++ 'M' :: 'B' :: '_' :: n)) ≠ "" := by
    intro h
    have := congrArg String.data h
    simp at this
  unfold GetStableDeviceInfo
  rw [if_neg hne]
  simp only [hmatch, if_true, hidx]
  have hdrop : List.drop (((p ++ '_' :: (m ++ ['M', 'B'])).length : Int) + 1).toNat
      (p ++ '_' :: (m ++ 'M' :: 'B' :: '_' :: n)) = n := by
    rw [hsplit]
    have : (((p ++ '_' :: (m ++ ['M', 'B'])).length : Int) + 1).toNat
        = (p ++ '_' :: (m ++ ['M', 'B'])).length + 1 := by omega
    rw [this, List.drop_append_eq_append_drop]
    simp
  have htake : List.take (((p ++ '_' :: (m ++ ['M', 'B'])).length : Int)).toNat
      (p ++ '_' :: (m ++ 'M' :: 'B' :: '_' :: n)) = p ++ '_' :: (m ++ ['M', 'B']) := by
    rw [hsplit, Int.toNat_ofNat, List.take_left']
    rfl
  rw [hdrop, htake, hidx2]
  have htake2 : List.take ((p.length : Int) + 1).toNat (p ++ '_' :: (m ++ ['M', 'B']))
      = p ++ ['_'] := by
    have : ((p.length : Int) + 1).toNat = (p ++ ['_']).length := by simp
    rw [this]
    have hs : p ++ '_' :: (m ++ ['M', 'B']) = (p ++ ['_']) ++ (m ++ ['M', 'B']) := by simp
    rw [hs, List.take_left']
    rfl
  rw [htake2]
  simp

theorem IsDigits_data (m : String) (h : IsDigits m) :
    m.data ≠ [] ∧ ∀ c ∈ m.data, c ∈ asciiDigits := by
  refine ⟨?_, h.2⟩
  intro hd
  apply h.1
  apply String.ext
  rw [hd]

/-- C13: for every string `p` and all non-empty ASCII digit strings `m` and `n`,
`GetStableDeviceInfo (p ++ "_" ++ m ++ "MB_" ++ n) = p ++ "_" ++ n`; and every
string that does not end in digits, `MB_`, digits (the empty string is one) is
returned unchanged. -/
theorem GetStableDeviceInfo_spec :
    (∀ p m n : String, IsDigits m → IsDigits n →
      GetStableDeviceInfo (p ++ "_" ++ m ++ "MB_" ++ n) = p ++ "_" ++ n) ∧
    (∀ s : String, ¬ EndsInMemoryToken s → GetStableDeviceInfo s = s) ∧
    GetStableDeviceInfo "" = "" := by
  refine ⟨?_, ?_, rfl⟩
  · intro p m n hm hn
    have hin : p ++ "_" ++ m ++ "MB_" ++ n
        = String.mk (p.data ++ '_' :: (m.data ++ 'M' :: 'B' :: '_' :: n.data)) := by
      apply String.ext
      simp [String.data_append]
    have hout : p ++ "_" ++ n = String.mk (p.data ++ '_' :: n.data) := by
      apply String.ext
      simp [String.data_append]
    rw [hin, hout]
    exact GetStableDeviceInfo_chars p.data m.data n.data (IsDigits_data m hm) (IsDigits_data n hn)
  · intro s hs
    unfold GetStableDeviceInfo
    by_cases he : s = ""
    · rw [if_pos he, he]
    · rw [if_neg he]
      have hno : ¬ matchToEnd memoryPattern s.data = true := by
        intro hmatch
        obtain ⟨before, m, n, hm, hn, hl⟩ := (matchToEnd_memoryPattern _).mp hmatch
        apply hs
        refine ⟨String.mk before, String.mk m, String.mk n, ⟨?_, hm.2⟩, ⟨?_, hn.2⟩, ?_⟩
        · intro h
          exact hm.1 (congrArg String.data h)
        · intro h
          exact hn.1 (congrArg String.data h)
        · apply String.ext
          simp [String.data_append, hl]
      rw [if_neg hno]

/-- Witness of `GetStableDeviceInfo_spec`, the example of the comment of the
function: the device information that ends in `_5606_249868MB_50` becomes the
same text ending in `_5606_50`. -/
theorem GetStableDeviceInfo_spec_witness :
    (IsDigits "249868" ∧ IsDigits "50") ∧
    exampleDeviceInfoHead ++ "_" ++ "249868" ++ "MB_" ++ "50"
      = "OnePlus PJF110_Android OS 14 / API-34 (UP1A.231005.007/U.19fe0de^3e4c^3e4d)_15315MB_ARM64 FP ASIMD AES_Adreno (TM) 732_OpenGLES3_4096MB_8_5606_249868MB_50" ∧
    exampleDeviceInfoHead ++ "_" ++ "50"
      = "OnePlus PJF110_Android OS 14 / API-34 (UP1A.231005.007/U.19fe0de^3e4c^3e4d)_15315MB_ARM64 FP ASIMD AES_Adreno (TM) 732_OpenGLES3_4096MB_8_5606_50" ∧
    GetStableDeviceInfo (exampleDeviceInfoHead ++ "_" ++ "249868" ++ "MB_" ++ "50")
      = exampleDeviceInfoHead ++ "_" ++ "50" :=
  ⟨⟨by unfold IsDigits; decide, by unfold IsDigits; decide⟩, by decide, by decide,
    GetStableDeviceInfo_spec.1 exampleDeviceInfoHead "249868" "50"
      (by unfold IsDigits; decide) (by unfold IsDigits; decide)⟩

end Model


namespace Serversettings

/-! ### Loading the settings -/

/-- C15: when reading the settings row fails with an error other than
record-not-found, `loadSettingsFromDB` changes nothing (the published snapshot
and `lastRefreshTime` stay as they were); and when no snapshot was ever
published, `GetSettings` then returns a record whose `GraphicsOptions` and
`MiscOptions` are `DefaultGraphicsOptions()` and `DefaultMiscOptions()`. -/
theorem loadSettingsFromDB_read_error (now : Time) (s : State)
    (hread : s.db.readFailing = true) :
    loadSettingsFromDB now s = s ∧
    (loadSettingsFromDB now s).currentSettings = s.currentSettings ∧
    (loadSettingsFromDB now s).lastRefreshTime = s.lastRefreshTime ∧
    (s.currentSettings = none →
      (GetSettings now s).1.GraphicsOptions = Model.DefaultGraphicsOptions ∧
      (GetSettings now s).1.MiscOptions = Model.DefaultMiscOptions) := by
  have hload : loadSettingsFromDB now s = s := by
    unfold loadSettingsFromDB
    rw [if_pos hread]
  refine ⟨hload, by rw [hload], by rw [hload], ?_⟩
  intro hnone
  unfold GetSettings
  simp [hnone, hload]

/-- Witness of `loadSettingsFromDB_read_error`: a cache that was never loaded
over a table that cannot be read. -/
theorem loadSettingsFromDB_read_error_witness :
    stateReadFails.db.readFailing = true ∧ stateReadFails.currentSettings = none ∧
    loadSettingsFromDB Playtime.exampleNow stateReadFails = stateReadFails ∧
    (loadSettingsFromDB Playtime.exampleNow stateReadFails).currentSettings
      = stateReadFails.currentSettings ∧
    (loadSettingsFromDB Playtime.exampleNow stateReadFails).lastRefreshTime
      = stateReadFails.lastRefreshTime ∧
    (stateReadFails.currentSettings = none →
      (GetSettings Playtime.exampleNow stateReadFails).1.GraphicsOptions
        = Model.DefaultGraphicsOptions ∧
      (GetSettings Playtime.exampleNow stateReadFails).1.MiscOptions
        = Model.DefaultMiscOptions) :=
  ⟨by decide, by decide,
    loadSettingsFromDB_read_error Playtime.exampleNow stateReadFails (by decide)⟩

/-- C16, counterexample: the table is empty and rejects the insert; two reloads
in a row both find it empty, and the default row is written (attempted) twice,
not once. -/
theorem loadSettingsFromDB_writes_again :
    stateCreateFails.db.rows = [] ∧
    (loadSettingsFromDB Playtime.exampleNow stateCreateFails).db.rows = [] ∧
    (loadSettingsFromDB Playtime.exampleNow stateCreateFails).db.createAttempts = 1 ∧
    (loadSettingsFromDB Playtime.exampleNow
      (loadSettingsFromDB Playtime.exampleNow stateCreateFails)).db.createAttempts = 2 := by
  decide

/-- C16, amended: when the settings table is empty (and can be read),
`loadSettingsFromDB` publishes a snapshot whose `GraphicsOptions` and
`MiscOptions` are `DefaultGraphicsOptions()` and `DefaultMiscOptions()` and
calls `Create` for the default row once. When the insert succeeds the table
holds that row and the next reload does not write; when it fails the table is
still empty and the next reload writes again. A reload that finds a row never
writes. -/
theorem loadSettingsFromDB_empty_table (now later : Time) (s : State)
    (hread : s.db.readFailing = false) (hempty : s.db.rows = []) :
    (∃ r, (loadSettingsFromDB now s).currentSettings = some r ∧
      r.GraphicsOptions = Model.DefaultGraphicsOptions ∧
      r.MiscOptions = Model.DefaultMiscOptions) ∧
    (loadSettingsFromDB now s).lastRefreshTime = now ∧
    (loadSettingsFromDB now s).db.createAttempts = s.db.createAttempts + 1 ∧
    (s.db.createFailing = false →
      (loadSettingsFromDB now s).db.rows = [defaultRow] ∧
      (loadSettingsFromDB later (loadSettingsFromDB now s)).db.createAttempts
        = s.db.createAttempts + 1) ∧
    (s.db.createFailing = true →
      (loadSettingsFromDB now s).db.rows = [] ∧
      (loadSettingsFromDB later (loadSettingsFromDB now s)).db.createAttempts
        = s.db.createAttempts + 2) ∧
    (∀ t : State, t.db.rows ≠ [] → (loadSettingsFromDB now t).db = t.db) := by
  have hhead : s.db.rows.head? = none := by rw [hempty]; rfl
  refine ⟨?_, ?_, ?_, ?_, ?_, ?_⟩
  · unfold loadSettingsFromDB
    simp only [hread, hhead, Bool.false_eq_true, if_false]
    cases s.db.createFailing <;> exact ⟨_, rfl, rfl, rfl⟩
  · unfold loadSettingsFromDB
    simp only [hread, hhead, Bool.false_eq_true, if_false]
  · unfold loadSettingsFromDB SettingsDB.create
    simp only [hread, hhead, Bool.false_eq_true, if_false]
    cases s.db.createFailing <;> rfl
  · intro hc
    unfold loadSettingsFromDB SettingsDB.create
    simp [hread, hhead, hc, hempty, defaultRow]
  · intro hc
    unfold loadSettingsFromDB SettingsDB.create
    simp [hread, hhead, hc, hempty]
  · intro t ht
    unfold loadSettingsFromDB
    split
    · rfl
    · cases hrows : t.db.rows with
      | nil => exact absurd hrows ht
      | cons first rest => simp [List.head?]

/-- Witness of `loadSettingsFromDB_empty_table`: an empty table that accepts
the insert. -/
theorem loadSettingsFromDB_empty_table_witness :
    (stateEmptyTable.db.readFailing = false ∧ stateEmptyTable.db.rows = []) ∧
    (loadSettingsFromDB Playtime.exampleNow stateEmptyTable).db.rows = [defaultRow] ∧
    (loadSettingsFromDB Playtime.exampleNow stateEmptyTable).db.createAttempts
      = stateEmptyTable.db.createAttempts + 1 :=
  ⟨⟨by decide, by decide⟩,
    ((loadSettingsFromDB_empty_table Playtime.exampleNow Playtime.exampleNow stateEmptyTable
      (by decide) (by decide)).2.2.2.1 (by decide)).1,
    (loadSettingsFromDB_empty_table Playtime.exampleNow Playtime.exampleNow stateEmptyTable
      (by decide) (by decide)).2.2.1⟩

end Serversettings

namespace Serversettings

/-! ### Parsing the option texts -/

set_option maxRecDepth 100000 in
/-- The decoding of `DefaultGraphicsOptions()`: two entries, of levels 1 and 3. -/
theorem unmarshal_DefaultGraphicsOptions :
    (Json.unmarshalObjectArray Model.DefaultGraphicsOptions).map
        (fun options => options.map numberMembers)
      = some [[("level", some "1"), ("isDefault", some "0"), ("shadow", some "0"),
               ("maxParticles", some "1000"), ("renderScale", some "0.8")],
              [("level", some "3"), ("isDefault", some "1"), ("shadow", some "1"),
               ("maxParticles", some "5000"), ("renderScale", some "1")]] := by
  decide

/-- The decoding of `DefaultMiscOptions()`. -/
theorem unmarshal_DefaultMiscOptions :
    (Json.unmarshalObject Model.DefaultMiscOptions).map numberMembers
      = some [("outline", some "1"), ("HFR", some "1"), ("BRHFR", some "1"),
              ("HFX", some "1")] := by
  decide

/-- The constants of the range check of numbers. -/
theorem float64Overflow_eq :
    Json.float64Overflow = 2 ^ 1024 - 2 ^ 970 ∧ ∀ n : Nat, Json.pow10 n = 10 ^ n := by
  refine ⟨by unfold Json.float64Overflow; norm_num, ?_⟩
  intro n
  induction n with
  | zero => rfl
  | succ n ih => rw [Json.pow10, ih, pow_succ, Nat.mul_comm]

/-- C17: `ParseGraphicsOptions` and `ParseMiscOptions` are functions of their
argument alone. For every text whose decoding into the target type fails they
return the decoding of `DefaultGraphicsOptions()`, which has two entries, of
levels 1 and 3, and of `DefaultMiscOptions()`; for every text that decodes they
return the decoded value. -/
theorem ParseOptions_spec :
    (∀ jsonStr : String, Json.unmarshalObjectArray jsonStr = none →
      Json.unmarshalObjectArray Model.DefaultGraphicsOptions
          = some (ParseGraphicsOptions jsonStr) ∧
      (ParseGraphicsOptions jsonStr).map numberMembers
        = [[("level", some "1"), ("isDefault", some "0"), ("shadow", some "0"),
            ("maxParticles", some "1000"), ("renderScale", some "0.8")],
           [("level", some "3"), ("isDefault", some "1"), ("shadow", some "1"),
            ("maxParticles", some "5000"), ("renderScale", some "1")]]) ∧
    (∀ (jsonStr : String) (options : List (List (String × Json.JSON))),
      Json.unmarshalObjectArray jsonStr = some options →
      ParseGraphicsOptions jsonStr = options) ∧
    (∀ jsonStr : String, Json.unmarshalObject jsonStr = none →
      Json.unmarshalObject Model.DefaultMiscOptions = some (ParseMiscOptions jsonStr) ∧
      numberMembers (ParseMiscOptions jsonStr)
        = [("outline", some "1"), ("HFR", some "1"), ("BRHFR", some "1"), ("HFX", some "1")]) ∧
    (∀ (jsonStr : String) (options : List (String × Json.JSON)),
      Json.unmarshalObject jsonStr = some options → ParseMiscOptions jsonStr = options) := by
  refine ⟨?_, ?_, ?_, ?_⟩
  · intro jsonStr hfail
    have hdef := unmarshal_DefaultGraphicsOptions
    unfold ParseGraphicsOptions
    rw [hfail]
    cases hd : Json.unmarshalObjectArray Model.DefaultGraphicsOptions with
    | none => rw [hd] at hdef; simp at hdef
    | some v =>
      rw [hd] at hdef
      simp only [Option.map_some', Option.some.injEq] at hdef
      exact ⟨rfl, hdef⟩
  · intro jsonStr options hok
    unfold ParseGraphicsOptions
    rw [hok]
  · intro jsonStr hfail
    have hdef := unmarshal_DefaultMiscOptions
    unfold ParseMiscOptions
    rw [hfail]
    cases hd : Json.unmarshalObject Model.DefaultMiscOptions with
    | none => rw [hd] at hdef; simp at hdef
    | some v =>
      rw [hd] at hdef
      simp only [Option.map_some', Option.some.injEq] at hdef
      exact ⟨rfl, hdef⟩
  · intro jsonStr options hok
    unfold ParseMiscOptions
    rw [hok]

set_option maxRecDepth 100000 in
/-- Witness of `ParseOptions_spec`: a text that is not JSON, a JSON text of the
wrong type, objects with a number outside the range of `float64` (for which
`json.Unmarshal` returns an error), and texts that decode. -/
theorem ParseOptions_spec_witness :
    (Json.unmarshalObjectArray "not json" = none ∧
      Json.unmarshalObjectArray Model.DefaultGraphicsOptions
        = some (ParseGraphicsOptions "not json")) ∧
    (Json.unmarshalObject "[1, 2]" = none ∧
      numberMembers (ParseMiscOptions "[1, 2]")
        = [("outline", some "1"), ("HFR", some "1"), ("BRHFR", some "1"), ("HFX", some "1")]) ∧
    (Json.unmarshalObject "\x7b\"HFR\": 1e400\x7d" = none ∧
      numberMembers (ParseMiscOptions "\x7b\"HFR\": 1e400\x7d")
        = [("outline", some "1"), ("HFR", some "1"), ("BRHFR", some "1"), ("HFX", some "1")]) ∧
    (Json.unmarshalObjectArray "[\x7b\"level\": 1e309\x7d]" = none ∧
      Json.unmarshalObjectArray Model.DefaultGraphicsOptions
        = some (ParseGraphicsOptions "[\x7b\"level\": 1e309\x7d]")) ∧
    numberMembers (ParseMiscOptions "\x7b\"HFR\": 0\x7d") = [("HFR", some "0")] ∧
    numberMembers (ParseMiscOptions "\x7b\"HFR\": 1e308\x7d") = [("HFR", some "1e308")] :=
  ⟨⟨rfl, (ParseOptions_spec.1 "not json" rfl).1⟩,
    ⟨rfl, (ParseOptions_spec.2.2.1 "[1, 2]" rfl).2⟩,
    ⟨rfl, (ParseOptions_spec.2.2.1 "\x7b\"HFR\": 1e400\x7d" rfl).2⟩,
    ⟨rfl, (ParseOptions_spec.1 "[\x7b\"level\": 1e309\x7d]" rfl).1⟩,
    by decide, by decide⟩

end Serversettings

namespace Playtime

/-! ### The scores -/

theorem any_beq_eq_true (l : List String) (x : String) :
    l.any (fun known => known == x) = true ↔ x ∈ l := by
  rw [List.any_eq_true]
  constructor
  · rintro ⟨y, hy, hxy⟩
    rw [beq_iff_eq] at hxy
    rw [← hxy]
    exact hy
  · intro h
    exact ⟨x, h, by simp⟩

theorem any_beq_nonempty_eq_true (l : List String) (x : String) :
    l.any (fun known => known == x && x != "") = true ↔ x ≠ "" ∧ x ∈ l := by
  rw [List.any_eq_true]
  constructor
  · rintro ⟨y, hy, hxy⟩
    rw [Bool.and_eq_true, beq_iff_eq, bne_iff_ne] at hxy
    rw [← hxy.1]
    exact ⟨hxy.1 ▸ hxy.2, hy⟩
  · rintro ⟨hne, h⟩
    exact ⟨x, h, by simp [hne]⟩

/-- C18: the score of the record found for the login's own deviceID is
`25 + 35 * [ip in the IP history] + 40 * [realDeviceID in its history]`; it is
one of 25, 60, 65, 100, at most 100, and reaches the threshold 60 exactly when
the address or the hardware id matches. With a match
`VerifyPlaytimeMultiDimension` decides on the device's own record at once;
without one it runs the alias scan first. -/
theorem ownScore_spec (playerInfo : Model.PlayerInfo) (ip realDeviceID : String) :
    ownScore playerInfo ip realDeviceID
      = 25 + (if ip ∈ splitTextByDoubleNewline playerInfo.IP then 35 else 0)
           + (if realDeviceID ∈ splitTextByDoubleNewline playerInfo.RealDeviceID then 40
              else 0) ∧
    (ownScore playerInfo ip realDeviceID = 25 ∨ ownScore playerInfo ip realDeviceID = 60 ∨
      ownScore playerInfo ip realDeviceID = 65 ∨ ownScore playerInfo ip realDeviceID = 100) ∧
    ownScore playerInfo ip realDeviceID ≤ 100 ∧
    scoreThreshold = 60 ∧
    (ownScore playerInfo ip realDeviceID ≥ scoreThreshold ↔
      (ip ∈ splitTextByDoubleNewline playerInfo.IP ∨
        realDeviceID ∈ splitTextByDoubleNewline playerInfo.RealDeviceID)) ∧
    (∀ (deviceID : String) (now : Time) (s : State),
      s.db.firstPlayerInfo deviceID = some playerInfo →
      ((ip ∈ splitTextByDoubleNewline playerInfo.IP ∨
          realDeviceID ∈ splitTextByDoubleNewline playerInfo.RealDeviceID) →
        VerifyPlaytimeMultiDimension ip realDeviceID deviceID now s
          = authorizeOwnQuota deviceID now (NotifyActivity s)) ∧
      (¬ (ip ∈ splitTextByDoubleNewline playerInfo.IP ∨
          realDeviceID ∈ splitTextByDoubleNewline playerInfo.RealDeviceID) →
        VerifyPlaytimeMultiDimension ip realDeviceID deviceID now s
          = match checkRelated now
              (relatedDeviceIDs deviceID ip realDeviceID s.allPlayerInfos) (NotifyActivity s) with
            | (some e, s1) => (some e, s1)
            | (none, s1) => authorizeOwnQuota deviceID now s1)) := by
  have hscore : ownScore playerInfo ip realDeviceID
      = 25 + (if ip ∈ splitTextByDoubleNewline playerInfo.IP then 35 else 0)
           + (if realDeviceID ∈ splitTextByDoubleNewline playerInfo.RealDeviceID then 40
              else 0) := by
    unfold ownScore
    simp only [any_beq_eq_true, ipWeight, realDeviceIDWeight, deviceIDWeight]
    split_ifs <;> rfl
  have hiff : ownScore playerInfo ip realDeviceID ≥ scoreThreshold ↔
      (ip ∈ splitTextByDoubleNewline playerInfo.IP ∨
        realDeviceID ∈ splitTextByDoubleNewline playerInfo.RealDeviceID) := by
    rw [hscore]
    unfold scoreThreshold
    split_ifs with h1 h2 h2 <;> simp [h1, h2]
  refine ⟨hscore, ?_, ?_, rfl, hiff, ?_⟩
  · rw [hscore]
    split_ifs <;> simp
  · rw [hscore]
    split_ifs <;> simp
  · intro deviceID now s hfound
    have hfound1 : (NotifyActivity s).db.firstPlayerInfo deviceID = some playerInfo := hfound
    constructor
    · intro hmatch
      unfold VerifyPlaytimeMultiDimension
      simp only [hfound1, hiff.mpr hmatch, if_true]
    · intro hno
      have hlt : ¬ ownScore playerInfo ip realDeviceID ≥ scoreThreshold := fun h => hno (hiff.mp h)
      unfold VerifyPlaytimeMultiDimension
      simp only [hfound1, hlt, if_false]
      rfl

/-- Witness of `ownScore_spec`: the four values of the score. -/
theorem ownScore_spec_witness :
    ownScore (exampleInfo "D1" 1 "1.2.3.4" "hw1") "9.9.9.9" "hw9" = 25 ∧
    ownScore (exampleInfo "D1" 1 "1.2.3.4" "hw1") "1.2.3.4" "hw9" = 60 ∧
    ownScore (exampleInfo "D1" 1 "1.2.3.4" "hw1") "9.9.9.9" "hw1" = 65 ∧
    ownScore (exampleInfo "D1" 1 "1.2.3.4" "hw1") "1.2.3.4" "hw1" = 100 ∧
    VerifyPlaytimeMultiDimension "1.2.3.4" "hw9" "D1" exampleNow stateShared
      = authorizeOwnQuota "D1" exampleNow (NotifyActivity stateShared) :=
  ⟨by decide, by decide, by decide, by decide,
    ((ownScore_spec (exampleInfo "D1" 1 "1.2.3.4" "hw1") "1.2.3.4" "hw9").2.2.2.2.2
      "D1" exampleNow stateShared (by decide)).1 (by decide)⟩

/-- C19: the relation score of a record in the alias scan is
`35 * [ip not empty and in the IP history] + 40 * [realDeviceID not empty and
in its history]`, one of 0, 35, 40, 75. A deviceID is put on the list of
related devices exactly when it is the key of a record other than the login's
own whose score is at least 35, that is, with a match in at least one
dimension; the login's own deviceID is never on the list. -/
theorem relationScore_spec (info : Model.PlayerInfo) (deviceID ip realDeviceID : String)
    (infos : List Model.PlayerInfo) :
    relationScore info ip realDeviceID
      = (if ip ≠ "" ∧ ip ∈ splitTextByDoubleNewline info.IP then 35 else 0)
        + (if realDeviceID ≠ "" ∧ realDeviceID ∈ splitTextByDoubleNewline info.RealDeviceID
           then 40 else 0) ∧
    (relationScore info ip realDeviceID = 0 ∨ relationScore info ip realDeviceID = 35 ∨
      relationScore info ip realDeviceID = 40 ∨ relationScore info ip realDeviceID = 75) ∧
    scoreThreshold - deviceIDWeight = 35 ∧
    (relationScore info ip realDeviceID ≥ 35 ↔
      ((ip ≠ "" ∧ ip ∈ splitTextByDoubleNewline info.IP) ∨
        (realDeviceID ≠ "" ∧ realDeviceID ∈ splitTextByDoubleNewline info.RealDeviceID))) ∧
    (∀ d : String, d ∈ relatedDeviceIDs deviceID ip realDeviceID infos ↔
      ∃ other ∈ infos, other.DeviceID = d ∧ other.DeviceID ≠ deviceID ∧
        relationScore other ip realDeviceID ≥ 35) ∧
    deviceID ∉ relatedDeviceIDs deviceID ip realDeviceID infos := by
  have hscore : ∀ other : Model.PlayerInfo, relationScore other ip realDeviceID
      = (if ip ≠ "" ∧ ip ∈ splitTextByDoubleNewline other.IP then 35 else 0)
        + (if realDeviceID ≠ "" ∧ realDeviceID ∈ splitTextByDoubleNewline other.RealDeviceID
           then 40 else 0) := by
    intro other
    unfold relationScore
    simp only [any_beq_nonempty_eq_true, ipWeight, realDeviceIDWeight]
    split_ifs <;> rfl
  have hmem : ∀ d : String, d ∈ relatedDeviceIDs deviceID ip realDeviceID infos ↔
      ∃ other ∈ infos, other.DeviceID = d ∧ other.DeviceID ≠ deviceID ∧
        relationScore other ip realDeviceID ≥ 35 := by
    intro d
    induction infos with
    | nil => simp [relatedDeviceIDs]
    | cons first rest ih =>
      unfold relatedDeviceIDs
      have hthr : scoreThreshold - deviceIDWeight = 35 := rfl
      rw [hthr]
      by_cases hown : first.DeviceID = deviceID
      · rw [if_pos hown, ih]
        constructor
        · rintro ⟨other, ho, h⟩
          exact ⟨other, List.mem_cons_of_mem _ ho, h⟩
        · rintro ⟨other, ho, h1, h2, h3⟩
          rcases List.mem_cons.mp ho with h | h
          · subst h
            exact absurd hown h2
          · exact ⟨other, h, h1, h2, h3⟩
      · rw [if_neg hown]
        by_cases hs : relationScore first ip realDeviceID ≥ 35
        · rw [if_pos hs, List.mem_cons, ih]
          constructor
          · rintro (h | ⟨other, ho, h⟩)
            · exact ⟨first, List.mem_cons_self _ _, h.symm, hown, hs⟩
            · exact ⟨other, List.mem_cons_of_mem _ ho, h⟩
          · rintro ⟨other, ho, h1, h2, h3⟩
            rcases List.mem_cons.mp ho with h | h
            · subst h
              exact Or.inl h1.symm
            · exact Or.inr ⟨other, h, h1, h2, h3⟩
        · rw [if_neg hs, ih]
          constructor
          · rintro ⟨other, ho, h⟩
            exact ⟨other, List.mem_cons_of_mem _ ho, h⟩
          · rintro ⟨other, ho, h1, h2, h3⟩
            rcases List.mem_cons.mp ho with h | h
            · subst h
              exact absurd h3 hs
            · exact ⟨other, h, h1, h2, h3⟩
  refine ⟨hscore info, ?_, rfl, ?_, hmem, ?_⟩
  · rw [hscore info]
    split_ifs <;> simp
  · rw [hscore info]
    split_ifs with h1 h2 h2 <;> simp [h1, h2]
  · intro h
    obtain ⟨other, -, h1, h2, -⟩ := (hmem deviceID).mp h
    exact h2 h1

end Playtime

/-! ### The schedulers of the ban registry and the settings cache -/

namespace Banning

theorem tick_active (now : Time) (s : State) (hact : s.activityInWindow = true) :
    tick now s = loadBansFromDB now
      { s with activityInWindow := false, noActivityStreakStartTime := Time.zero } := by
  unfold tick
  rw [if_pos hact]

theorem tick_first_quiet (now : Time) (s : State) (hact : s.activityInWindow = false)
    (hzero : s.noActivityStreakStartTime.IsZero = true) :
    tick now s = loadBansFromDB now
      { s with noActivityStreakStartTime := now.Add (-refreshInterval) } := by
  unfold tick
  simp [hact, hzero]

theorem tick_quiet (now : Time) (s : State) (hact : s.activityInWindow = false)
    (hmark : s.noActivityStreakStartTime.IsZero = false) :
    tick now s =
      if now.ns - s.noActivityStreakStartTime.ns < maxNoActivityDuration then
        loadBansFromDB now s
      else s := by
  unfold tick
  simp [hact, hmark]

theorem loadBansFromDB_scheduler (now : Time) (s : State) :
    (loadBansFromDB now s).activityInWindow = s.activityInWindow ∧
    (loadBansFromDB now s).noActivityStreakStartTime = s.noActivityStreakStartTime ∧
    (loadBansFromDB now s).lastRefreshTime = now :=
  ⟨rfl, rfl, rfl⟩

/-- Ticks without activity keep the activity flag clear and a started quiet
streak as it is. -/
theorem quietTicks_scheduler (count : Nat) (first : Time) (s : State)
    (hact : s.activityInWindow = false) (hmark : s.noActivityStreakStartTime.IsZero = false) :
    (quietTicks count first s).activityInWindow = false ∧
    (quietTicks count first s).noActivityStreakStartTime = s.noActivityStreakStartTime := by
  induction count generalizing first s with
  | zero => exact ⟨hact, rfl⟩
  | succ n ih =>
    unfold quietTicks
    have hstep : (tick first s).activityInWindow = false ∧
        (tick first s).noActivityStreakStartTime = s.noActivityStreakStartTime := by
      rw [tick_quiet first s hact hmark]
      split_ifs
      · exact ⟨hact, rfl⟩
      · exact ⟨hact, rfl⟩
    obtain ⟨h1, h2⟩ := ih (first.Add refreshInterval) (tick first s) hstep.1
      (by rw [hstep.2]; exact hmark)
    exact ⟨h1, h2.trans hstep.2⟩

/-- After a first quiet tick at `first` and any number of further quiet ticks,
the flag is clear and the streak started one period before `first`. -/
theorem quietTicks_succ_scheduler (count : Nat) (first : Time) (s : State)
    (hact : s.activityInWindow = false) (hzero : s.noActivityStreakStartTime.IsZero = true)
    (hfirst : (first.Add (-refreshInterval)).IsZero = false) :
    (quietTicks (count + 1) first s).activityInWindow = false ∧
    (quietTicks (count + 1) first s).noActivityStreakStartTime
      = first.Add (-refreshInterval) := by
  unfold quietTicks
  have h1 : (tick first s).activityInWindow = false := by
    rw [tick_first_quiet first s hact hzero]; exact hact
  have h2 : (tick first s).noActivityStreakStartTime = first.Add (-refreshInterval) := by
    rw [tick_first_quiet first s hact hzero]; rfl
  obtain ⟨h3, h4⟩ := quietTicks_scheduler count (first.Add refreshInterval) (tick first s) h1
    (by rw [h2]; exact hfirst)
  exact ⟨h3, h4.trans h2⟩

end Banning

namespace Serversettings

theorem settings_tick_active (now : Time) (s : State) (hact : s.activityInWindow = true) :
    tick now s = loadSettingsFromDB now
      { s with activityInWindow := false, noActivityStreakStartTime := Time.zero } := by
  unfold tick
  rw [if_pos hact]

theorem settings_tick_first_quiet (now : Time) (s : State) (hact : s.activityInWindow = false)
    (hzero : s.noActivityStreakStartTime.IsZero = true) :
    tick now s = loadSettingsFromDB now
      { s with noActivityStreakStartTime := now.Add (-refreshInterval) } := by
  unfold tick
  simp [hact, hzero]

theorem settings_tick_quiet (now : Time) (s : State) (hact : s.activityInWindow = false)
    (hmark : s.noActivityStreakStartTime.IsZero = false) :
    tick now s =
      if now.ns - s.noActivityStreakStartTime.ns < maxNoActivityDuration then
        loadSettingsFromDB now s
      else s := by
  unfold tick
  simp [hact, hmark]

theorem loadSettingsFromDB_scheduler (now : Time) (s : State) :
    (loadSettingsFromDB now s).activityInWindow = s.activityInWindow ∧
    (loadSettingsFromDB now s).noActivityStreakStartTime = s.noActivityStreakStartTime := by
  unfold loadSettingsFromDB
  split
  · exact ⟨rfl, rfl⟩
  · split <;> exact ⟨rfl, rfl⟩

theorem settings_quietTicks_scheduler (count : Nat) (first : Time) (s : State)
    (hact : s.activityInWindow = false) (hmark : s.noActivityStreakStartTime.IsZero = false) :
    (quietTicks count first s).activityInWindow = false ∧
    (quietTicks count first s).noActivityStreakStartTime = s.noActivityStreakStartTime := by
  induction count generalizing first s with
  | zero => exact ⟨hact, rfl⟩
  | succ n ih =>
    unfold quietTicks
    have hstep : (tick first s).activityInWindow = false ∧
        (tick first s).noActivityStreakStartTime = s.noActivityStreakStartTime := by
      rw [settings_tick_quiet first s hact hmark]
      split_ifs
      · obtain ⟨h1, h2⟩ := loadSettingsFromDB_scheduler first s
        exact ⟨h1.trans hact, h2⟩
      · exact ⟨hact, rfl⟩
    obtain ⟨h1, h2⟩ := ih (first.Add refreshInterval) (tick first s) hstep.1
      (by rw [hstep.2]; exact hmark)
    exact ⟨h1, h2.trans hstep.2⟩

theorem settings_quietTicks_succ_scheduler (count : Nat) (first : Time) (s : State)
    (hact : s.activityInWindow = false) (hzero : s.noActivityStreakStartTime.IsZero = true)
    (hfirst : (first.Add (-refreshInterval)).IsZero = false) :
    (quietTicks (count + 1) first s).activityInWindow = false ∧
    (quietTicks (count + 1) first s).noActivityStreakStartTime
      = first.Add (-refreshInterval) := by
  unfold quietTicks
  obtain ⟨l1, l2⟩ := loadSettingsFromDB_scheduler first
    { s with noActivityStreakStartTime := first.Add (-refreshInterval) }
  have h1 : (tick first s).activityInWindow = false := by
    rw [settings_tick_first_quiet first s hact hzero, l1]; exact hact
  have h2 : (tick first s).noActivityStreakStartTime = first.Add (-refreshInterval) := by
    rw [settings_tick_first_quiet first s hact hzero, l2]
  obtain ⟨h3, h4⟩ := settings_quietTicks_scheduler count (first.Add refreshInterval) (tick first s) h1
    (by rw [h2]; exact hfirst)
  exact ⟨h3, h4.trans h2⟩

end Serversettings

namespace Banning

/-- The effect of a reload: the four sets are rebuilt from what the scans
return, the stamp is the instant of the reload, and the tables and the fields of
the scheduler are untouched. -/
theorem loadBansFromDB_effect (now : Time) (s : State) :
    HoldsBansOf (loadBansFromDB now s) s.db ∧ (loadBansFromDB now s).db = s.db := by
  refine ⟨⟨?_, ?_, ?_, ?_⟩, rfl⟩
  · intro x
    show x ∈ buildBans (fun ip => ip) s.db.banIP.find ↔ _
    rw [mem_buildBans]; simp
  · intro x
    show x ∈ buildBans (fun deviceID => deviceID) s.db.banDeviceID.find ↔ _
    rw [mem_buildBans]; simp
  · intro x
    show x ∈ buildBans (fun realDeviceID => realDeviceID) s.db.banRealDeviceID.find ↔ _
    rw [mem_buildBans]; simp
  · intro x
    show x ∈ buildBans Model.GetStableDeviceInfo s.db.banDeviceInfo.find ↔ _
    rw [mem_buildBans]

theorem tick_db (now : Time) (s : State) : (tick now s).db = s.db := by
  unfold tick
  split
  · rfl
  · split
    · rfl
    · split <;> rfl

theorem quietTicks_db (count : Nat) (first : Time) (s : State) :
    (quietTicks count first s).db = s.db := by
  induction count generalizing first s with
  | zero => rfl
  | succ n ih =>
    show (quietTicks n (first.Add refreshInterval) (tick first s)).db = s.db
    rw [ih, tick_db]

end Banning

namespace Serversettings

/-- The effect of a reload over a table that can be read: the first row, or
the default row for an empty table, is published and stamped. -/
theorem loadSettingsFromDB_published (now : Time) (s : State)
    (hread : s.db.readFailing = false) : PublishedFrom (loadSettingsFromDB now s) s.db now := by
  unfold PublishedFrom loadSettingsFromDB
  simp only [hread, Bool.false_eq_true, if_false]
  cases hrows : s.db.rows.head? with
  | some row => exact ⟨rfl, rfl⟩
  | none =>
    refine ⟨?_, rfl⟩
    cases s.db.createFailing <;> rfl

theorem loadSettingsFromDB_readFailing (now : Time) (s : State) :
    (loadSettingsFromDB now s).db.readFailing = s.db.readFailing := by
  unfold loadSettingsFromDB
  split
  · rfl
  · split
    · rfl
    · simp only [SettingsDB.create]
      split <;> rfl

theorem settings_tick_readFailing (now : Time) (s : State) :
    (tick now s).db.readFailing = s.db.readFailing := by
  unfold tick
  split
  · exact loadSettingsFromDB_readFailing now _
  · simp only
    split
    · exact loadSettingsFromDB_readFailing now _
    · split
      · exact loadSettingsFromDB_readFailing now _
      · rfl

theorem settings_quietTicks_readFailing (count : Nat) (first : Time) (s : State) :
    (quietTicks count first s).db.readFailing = s.db.readFailing := by
  induction count generalizing first s with
  | zero => rfl
  | succ n ih =>
    show (quietTicks n (first.Add refreshInterval) (tick first s)).db.readFailing
      = s.db.readFailing
    rw [ih, settings_tick_readFailing]

end Serversettings

/-- The instant of the tick number `k + 1` of a run whose first tick is at
`first`. -/
theorem Time.add_periods (first : Time) (k : Int) :
    (first.Add (k * Banning.refreshInterval)).ns - (first.Add (-Banning.refreshInterval)).ns
      = (k + 1) * 55000000000 := by
  unfold Time.Add Banning.refreshInterval
  simp only
  ring

/-- C20: for the schedulers of the ban list and of the settings (period 55 s,
grace window 15 min, so that `ceil(G/P) + 1 = 18`), started with the activity
flag clear and a zero quiet-streak marker: after 18 ticks, 55 s apart, without
activity, the next tick performs no reload (it leaves the state as it is,
whatever the tables hold by then); and if `NotifyActivity` is then called, the
following tick reloads, clears the activity flag and resets the marker to zero.
The reload rebuilds the four ban sets from what the scans of the tables return
and stamps `lastRefreshTime`; for the settings it publishes and stamps the
first row of a readable table (the default row when the table is empty). -/
theorem schedulers_pause_and_resume (first later : Time) (b : Banning.State)
    (c : Serversettings.State)
    (hfirst : (first.Add (-Banning.refreshInterval)).IsZero = false)
    (hb : b.activityInWindow = false ∧ b.noActivityStreakStartTime.IsZero = true)
    (hc : c.activityInWindow = false ∧ c.noActivityStreakStartTime.IsZero = true) :
    (Banning.maxNoActivityDuration + Banning.refreshInterval - 1) / Banning.refreshInterval + 1
      = 18 ∧
    Banning.tick (first.Add (18 * Banning.refreshInterval)) (Banning.quietTicks 18 first b)
      = Banning.quietTicks 18 first b ∧
    Banning.tick later (Banning.NotifyActivity (Banning.quietTicks 18 first b))
      = Banning.loadBansFromDB later
          { Banning.quietTicks 18 first b with
            activityInWindow := false, noActivityStreakStartTime := Time.zero } ∧
    (Banning.tick later (Banning.NotifyActivity (Banning.quietTicks 18 first b))).activityInWindow
      = false ∧
    (Banning.tick later
      (Banning.NotifyActivity (Banning.quietTicks 18 first b))).noActivityStreakStartTime
      = Time.zero ∧
    (Banning.tick later (Banning.NotifyActivity (Banning.quietTicks 18 first b))).lastRefreshTime
      = later ∧
    Serversettings.tick (first.Add (18 * Banning.refreshInterval))
        (Serversettings.quietTicks 18 first c)
      = Serversettings.quietTicks 18 first c ∧
    Serversettings.tick later
        (Serversettings.NotifyActivity (Serversettings.quietTicks 18 first c))
      = Serversettings.loadSettingsFromDB later
          { Serversettings.quietTicks 18 first c with
            activityInWindow := false, noActivityStreakStartTime := Time.zero } ∧
    (Serversettings.tick later (Serversettings.NotifyActivity
      (Serversettings.quietTicks 18 first c))).activityInWindow = false ∧
    (Serversettings.tick later (Serversettings.NotifyActivity
      (Serversettings.quietTicks 18 first c))).noActivityStreakStartTime = Time.zero ∧
    Banning.HoldsBansOf
      (Banning.tick later (Banning.NotifyActivity (Banning.quietTicks 18 first b))) b.db ∧
    (∀ tables : Banning.BanDB,
      Banning.tick (first.Add (18 * Banning.refreshInterval))
          { Banning.quietTicks 18 first b with db := tables }
        = { Banning.quietTicks 18 first b with db := tables } ∧
      Banning.HoldsBansOf
        (Banning.tick later
          (Banning.NotifyActivity { Banning.quietTicks 18 first b with db := tables }))
        tables) ∧
    (c.db.readFailing = false →
      Serversettings.PublishedFrom
        (Serversettings.tick later
          (Serversettings.NotifyActivity (Serversettings.quietTicks 18 first c)))
        (Serversettings.quietTicks 18 first c).db later) ∧
    (∀ db : Serversettings.SettingsDB,
      Serversettings.tick (first.Add (18 * Banning.refreshInterval))
          { Serversettings.quietTicks 18 first c with db := db }
        = { Serversettings.quietTicks 18 first c with db := db } ∧
      (db.readFailing = false →
        Serversettings.PublishedFrom
          (Serversettings.tick later
            (Serversettings.NotifyActivity
              { Serversettings.quietTicks 18 first c with db := db }))
          db later)) := by
  have heffect : ∀ (t : Time) (st : Banning.State),
      Banning.HoldsBansOf (Banning.loadBansFromDB t st) st.db := by
    intro t st
    refine ⟨?_, ?_, ?_, ?_⟩
    · intro x
      show x ∈ Banning.buildBans (fun ip => ip) st.db.banIP.find ↔ _
      rw [Banning.mem_buildBans]; simp
    · intro x
      show x ∈ Banning.buildBans (fun deviceID => deviceID) st.db.banDeviceID.find ↔ _
      rw [Banning.mem_buildBans]; simp
    · intro x
      show x ∈ Banning.buildBans (fun realDeviceID => realDeviceID)
        st.db.banRealDeviceID.find ↔ _
      rw [Banning.mem_buildBans]; simp
    · intro x
      show x ∈ Banning.buildBans Model.GetStableDeviceInfo st.db.banDeviceInfo.find ↔ _
      rw [Banning.mem_buildBans]
  have hpub : ∀ (t : Time) (st : Serversettings.State), st.db.readFailing = false →
      Serversettings.PublishedFrom (Serversettings.loadSettingsFromDB t st) st.db t := by
    intro t st hread
    unfold Serversettings.PublishedFrom Serversettings.loadSettingsFromDB
    simp only [hread, Bool.false_eq_true, if_false]
    cases hrows : st.db.rows.head? with
    | some row => exact ⟨rfl, rfl⟩
    | none =>
      refine ⟨?_, rfl⟩
      cases st.db.createFailing <;> rfl
  obtain ⟨hb1, hb2⟩ := Banning.quietTicks_succ_scheduler 17 first b hb.1 hb.2 hfirst
  obtain ⟨hc1, hc2⟩ := Serversettings.settings_quietTicks_succ_scheduler 17 first c hc.1 hc.2 hfirst
  rw [show Serversettings.refreshInterval = Banning.refreshInterval from rfl] at hc2
  have hbm : (Banning.quietTicks 18 first b).noActivityStreakStartTime.IsZero = false := by
    rw [hb2]; exact hfirst
  have hcm : (Serversettings.quietTicks 18 first c).noActivityStreakStartTime.IsZero = false := by
    rw [hc2]; exact hfirst
  have hgap := Time.add_periods first 18
  have hbt := Banning.tick_active later (Banning.NotifyActivity (Banning.quietTicks 18 first b)) rfl
  have hct := Serversettings.settings_tick_active later
    (Serversettings.NotifyActivity (Serversettings.quietTicks 18 first c)) rfl
  have hlate : ¬ (18 + 1) * 55000000000 < Banning.maxNoActivityDuration := by
    unfold Banning.maxNoActivityDuration
    omega
  have hlate2 : ¬ (18 + 1) * 55000000000 < Serversettings.maxNoActivityDuration := hlate
  refine ⟨by decide, ?_, hbt, ?_, ?_, ?_, ?_, hct, ?_, ?_, ?_, ?_, ?_, ?_⟩
  · rw [Banning.tick_quiet _ _ hb1 hbm, hb2, hgap, if_neg hlate]
  · rw [hbt]; rfl
  · rw [hbt]; rfl
  · rw [hbt]; rfl
  · rw [Serversettings.settings_tick_quiet _ _ hc1 hcm, hc2, hgap, if_neg hlate2]
  · rw [hct]
    exact (Serversettings.loadSettingsFromDB_scheduler later _).1
  · rw [hct]
    exact (Serversettings.loadSettingsFromDB_scheduler later _).2
  · rw [hbt, ← Banning.quietTicks_db 18 first b]
    exact heffect later _
  · intro tables
    constructor
    · have hmark : ({ Banning.quietTicks 18 first b with db := tables } :
          Banning.State).noActivityStreakStartTime = first.Add (-Banning.refreshInterval) := hb2
      rw [Banning.tick_quiet _ { Banning.quietTicks 18 first b with db := tables } hb1 hbm,
        hmark, hgap, if_neg hlate]
    · rw [Banning.tick_active later
        (Banning.NotifyActivity { Banning.quietTicks 18 first b with db := tables }) rfl]
      exact heffect later _
  · intro hread
    rw [hct]
    refine hpub later _ ?_
    show (Serversettings.quietTicks 18 first c).db.readFailing = false
    rw [Serversettings.settings_quietTicks_readFailing, hread]
  · intro db
    constructor
    · have hmark : ({ Serversettings.quietTicks 18 first c with db := db } :
          Serversettings.State).noActivityStreakStartTime
            = first.Add (-Banning.refreshInterval) := hc2
      rw [Serversettings.settings_tick_quiet _
        { Serversettings.quietTicks 18 first c with db := db } hc1 hcm, hmark, hgap,
        if_neg hlate2]
    · intro hread
      rw [Serversettings.settings_tick_active later
        (Serversettings.NotifyActivity { Serversettings.quietTicks 18 first c with db := db })
        rfl]
      exact hpub later _ hread

/-- Witness of `schedulers_pause_and_resume`: both schedulers start in their
example states and tick first at `2024-01-01T20:00:00Z`; the tick after the
pause and `NotifyActivity` loads the banned address `1.2.3.4` and publishes the
default settings. -/
theorem schedulers_pause_and_resume_witness :
    ((Playtime.exampleNow.Add (-Banning.refreshInterval)).IsZero = false ∧
      (Banning.exampleState.activityInWindow = false ∧
        Banning.exampleState.noActivityStreakStartTime.IsZero = true) ∧
      (Serversettings.stateEmptyTable.activityInWindow = false ∧
        Serversettings.stateEmptyTable.noActivityStreakStartTime.IsZero = true)) ∧
    Banning.tick (Playtime.exampleNow.Add (18 * Banning.refreshInterval))
        (Banning.quietTicks 18 Playtime.exampleNow Banning.exampleState)
      = Banning.quietTicks 18 Playtime.exampleNow Banning.exampleState ∧
    Banning.HoldsBansOf
      (Banning.tick Playtime.exampleNow
        (Banning.NotifyActivity (Banning.quietTicks 18 Playtime.exampleNow Banning.exampleState)))
      Banning.exampleState.db :=
  ⟨⟨by decide, by decide, by decide⟩,
    (schedulers_pause_and_resume Playtime.exampleNow Playtime.exampleNow Banning.exampleState
      Serversettings.stateEmptyTable (by decide) (by decide) (by decide)).2.1,
    (schedulers_pause_and_resume Playtime.exampleNow Playtime.exampleNow Banning.exampleState
      Serversettings.stateEmptyTable (by decide) (by decide)
      (by decide)).2.2.2.2.2.2.2.2.2.2.1⟩

/-! ### The staleness checks -/

namespace Banning

/-- C21. In every state of the ban registry `CheckAndRefreshIfStale` reloads
exactly when the snapshot is older than `refreshInterval`: then the four sets
are rebuilt from what the scans of the tables return, `lastRefreshTime` is the
current instant and the activity flag is set, so the next tick takes the branch
of an active window: it rebuilds the sets from the tables of that moment,
stamps `lastRefreshTime`, clears the flag and resets the quiet-streak marker.
Otherwise the state is unchanged. In both cases the snapshot is at most
`refreshInterval` old afterwards. -/
theorem CheckAndRefreshIfStale_reloads_iff_stale (now : Time) (s : State) :
    (now.ns - s.lastRefreshTime.ns > refreshInterval →
      CheckAndRefreshIfStale now s = NotifyActivity (loadBansFromDB now s) ∧
      HoldsBansOf (CheckAndRefreshIfStale now s) s.db ∧
      (CheckAndRefreshIfStale now s).db = s.db ∧
      (CheckAndRefreshIfStale now s).lastRefreshTime = now ∧
      (CheckAndRefreshIfStale now s).activityInWindow = true ∧
      (CheckAndRefreshIfStale now s).noActivityStreakStartTime = s.noActivityStreakStartTime ∧
      ∀ (later : Time) (tables : BanDB),
        tick later (CheckAndRefreshIfStale now s) =
          loadBansFromDB later
            { CheckAndRefreshIfStale now s with
              activityInWindow := false, noActivityStreakStartTime := Time.zero } ∧
        HoldsBansOf (tick later { CheckAndRefreshIfStale now s with db := tables }) tables ∧
        (tick later { CheckAndRefreshIfStale now s with
          db := tables }).noActivityStreakStartTime = Time.zero ∧
        (tick later { CheckAndRefreshIfStale now s with db := tables }).activityInWindow
          = false ∧
        (tick later { CheckAndRefreshIfStale now s with db := tables }).lastRefreshTime
          = later) ∧
    (¬ now.ns - s.lastRefreshTime.ns > refreshInterval → CheckAndRefreshIfStale now s = s) ∧
    now.ns - (CheckAndRefreshIfStale now s).lastRefreshTime.ns ≤ refreshInterval := by
  have heffect : ∀ (t : Time) (st : Banning.State),
      Banning.HoldsBansOf (Banning.loadBansFromDB t st) st.db := by
    intro t st
    refine ⟨?_, ?_, ?_, ?_⟩
    · intro x
      show x ∈ Banning.buildBans (fun ip => ip) st.db.banIP.find ↔ _
      rw [Banning.mem_buildBans]; simp
    · intro x
      show x ∈ Banning.buildBans (fun deviceID => deviceID) st.db.banDeviceID.find ↔ _
      rw [Banning.mem_buildBans]; simp
    · intro x
      show x ∈ Banning.buildBans (fun realDeviceID => realDeviceID)
        st.db.banRealDeviceID.find ↔ _
      rw [Banning.mem_buildBans]; simp
    · intro x
      show x ∈ Banning.buildBans Model.GetStableDeviceInfo st.db.banDeviceInfo.find ↔ _
      rw [Banning.mem_buildBans]
  refine ⟨?_, ?_, ?_⟩
  · intro hstale
    have heq : CheckAndRefreshIfStale now s = NotifyActivity (loadBansFromDB now s) := by
      unfold CheckAndRefreshIfStale
      rw [if_pos hstale]
    have hact : (CheckAndRefreshIfStale now s).activityInWindow = true := by rw [heq]; rfl
    refine ⟨heq, ?_, ?_, ?_, hact, ?_, ?_⟩
    · rw [heq]
      exact heffect now s
    · rw [heq]; rfl
    · rw [heq]; rfl
    · rw [heq]; rfl
    · intro later tables
      have hact2 : ({ CheckAndRefreshIfStale now s with db := tables } : State).activityInWindow
          = true := hact
      refine ⟨tick_active later _ hact, ?_, ?_, ?_, ?_⟩
      · rw [tick_active later _ hact2]
        exact heffect later _
      · rw [tick_active later _ hact2]; rfl
      · rw [tick_active later _ hact2]; rfl
      · rw [tick_active later _ hact2]; rfl
  · intro hfresh
    unfold CheckAndRefreshIfStale
    rw [if_neg hfresh]
  · unfold CheckAndRefreshIfStale
    split
    · show now.ns - now.ns ≤ refreshInterval
      unfold refreshInterval; omega
    · omega

/-- Witness of `CheckAndRefreshIfStale_reloads_iff_stale`: the registry
`stateUnloaded` was loaded 60 seconds ago and holds no ban, its tables hold one
row each; the check loads them. At the instant of the last reload of
`statePaused` the check changes nothing. -/
theorem CheckAndRefreshIfStale_reloads_iff_stale_witness :
    (Playtime.exampleNow.ns - stateUnloaded.lastRefreshTime.ns > refreshInterval ∧
      stateUnloaded.ipBans = []) ∧
    HoldsBansOf (CheckAndRefreshIfStale Playtime.exampleNow stateUnloaded) stateUnloaded.db ∧
    (CheckAndRefreshIfStale Playtime.exampleNow stateUnloaded).ipBans = ["1.2.3.4"] ∧
    (CheckAndRefreshIfStale Playtime.exampleNow stateUnloaded).deviceInfoBans = ["Phone_8_50"] ∧
    CheckAndRefreshIfStale Playtime.exampleNow statePaused = statePaused :=
  ⟨⟨by decide, by decide⟩,
    ((CheckAndRefreshIfStale_reloads_iff_stale Playtime.exampleNow stateUnloaded).1
      (by decide)).2.1,
    by decide, by decide,
    (CheckAndRefreshIfStale_reloads_iff_stale Playtime.exampleNow statePaused).2.1 (by decide)⟩

end Banning

namespace Serversettings

/-- C22, counterexample. The snapshot of `stateStaleInGrace` is 60 seconds old
and the store works, yet `CheckAndRefreshIfStale` leaves the state as it is
(the quiet streak is only 5 minutes old): the snapshot is still older than
`refreshInterval` afterwards and the marker is not reset. -/
theorem CheckAndRefreshIfStale_stale_in_grace :
    Playtime.exampleNow.ns - stateStaleInGrace.lastRefreshTime.ns > refreshInterval ∧
    stateStaleInGrace.db.readFailing = false ∧
    CheckAndRefreshIfStale Playtime.exampleNow stateStaleInGrace = stateStaleInGrace ∧
    Playtime.exampleNow.ns -
      (CheckAndRefreshIfStale Playtime.exampleNow stateStaleInGrace).lastRefreshTime.ns
        > refreshInterval ∧
    (CheckAndRefreshIfStale Playtime.exampleNow
      stateStaleInGrace).noActivityStreakStartTime.IsZero = false := by
  have heq : CheckAndRefreshIfStale Playtime.exampleNow stateStaleInGrace = stateStaleInGrace := by
    unfold CheckAndRefreshIfStale
    rw [if_neg (by decide)]
  rw [heq]
  exact ⟨by decide, by decide, rfl, by decide, by decide⟩

/-- C22, amended. `CheckAndRefreshIfStale` of the settings cache reloads
exactly when the snapshot is older than `refreshInterval` and the quiet-streak
marker is more than `maxNoActivityDuration` in the past (a zero marker is): then
the marker is reset, the activity flag is cleared and, when the table can be
read, the snapshot is the one of the current instant; otherwise the state is
unchanged. -/
theorem CheckAndRefreshIfStale_stale_and_quiet (now : Time) (s : State) :
    (now.ns - s.lastRefreshTime.ns > refreshInterval ∧
        now.ns - s.noActivityStreakStartTime.ns > maxNoActivityDuration →
      CheckAndRefreshIfStale now s =
        { loadSettingsFromDB now s with
          noActivityStreakStartTime := Time.zero, activityInWindow := false } ∧
      (CheckAndRefreshIfStale now s).noActivityStreakStartTime = Time.zero ∧
      (CheckAndRefreshIfStale now s).activityInWindow = false ∧
      (s.db.readFailing = false →
        (CheckAndRefreshIfStale now s).lastRefreshTime = now ∧
        now.ns - (CheckAndRefreshIfStale now s).lastRefreshTime.ns ≤ refreshInterval ∧
        (CheckAndRefreshIfStale now s).currentSettings ≠ none)) ∧
    (¬ (now.ns - s.lastRefreshTime.ns > refreshInterval ∧
        now.ns - s.noActivityStreakStartTime.ns > maxNoActivityDuration) →
      CheckAndRefreshIfStale now s = s) := by
  refine ⟨?_, ?_⟩
  · intro hboth
    have heq : CheckAndRefreshIfStale now s =
        { loadSettingsFromDB now s with
          noActivityStreakStartTime := Time.zero, activityInWindow := false } := by
      unfold CheckAndRefreshIfStale
      rw [if_pos hboth]
    refine ⟨heq, by rw [heq], by rw [heq], ?_⟩
    intro hread
    have hlast : (loadSettingsFromDB now s).lastRefreshTime = now ∧
        (loadSettingsFromDB now s).currentSettings ≠ none := by
      unfold loadSettingsFromDB
      simp only [hread, Bool.false_eq_true, if_false]
      split <;> simp
    rw [heq]
    refine ⟨hlast.1, ?_, hlast.2⟩
    show now.ns - (loadSettingsFromDB now s).lastRefreshTime.ns ≤ refreshInterval
    rw [hlast.1]
    unfold refreshInterval; omega
  · intro hnot
    unfold CheckAndRefreshIfStale
    rw [if_neg hnot]

theorem CheckAndRefreshIfStale_stale_and_quiet_witness :
    (Playtime.exampleNow.ns - stateStalePaused.lastRefreshTime.ns > refreshInterval ∧
      Playtime.exampleNow.ns - stateStalePaused.noActivityStreakStartTime.ns
        > maxNoActivityDuration) ∧
    (CheckAndRefreshIfStale Playtime.exampleNow stateStalePaused).lastRefreshTime
      = Playtime.exampleNow :=
  ⟨by decide,
    (((CheckAndRefreshIfStale_stale_and_quiet Playtime.exampleNow stateStalePaused).1
      (by decide)).2.2.2 (by decide)).1⟩

end Serversettings

/-! ### Ticks without activity -/

namespace Banning

theorem tick_paused (now : Time) (s : State) (hact : s.activityInWindow = false)
    (hmark : s.noActivityStreakStartTime.IsZero = false)
    (hlate : ¬ now.ns - s.noActivityStreakStartTime.ns < maxNoActivityDuration) :
    tick now s = s := by
  rw [tick_quiet now s hact hmark, if_neg hlate]

theorem ticks_paused (later : List Time) (s : State) (hact : s.activityInWindow = false)
    (hmark : s.noActivityStreakStartTime.IsZero = false)
    (hlate : ∀ u ∈ later, ¬ u.ns - s.noActivityStreakStartTime.ns < maxNoActivityDuration) :
    ticks later s = s := by
  induction later with
  | nil => rfl
  | cons u rest ih =>
    show ticks rest (tick u s) = s
    rw [tick_paused u s hact hmark (hlate u (List.mem_cons_self u rest))]
    exact ih (fun v hv => hlate v (List.mem_cons_of_mem u hv))

end Banning

namespace Serversettings

theorem settings_tick_paused (now : Time) (s : State) (hact : s.activityInWindow = false)
    (hmark : s.noActivityStreakStartTime.IsZero = false)
    (hlate : ¬ now.ns - s.noActivityStreakStartTime.ns < maxNoActivityDuration) :
    tick now s = s := by
  rw [settings_tick_quiet now s hact hmark, if_neg hlate]

theorem settings_ticks_paused (later : List Time) (s : State)
    (hact : s.activityInWindow = false)
    (hmark : s.noActivityStreakStartTime.IsZero = false)
    (hlate : ∀ u ∈ later, ¬ u.ns - s.noActivityStreakStartTime.ns < maxNoActivityDuration) :
    ticks later s = s := by
  induction later with
  | nil => rfl
  | cons u rest ih =>
    show ticks rest (tick u s) = s
    rw [settings_tick_paused u s hact hmark (hlate u (List.mem_cons_self u rest))]
    exact ih (fun v hv => hlate v (List.mem_cons_of_mem u hv))

end Serversettings

/-- C27. In both schedulers a tick at `now` that finds the activity flag clear
reloads when the quiet-streak marker is zero (the marker then becomes
`now - refreshInterval`) or less than `maxNoActivityDuration` before `now`, and
otherwise leaves the state as it is; in that case every run of later ticks
(at instants not before `now`) leaves the state as it is too, as long as
nothing else sets the flag or the marker. A reload of the ban registry
rebuilds the four sets from what the scans of the tables return and stamps
`lastRefreshTime`; a reload of the settings publishes and stamps the first row
of a readable table (the default row when it is empty). So the stamp of the
tick appears iff the condition holds (for the settings, with a readable
table). After `NotifyActivity` the next tick reloads and resets the marker. -/
theorem quiet_tick_reloads_iff_in_grace (now : Time) (b : Banning.State)
    (c : Serversettings.State) (hb : b.activityInWindow = false)
    (hc : c.activityInWindow = false) :
    ((b.noActivityStreakStartTime.IsZero = true ∨
        now.ns - b.noActivityStreakStartTime.ns < Banning.maxNoActivityDuration) →
      Banning.tick now b = Banning.loadBansFromDB now
        (if b.noActivityStreakStartTime.IsZero then
          { b with noActivityStreakStartTime := now.Add (-Banning.refreshInterval) }
        else b) ∧
      Banning.HoldsBansOf (Banning.tick now b) b.db ∧
      (Banning.tick now b).lastRefreshTime = now) ∧
    (¬ (b.noActivityStreakStartTime.IsZero = true ∨
        now.ns - b.noActivityStreakStartTime.ns < Banning.maxNoActivityDuration) →
      Banning.tick now b = b ∧
      ∀ later : List Time, (∀ u ∈ later, now.ns ≤ u.ns) → Banning.ticks later b = b) ∧
    (b.lastRefreshTime ≠ now →
      ((Banning.tick now b).lastRefreshTime = now ↔
        (b.noActivityStreakStartTime.IsZero = true ∨
          now.ns - b.noActivityStreakStartTime.ns < Banning.maxNoActivityDuration))) ∧
    (∀ u : Time,
      Banning.tick u (Banning.NotifyActivity b) = Banning.loadBansFromDB u
        { b with activityInWindow := false, noActivityStreakStartTime := Time.zero } ∧
      Banning.HoldsBansOf (Banning.tick u (Banning.NotifyActivity b)) b.db ∧
      (Banning.tick u (Banning.NotifyActivity b)).noActivityStreakStartTime = Time.zero) ∧
    ((c.noActivityStreakStartTime.IsZero = true ∨
        now.ns - c.noActivityStreakStartTime.ns < Serversettings.maxNoActivityDuration) →
      Serversettings.tick now c = Serversettings.loadSettingsFromDB now
        (if c.noActivityStreakStartTime.IsZero then
          { c with noActivityStreakStartTime := now.Add (-Serversettings.refreshInterval) }
        else c) ∧
      (c.db.readFailing = false →
        Serversettings.PublishedFrom (Serversettings.tick now c) c.db now)) ∧
    (¬ (c.noActivityStreakStartTime.IsZero = true ∨
        now.ns - c.noActivityStreakStartTime.ns < Serversettings.maxNoActivityDuration) →
      Serversettings.tick now c = c ∧
      ∀ later : List Time, (∀ u ∈ later, now.ns ≤ u.ns) → Serversettings.ticks later c = c) ∧
    (c.db.readFailing = false → c.lastRefreshTime ≠ now →
      ((Serversettings.tick now c).lastRefreshTime = now ↔
        (c.noActivityStreakStartTime.IsZero = true ∨
          now.ns - c.noActivityStreakStartTime.ns < Serversettings.maxNoActivityDuration))) ∧
    (∀ u : Time,
      Serversettings.tick u (Serversettings.NotifyActivity c) =
        Serversettings.loadSettingsFromDB u
          { c with activityInWindow := false, noActivityStreakStartTime := Time.zero } ∧
      (Serversettings.tick u (Serversettings.NotifyActivity c)).noActivityStreakStartTime
        = Time.zero ∧
      (c.db.readFailing = false →
        Serversettings.PublishedFrom (Serversettings.tick u (Serversettings.NotifyActivity c))
          c.db u)) ∧
    (∀ u : Time,
      (Serversettings.CheckAndRefreshIfStale u c).noActivityStreakStartTime.IsZero = true →
      Serversettings.tick now (Serversettings.CheckAndRefreshIfStale u c) =
        Serversettings.loadSettingsFromDB now
          { Serversettings.CheckAndRefreshIfStale u c with
            noActivityStreakStartTime := now.Add (-Serversettings.refreshInterval) }) := by
  have heffect : ∀ (t : Time) (st : Banning.State),
      Banning.HoldsBansOf (Banning.loadBansFromDB t st) st.db := by
    intro t st
    refine ⟨?_, ?_, ?_, ?_⟩
    · intro x
      show x ∈ Banning.buildBans (fun ip => ip) st.db.banIP.find ↔ _
      rw [Banning.mem_buildBans]; simp
    · intro x
      show x ∈ Banning.buildBans (fun deviceID => deviceID) st.db.banDeviceID.find ↔ _
      rw [Banning.mem_buildBans]; simp
    · intro x
      show x ∈ Banning.buildBans (fun realDeviceID => realDeviceID)
        st.db.banRealDeviceID.find ↔ _
      rw [Banning.mem_buildBans]; simp
    · intro x
      show x ∈ Banning.buildBans Model.GetStableDeviceInfo st.db.banDeviceInfo.find ↔ _
      rw [Banning.mem_buildBans]
  have hpub : ∀ (t : Time) (st : Serversettings.State), st.db.readFailing = false →
      Serversettings.PublishedFrom (Serversettings.loadSettingsFromDB t st) st.db t := by
    intro t st hread
    unfold Serversettings.PublishedFrom Serversettings.loadSettingsFromDB
    simp only [hread, Bool.false_eq_true, if_false]
    cases hrows : st.db.rows.head? with
    | some row => exact ⟨rfl, rfl⟩
    | none =>
      refine ⟨?_, rfl⟩
      cases st.db.createFailing <;> rfl
  have hbload : (b.noActivityStreakStartTime.IsZero = true ∨
        now.ns - b.noActivityStreakStartTime.ns < Banning.maxNoActivityDuration) →
      Banning.tick now b = Banning.loadBansFromDB now
        (if b.noActivityStreakStartTime.IsZero then
          { b with noActivityStreakStartTime := now.Add (-Banning.refreshInterval) }
        else b) := by
    intro hcond
    cases hz : b.noActivityStreakStartTime.IsZero with
    | true => rw [Banning.tick_first_quiet now b hb hz]; rfl
    | false =>
      rw [hz] at hcond
      have hin : now.ns - b.noActivityStreakStartTime.ns < Banning.maxNoActivityDuration := by
        rcases hcond with h | h
        · cases h
        · exact h
      rw [Banning.tick_quiet now b hb hz, if_pos hin]; rfl
  have hbskip : ¬ (b.noActivityStreakStartTime.IsZero = true ∨
        now.ns - b.noActivityStreakStartTime.ns < Banning.maxNoActivityDuration) →
      b.noActivityStreakStartTime.IsZero = false ∧
      ¬ now.ns - b.noActivityStreakStartTime.ns < Banning.maxNoActivityDuration := by
    intro hcond
    refine ⟨?_, fun h => hcond (Or.inr h)⟩
    cases hz : b.noActivityStreakStartTime.IsZero with
    | true => exact absurd (Or.inl hz) hcond
    | false => rfl
  have hcload : (c.noActivityStreakStartTime.IsZero = true ∨
        now.ns - c.noActivityStreakStartTime.ns < Serversettings.maxNoActivityDuration) →
      Serversettings.tick now c = Serversettings.loadSettingsFromDB now
        (if c.noActivityStreakStartTime.IsZero then
          { c with noActivityStreakStartTime := now.Add (-Serversettings.refreshInterval) }
        else c) := by
    intro hcond
    cases hz : c.noActivityStreakStartTime.IsZero with
    | true => rw [Serversettings.settings_tick_first_quiet now c hc hz]; rfl
    | false =>
      rw [hz] at hcond
      have hin : now.ns - c.noActivityStreakStartTime.ns
          < Serversettings.maxNoActivityDuration := by
        rcases hcond with h | h
        · cases h
        · exact h
      rw [Serversettings.settings_tick_quiet now c hc hz, if_pos hin]; rfl
  have hcskip : ¬ (c.noActivityStreakStartTime.IsZero = true ∨
        now.ns - c.noActivityStreakStartTime.ns < Serversettings.maxNoActivityDuration) →
      c.noActivityStreakStartTime.IsZero = false ∧
      ¬ now.ns - c.noActivityStreakStartTime.ns < Serversettings.maxNoActivityDuration := by
    intro hcond
    refine ⟨?_, fun h => hcond (Or.inr h)⟩
    cases hz : c.noActivityStreakStartTime.IsZero with
    | true => exact absurd (Or.inl hz) hcond
    | false => rfl
  have hcpub : (c.noActivityStreakStartTime.IsZero = true ∨
        now.ns - c.noActivityStreakStartTime.ns < Serversettings.maxNoActivityDuration) →
      c.db.readFailing = false →
      Serversettings.PublishedFrom (Serversettings.tick now c) c.db now := by
    intro hcond hread
    rw [hcload hcond]
    cases hz : c.noActivityStreakStartTime.IsZero with
    | true => exact hpub now _ hread
    | false => exact hpub now _ hread
  refine ⟨?_, ?_, ?_, ?_, ?_, ?_, ?_, ?_, ?_⟩
  · intro hcond
    refine ⟨hbload hcond, ?_, ?_⟩
    · rw [hbload hcond]
      cases hz : b.noActivityStreakStartTime.IsZero with
      | true => exact heffect now _
      | false => exact heffect now _
    · rw [hbload hcond]; rfl
  · intro hcond
    obtain ⟨hmark, hlate⟩ := hbskip hcond
    refine ⟨Banning.tick_paused now b hb hmark hlate, ?_⟩
    intro later hafter
    refine Banning.ticks_paused later b hb hmark ?_
    intro u hu
    have := hafter u hu
    omega
  · intro hne
    constructor
    · intro hstamp
      by_contra hcond
      obtain ⟨hmark, hlate⟩ := hbskip hcond
      rw [Banning.tick_paused now b hb hmark hlate] at hstamp
      exact hne hstamp
    · intro hcond
      rw [hbload hcond]
      rfl
  · intro u
    have heq := Banning.tick_active u (Banning.NotifyActivity b) rfl
    refine ⟨heq, ?_, ?_⟩
    · rw [heq]
      exact heffect u _
    · rw [heq]; rfl
  · intro hcond
    exact ⟨hcload hcond, hcpub hcond⟩
  · intro hcond
    obtain ⟨hmark, hlate⟩ := hcskip hcond
    refine ⟨Serversettings.settings_tick_paused now c hc hmark hlate, ?_⟩
    intro later hafter
    refine Serversettings.settings_ticks_paused later c hc hmark ?_
    intro u hu
    have := hafter u hu
    omega
  · intro hread hne
    constructor
    · intro hstamp
      by_contra hcond
      obtain ⟨hmark, hlate⟩ := hcskip hcond
      rw [Serversettings.settings_tick_paused now c hc hmark hlate] at hstamp
      exact hne hstamp
    · intro hcond
      exact (hcpub hcond hread).2
  · intro u
    have heq := Serversettings.settings_tick_active u (Serversettings.NotifyActivity c) rfl
    refine ⟨heq, ?_, ?_⟩
    · rw [heq]
      exact (Serversettings.loadSettingsFromDB_scheduler u _).2
    · intro hread
      rw [heq]
      exact hpub u _ hread
  · intro u hzero
    have hact : (Serversettings.CheckAndRefreshIfStale u c).activityInWindow = false := by
      unfold Serversettings.CheckAndRefreshIfStale
      split
      · rfl
      · exact hc
    exact Serversettings.settings_tick_first_quiet now _ hact hzero

/-- Witness of `quiet_tick_reloads_iff_in_grace`: the paused registry skips
the reload at every later tick; a first quiet tick of the registry
`stateUnloaded` loads the banned rows of its tables, and a first quiet tick of
the settings cache over an empty table publishes the default row. -/
theorem quiet_tick_reloads_iff_in_grace_witness :
    (Banning.statePaused.activityInWindow = false ∧
      Serversettings.stateStalePaused.activityInWindow = false) ∧
    Banning.tick (Playtime.exampleNow.Add 1) Banning.statePaused = Banning.statePaused ∧
    Banning.ticks [Playtime.exampleNow.Add 1, Playtime.exampleNow.Add 2] Banning.statePaused
      = Banning.statePaused ∧
    (Banning.stateUnloaded.activityInWindow = false ∧
      Serversettings.stateEmptyTable.activityInWindow = false) ∧
    Banning.HoldsBansOf (Banning.tick Playtime.exampleNow Banning.stateUnloaded)
      Banning.stateUnloaded.db ∧
    (Banning.tick Playtime.exampleNow Banning.stateUnloaded).ipBans = ["1.2.3.4"] ∧
    Serversettings.PublishedFrom
      (Serversettings.tick Playtime.exampleNow Serversettings.stateEmptyTable)
      Serversettings.stateEmptyTable.db Playtime.exampleNow :=
  ⟨⟨by decide, by decide⟩,
    ((quiet_tick_reloads_iff_in_grace Playtime.exampleNow Banning.statePaused
      Serversettings.stateStalePaused (by decide) (by decide)).2.1 (by decide)).2
        [Playtime.exampleNow.Add 1] (by decide),
    ((quiet_tick_reloads_iff_in_grace Playtime.exampleNow Banning.statePaused
      Serversettings.stateStalePaused (by decide) (by decide)).2.1 (by decide)).2
        [Playtime.exampleNow.Add 1, Playtime.exampleNow.Add 2] (by decide),
    ⟨by decide, by decide⟩,
    ((quiet_tick_reloads_iff_in_grace Playtime.exampleNow Banning.stateUnloaded
      Serversettings.stateEmptyTable (by decide) (by decide)).1 (Or.inl (by decide))).2.1,
    by decide,
    ((quiet_tick_reloads_iff_in_grace Playtime.exampleNow Banning.stateUnloaded
      Serversettings.stateEmptyTable (by decide) (by decide)).2.2.2.2.1
        (Or.inl (by decide))).2 (by decide)⟩

namespace Playtime

/-! ### The lock of `resetAllPlaytimeData` -/

/-- C26, failing input: for every instant and every state the call of
`resetAllPlaytimeData` does not return. Started with `refreshMutex` free it
takes the mutex, resets the cache and stops in the `Lock()` of
`savePlaytimeDataToDB`: the mutex stays held, the database is not written and
`lastResetTime` is not set. In the state `stateIdle` this is evaluated, and a
later `savePlaytimeDataToDB` of the refresh ticker stops as well. -/
theorem resetAllPlaytimeData_never_returns (now : Time) (s : State) :
    (∀ s1 : State, resetAllPlaytimeData now s ≠ .returned s1) ∧
    (resetAllPlaytimeData now s).state.refreshMutex = true ∧
    (resetAllPlaytimeData now s).state.lastResetTime = s.lastResetTime ∧
    (resetAllPlaytimeData now s).state.db = s.db ∧
    stateIdle.refreshMutex = false ∧
    resetAllPlaytimeData exampleNow stateIdle =
      .blocked { stateIdle with
        refreshMutex := true
        playerPlaytimeCache :=
          [("D1", { exampleRecord 0 5400 false with LastUpdateTime := exampleNow,
                                                    RemainingTime := 5400 })] } ∧
    savePlaytimeDataToDB (resetAllPlaytimeData exampleNow stateIdle).state =
      .blocked (resetAllPlaytimeData exampleNow stateIdle).state := by
  refine ⟨?_, ?_, ?_, ?_, by decide, by decide, by decide⟩
  all_goals
    cases hm : s.refreshMutex <;>
      simp [resetAllPlaytimeData, withRefreshMutex, savePlaytimeDataToDB, Outcome.andThen,
        Outcome.state, hm]

/-! ### The VIP flag -/

/-- C28, failing input: `D1` has a record with 5400 seconds of daily time and
no bonus, and the VIP allotment is 36000 seconds. `SetPlayerVIPStatus("D1",
true)` returns nil and the cached record has `IsVIP = true`, but
`GetPlayerPlaytimeData` then reports 5400 seconds, less than the VIP
allotment. -/
theorem SetPlayerVIPStatus_not_raised :
    stateGrant.playtimeSettings.VIPPlaytimeSeconds = 36000 ∧
    (SetPlayerVIPStatus "D1" true exampleNow stateGrant).1 = none ∧
    (cacheLoad (SetPlayerVIPStatus "D1" true exampleNow stateGrant).2.playerPlaytimeCache
      "D1").map (fun data => data.IsVIP) = some true ∧
    (GetPlayerPlaytimeData "D1" exampleNow
        (SetPlayerVIPStatus "D1" true exampleNow stateGrant).2).1
      = .ok { exampleRecord 0 5400 true with RemainingTime := 5400 } ∧
    ¬ ((5400 : I64) ≥ stateGrant.playtimeSettings.VIPPlaytimeSeconds) := by
  decide

end Playtime

namespace Playtime

/-! ### Sessions across a refresh cycle -/

theorem cacheLoad_some_mem (cache : List (String × PlayerPlaytimeData)) (key : String)
    (data : PlayerPlaytimeData) (h : cacheLoad cache key = some data) :
    ∃ entry ∈ cache, entry.fst = key := by
  induction cache with
  | nil => simp [cacheLoad] at h
  | cons entry rest ih =>
    obtain ⟨k, v⟩ := entry
    by_cases hk : k = key
    · exact ⟨(k, v), List.mem_cons_self _ _, hk⟩
    · simp only [cacheLoad, hk, if_false] at h
      obtain ⟨e, he, hkey⟩ := ih h
      exact ⟨e, List.mem_cons_of_mem _ he, hkey⟩

/-- A row of the table after `updatePlaytimeData` is a row of the table before
with the same `DeviceID`, and its column is the written one when the
`DeviceID` is the updated one and the old one otherwise. -/
theorem mem_updatePlaytimeData (db : DB) (deviceID : String) (col : Model.PlaytimeColumn)
    (row : Model.PlayerData) (h : row ∈ (db.updatePlaytimeData deviceID col).playerData) :
    ∃ old ∈ db.playerData, row.DeviceID = old.DeviceID ∧
      (old.DeviceID = deviceID → row.PlaytimeData = col) ∧
      (old.DeviceID ≠ deviceID → row = old) := by
  unfold DB.updatePlaytimeData at h
  simp only [List.mem_map] at h
  obtain ⟨old, hold, hrow⟩ := h
  refine ⟨old, hold, ?_⟩
  by_cases hk : old.DeviceID = deviceID
  · simp only [hk, beq_self_eq_true, if_true] at hrow
    subst hrow
    exact ⟨hk.symm, fun _ => rfl, fun hne => absurd hk hne⟩
  · have hb : (old.DeviceID == deviceID) = false := by simpa using hk
    simp only [hb, Bool.false_eq_true, if_false] at hrow
    subst hrow
    exact ⟨rfl, fun h => absurd h hk, fun _ => rfl⟩

theorem updatePlaytimeData_keeps_device (db : DB) (deviceID key : String)
    (col : Model.PlaytimeColumn) (h : ∃ row ∈ db.playerData, row.DeviceID = key) :
    ∃ row ∈ (db.updatePlaytimeData deviceID col).playerData, row.DeviceID = key := by
  obtain ⟨row, hrow, hkey⟩ := h
  unfold DB.updatePlaytimeData
  simp only [List.mem_map]
  refine ⟨_, ⟨row, hrow, rfl⟩, ?_⟩
  split <;> exact hkey

/-- The rows `savePlaytimeDataToDB` leaves for a device of the cache hold the
JSON of a record. -/
theorem save_rows_marshalled (entries : List (String × PlayerPlaytimeData)) (db : DB)
    (key : String)
    (h : (∀ row ∈ db.playerData, row.DeviceID = key → ∃ d, row.PlaytimeData = jsonMarshal d) ∨
      ∃ entry ∈ entries, entry.fst = key) :
    ∀ row ∈ (entries.foldl
        (fun db entry => DB.updatePlaytimeData db entry.fst (jsonMarshal entry.snd)) db).playerData,
      row.DeviceID = key → ∃ d, row.PlaytimeData = jsonMarshal d := by
  induction entries generalizing db with
  | nil =>
    rcases h with h | ⟨e, he, _⟩
    · exact h
    · cases he
  | cons entry rest ih =>
    simp only [List.foldl_cons]
    apply ih
    have hkeep : (∀ row ∈ db.playerData, row.DeviceID = key →
          ∃ d, row.PlaytimeData = jsonMarshal d) →
        ∀ row ∈ (db.updatePlaytimeData entry.fst (jsonMarshal entry.snd)).playerData,
          row.DeviceID = key → ∃ d, row.PlaytimeData = jsonMarshal d := by
      intro hall row hrow hkey
      obtain ⟨old, hold, hid, hsame, hother⟩ := mem_updatePlaytimeData _ _ _ _ hrow
      by_cases hk : old.DeviceID = entry.fst
      · exact ⟨entry.snd, hsame hk⟩
      · rw [hother hk]
        exact hall old hold (by rw [← hid]; exact hkey)
    rcases h with h | ⟨e, he, hkey⟩
    · exact Or.inl (hkeep h)
    · rcases List.mem_cons.mp he with heq | hrest
      · left
        intro row hrow hrowkey
        obtain ⟨old, _, hid, hsame, _⟩ := mem_updatePlaytimeData _ _ _ _ hrow
        refine ⟨entry.snd, hsame ?_⟩
        rw [← hid, hrowkey, ← hkey, heq]
      · exact Or.inr ⟨e, hrest, hkey⟩

theorem save_rows_keep_device (entries : List (String × PlayerPlaytimeData)) (db : DB)
    (key : String) (h : ∃ row ∈ db.playerData, row.DeviceID = key) :
    ∃ row ∈ (entries.foldl
        (fun db entry => DB.updatePlaytimeData db entry.fst (jsonMarshal entry.snd)) db).playerData,
      row.DeviceID = key := by
  induction entries generalizing db with
  | nil => exact h
  | cons entry rest ih =>
    simp only [List.foldl_cons]
    exact ih _ (updatePlaytimeData_keeps_device db entry.fst key _ h)

/-- The record the loop of `loadPlaytimeDataFromDB` leaves in the cache for a
device that has a row is the record built from one of its rows. -/
theorem load_rows_last (build : Model.PlayerData → PlayerPlaytimeData)
    (good : PlayerPlaytimeData → Prop) (rows : List Model.PlayerData)
    (cache : List (String × PlayerPlaytimeData)) (key : String)
    (hall : ∀ row ∈ rows, row.DeviceID = key → good (build row))
    (h : (∃ row ∈ rows, row.DeviceID = key) ∨ ∃ r, cacheLoad cache key = some r ∧ good r) :
    ∃ r, cacheLoad (rows.foldl
        (fun cache player => cacheStore player.DeviceID (build player) cache) cache) key = some r ∧
      good r := by
  induction rows generalizing cache with
  | nil =>
    rcases h with ⟨row, hrow, _⟩ | h
    · cases hrow
    · exact h
  | cons row rest ih =>
    simp only [List.foldl_cons]
    apply ih _ (fun r hr => hall r (List.mem_cons_of_mem _ hr))
    by_cases hk : row.DeviceID = key
    · right
      refine ⟨build row, ?_, hall row (List.mem_cons_self _ _) hk⟩
      rw [hk]
      exact cacheLoad_cacheStore_same key _ cache
    · rcases h with ⟨r, hr, hkey⟩ | ⟨r, hr, hgood⟩
      · rcases List.mem_cons.mp hr with heq | hrest
        · exact absurd (heq ▸ hkey) hk
        · exact Or.inl ⟨r, hrest, hkey⟩
      · right
        refine ⟨r, ?_, hgood⟩
        rw [cacheLoad_cacheStore_other row.DeviceID key _ cache (fun h => hk h.symm)]
        exact hr

/-- A row written by `savePlaytimeDataToDB` is read back without a session. -/
theorem loadRecord_jsonMarshal (ptSettings : PlaytimeSettings) (now : Time)
    (player : Model.PlayerData) (d : PlayerPlaytimeData)
    (h : player.PlaytimeData = jsonMarshal d) :
    (loadRecord ptSettings now player).LastLoginTime = Time.zero := by
  unfold loadRecord
  rw [h]
  simp only [jsonMarshal, jsonUnmarshal, ne_eq, reduceCtorEq, not_false_eq_true, if_true,
    Option.getD_some, Option.getD_none]
  split
  · split <;> rfl
  · rfl

end Playtime

namespace Playtime

theorem save_then_load_returned (now : Time) (s : State) (hmutex : s.refreshMutex = false) :
    (savePlaytimeDataToDB s).andThen (loadPlaytimeDataFromDB now) =
      .returned { s with
        db := s.playerPlaytimeCache.foldl
          (fun db entry => DB.updatePlaytimeData db entry.fst (jsonMarshal entry.snd)) s.db
        playerPlaytimeCache :=
          (s.playerPlaytimeCache.foldl
            (fun db entry => DB.updatePlaytimeData db entry.fst (jsonMarshal entry.snd))
            s.db).playerData.foldl
              (fun cache player =>
                cacheStore player.DeviceID (loadRecord s.playtimeSettings now player) cache)
              s.playerPlaytimeCache
        lastRefreshTime := now } := by
  cases s
  simp only at hmutex
  subst hmutex
  simp [savePlaytimeDataToDB, loadPlaytimeDataFromDB, withRefreshMutex, Outcome.andThen]

/-- C29. When `refreshMutex` is free, `savePlaytimeDataToDB` followed by
`loadPlaytimeDataFromDB` returns, and for every device that has a cached
record and a row in `dmm_playerdata` the cache then holds a record whose
`LastLoginTime` is zero, whatever it was before. The next
`UpdatePlaytimeOnRequest` for the device returns nil and leaves that record in
the cache: it consumes no time. -/
theorem save_then_load_ends_session (now : Time) (s : State) (deviceID : String)
    (old : PlayerPlaytimeData) (hmutex : s.refreshMutex = false)
    (hcache : cacheLoad s.playerPlaytimeCache deviceID = some old)
    (hrow : ∃ row ∈ s.db.playerData, row.DeviceID = deviceID) :
    ∃ (s2 : State) (r : PlayerPlaytimeData),
      (savePlaytimeDataToDB s).andThen (loadPlaytimeDataFromDB now) = .returned s2 ∧
      cacheLoad s2.playerPlaytimeCache deviceID = some r ∧
      r.LastLoginTime = Time.zero ∧
      ∀ (decodeStrings : String → Option (List String)) (ip realDeviceID : String)
          (elapsed : I64) (later : Time),
        (UpdatePlaytimeOnRequest decodeStrings ip realDeviceID deviceID elapsed later s2).1
          = none ∧
        cacheLoad (UpdatePlaytimeOnRequest decodeStrings ip realDeviceID deviceID elapsed later
          s2).2.playerPlaytimeCache deviceID = some r := by
  have hsave := save_rows_marshalled s.playerPlaytimeCache s.db deviceID
    (Or.inr (cacheLoad_some_mem _ _ _ hcache))
  have hdev := save_rows_keep_device s.playerPlaytimeCache s.db deviceID hrow
  obtain ⟨r, hr, hzero⟩ := load_rows_last (loadRecord s.playtimeSettings now)
    (fun r => r.LastLoginTime = Time.zero) _ s.playerPlaytimeCache deviceID
    (fun row hmem hkey => by
      obtain ⟨d, hd⟩ := hsave row hmem hkey
      exact loadRecord_jsonMarshal _ _ _ d hd)
    (Or.inl hdev)
  obtain ⟨s2, hs2, hcache2⟩ : ∃ s2 : State,
      (savePlaytimeDataToDB s).andThen (loadPlaytimeDataFromDB now) = .returned s2 ∧
      s2.playerPlaytimeCache =
        (s.playerPlaytimeCache.foldl
          (fun db entry => DB.updatePlaytimeData db entry.fst (jsonMarshal entry.snd))
          s.db).playerData.foldl
            (fun cache player =>
              cacheStore player.DeviceID (loadRecord s.playtimeSettings now player) cache)
            s.playerPlaytimeCache :=
    ⟨_, save_then_load_returned now s hmutex, rfl⟩
  rw [← hcache2] at hr
  refine ⟨s2, r, hs2, hr, hzero, ?_⟩
  intro decodeStrings ip realDeviceID elapsed later
  have hget : GetPlayerPlaytimeData deviceID later (NotifyActivity s2)
      = (.ok { r with RemainingTime := r.DailyPlayTime + r.TodayExtraTime }, NotifyActivity s2) :=
    GetPlayerPlaytimeData_hit deviceID later (NotifyActivity s2) r hr
  have hidle := UpdatePlaytimeOnRequest_idle decodeStrings ip realDeviceID deviceID elapsed later
    s2 (NotifyActivity s2) _ hget (by show r.LastLoginTime.IsZero = true; rw [hzero]; rfl)
  refine ⟨hidle.1, ?_⟩
  rw [hidle.2]
  exact hr

theorem save_then_load_ends_session_witness :
    (stateSession.refreshMutex = false ∧
      (cacheLoad stateSession.playerPlaytimeCache "D1").map (fun r => r.LastLoginTime)
        = some ⟨1⟩) ∧
    ∃ (s2 : State) (r : PlayerPlaytimeData),
      (savePlaytimeDataToDB stateSession).andThen (loadPlaytimeDataFromDB exampleNow)
        = .returned s2 ∧
      cacheLoad s2.playerPlaytimeCache "D1" = some r ∧
      r.LastLoginTime = Time.zero ∧
      ∀ (decodeStrings : String → Option (List String)) (ip realDeviceID : String)
          (elapsed : I64) (later : Time),
        (UpdatePlaytimeOnRequest decodeStrings ip realDeviceID "D1" elapsed later s2).1 = none ∧
        cacheLoad (UpdatePlaytimeOnRequest decodeStrings ip realDeviceID "D1" elapsed later
          s2).2.playerPlaytimeCache "D1" = some r :=
  ⟨⟨by decide, by decide⟩,
    save_then_load_ends_session exampleNow stateSession "D1" (exampleSession 100 500 ⟨1⟩)
      (by decide) (by decide) ⟨_, List.mem_singleton.mpr rfl, rfl⟩⟩

end Playtime

namespace Model

/-! ### Repeated normalisation -/

theorem GetStableDeviceInfo_unchanged (s : String) (hs : ¬ EndsInMemoryToken s) :
    GetStableDeviceInfo s = s := by
  unfold GetStableDeviceInfo
  by_cases he : s = ""
  · rw [if_pos he, he]
  · rw [if_neg he]
    have hno : ¬ matchToEnd memoryPattern s.data = true := by
      intro hmatch
      obtain ⟨before, m, n, hm, hn, hl⟩ := (matchToEnd_memoryPattern _).mp hmatch
      apply hs
      refine ⟨String.mk before, String.mk m, String.mk n, ⟨?_, hm.2⟩, ⟨?_, hn.2⟩, ?_⟩
      · intro h
        exact hm.1 (congrArg String.data h)
      · intro h
        exact hn.1 (congrArg String.data h)
      · apply String.ext
        simp [String.data_append, hl]
    rw [if_neg hno]

theorem GetStableDeviceInfo_token (p m n : String) (hm : IsDigits m) (hn : IsDigits n) :
    GetStableDeviceInfo (p ++ "_" ++ m ++ "MB_" ++ n) = p ++ "_" ++ n := by
  have hin : p ++ "_" ++ m ++ "MB_" ++ n
      = String.mk (p.data ++ '_' :: (m.data ++ 'M' :: 'B' :: '_' :: n.data)) := by
    apply String.ext
    simp [String.data_append]
  have hout : p ++ "_" ++ n = String.mk (p.data ++ '_' :: n.data) := by
    apply String.ext
    simp [String.data_append]
  rw [hin, hout]
  exact GetStableDeviceInfo_chars p.data m.data n.data (IsDigits_data m hm) (IsDigits_data n hn)

/-- Two texts that end in an underscore and a run without underscores are equal
part by part. -/
theorem append_underscore_inj (l1 l2 n1 n2 : List Char) (h1 : '_' ∉ n1) (h2 : '_' ∉ n2)
    (h : l1 ++ '_' :: n1 = l2 ++ '_' :: n2) : l1 = l2 ∧ n1 = n2 := by
  induction l1 generalizing l2 with
  | nil =>
    cases l2 with
    | nil =>
      simp only [List.nil_append, List.cons.injEq, true_and] at h
      exact ⟨rfl, h⟩
    | cons d l2 =>
      simp only [List.nil_append, List.cons_append, List.cons.injEq] at h
      exact absurd (h.2 ▸ List.mem_append_right l2 (List.mem_cons_self _ _)) h1
  | cons c l1 ih =>
    cases l2 with
    | nil =>
      simp only [List.nil_append, List.cons_append, List.cons.injEq] at h
      exact absurd (h.2 ▸ List.mem_append_right l1 (List.mem_cons_self _ _)) h2
    | cons d l2 =>
      simp only [List.cons_append, List.cons.injEq] at h
      obtain ⟨hl, hn⟩ := ih l2 h.2
      exact ⟨by rw [h.1, hl], hn⟩

/-- A text `p_<digits>` ends in a memory token only if `p` ends in `<digits>MB`. -/
theorem EndsInMemorySize_of_token (p n : String) (hn : IsDigits n)
    (h : EndsInMemoryToken (p ++ "_" ++ n)) : EndsInMemorySize p := by
  obtain ⟨before, m, k, hm, hk, heq⟩ := h
  have hdata : p.data ++ '_' :: n.data
      = (before.data ++ (m.data ++ ['M', 'B'])) ++ '_' :: k.data := by
    have := congrArg String.data heq
    simpa [String.data_append] using this
  obtain ⟨hp, -⟩ := append_underscore_inj _ _ _ _
    (underscore_not_mem_digits _ hn.2) (underscore_not_mem_digits _ hk.2) hdata
  refine ⟨before, m, hm, ?_⟩
  apply String.ext
  simp [String.data_append, hp]

end Model

/-- C30, counterexample. The device information `x_1MB_2MB_3` has the stable
form `x_1MB_3`, whose stable form is `x_3`: `GetStableDeviceInfo` is not
idempotent. With the stable form `x_1MB_3` stored in `Ban_DeviceInfo`, the
reload builds the key `x_3` and the device that produced the row is not
matched. -/
theorem GetStableDeviceInfo_not_idempotent :
    Model.GetStableDeviceInfo "x_1MB_2MB_3" = "x_1MB_3" ∧
    Model.GetStableDeviceInfo (Model.GetStableDeviceInfo "x_1MB_2MB_3") = "x_3" ∧
    Model.GetStableDeviceInfo (Model.GetStableDeviceInfo "x_1MB_2MB_3")
      ≠ Model.GetStableDeviceInfo "x_1MB_2MB_3" ∧
    Banning.stateStoredStable.db.banDeviceInfo.rows
      = [Model.GetStableDeviceInfo "x_1MB_2MB_3"] ∧
    (Banning.loadBansFromDB Playtime.exampleNow Banning.stateStoredStable).deviceInfoBans
      = ["x_3"] ∧
    Banning.CheckDeviceInfoBanned "x_1MB_2MB_3"
      (Banning.loadBansFromDB Playtime.exampleNow Banning.stateStoredStable) = false := by
  decide

/-- C30, amended. `GetStableDeviceInfo` maps its result to itself whenever the
result does not end in `<digits>MB_<digits>`; this is so for every input
`p_<digits>MB_<digits>` whose `p` does not end in `<digits>MB`. For such a
device information `d`, a reload over a readable table `Ban_DeviceInfo` that
holds the stable form of `d` makes `CheckDeviceInfoBanned d` true. -/
theorem GetStableDeviceInfo_idempotent_on (now : Time) (s : Banning.State) :
    (∀ d : String, ¬ Model.EndsInMemoryToken (Model.GetStableDeviceInfo d) →
      Model.GetStableDeviceInfo (Model.GetStableDeviceInfo d) = Model.GetStableDeviceInfo d) ∧
    (∀ p m n : String, Model.IsDigits m → Model.IsDigits n → ¬ Model.EndsInMemorySize p →
      Model.GetStableDeviceInfo (p ++ "_" ++ m ++ "MB_" ++ n) = p ++ "_" ++ n ∧
      Model.GetStableDeviceInfo (Model.GetStableDeviceInfo (p ++ "_" ++ m ++ "MB_" ++ n))
        = Model.GetStableDeviceInfo (p ++ "_" ++ m ++ "MB_" ++ n)) ∧
    (∀ d : String, d ≠ "" → ¬ Model.EndsInMemoryToken (Model.GetStableDeviceInfo d) →
      s.db.banDeviceInfo.failing = false →
      Model.GetStableDeviceInfo d ∈ s.db.banDeviceInfo.rows →
      Banning.CheckDeviceInfoBanned d (Banning.loadBansFromDB now s) = true) := by
  refine ⟨?_, ?_, ?_⟩
  · intro d hd
    exact Model.GetStableDeviceInfo_unchanged _ hd
  · intro p m n hm hn hp
    have hfirst := Model.GetStableDeviceInfo_token p m n hm hn
    refine ⟨hfirst, ?_⟩
    rw [hfirst]
    exact Model.GetStableDeviceInfo_unchanged _
      (fun h => hp (Model.EndsInMemorySize_of_token p n hn h))
  · intro d hd hstable hscan hrow
    unfold Banning.CheckDeviceInfoBanned
    simp only [hd, if_false, List.any_eq_true, beq_iff_eq, Banning.loadBansFromDB,
      Banning.mem_buildBans, Banning.find_of_not_failing _ hscan]
    exact ⟨_, ⟨_, hrow, rfl⟩, Model.GetStableDeviceInfo_unchanged _ hstable⟩

theorem GetStableDeviceInfo_idempotent_on_witness :
    (Model.IsDigits "4096" ∧ Model.IsDigits "50" ∧ ¬ Model.EndsInMemorySize "Phone_8") ∧
    Model.GetStableDeviceInfo (Model.GetStableDeviceInfo ("Phone_8" ++ "_" ++ "4096" ++ "MB_" ++ "50"))
      = Model.GetStableDeviceInfo ("Phone_8" ++ "_" ++ "4096" ++ "MB_" ++ "50") :=
  have hp : ¬ Model.EndsInMemorySize "Phone_8" := by
    rintro ⟨before, m, -, h⟩
    have hlast := congrArg (fun t : String => t.data.getLast?) h
    simp [String.data_append] at hlast
  ⟨⟨by unfold Model.IsDigits; decide, by unfold Model.IsDigits; decide, hp⟩,
    ((GetStableDeviceInfo_idempotent_on Playtime.exampleNow Banning.exampleState).2.1
      "Phone_8" "4096" "50" (by unfold Model.IsDigits; decide)
      (by unfold Model.IsDigits; decide) hp).2⟩

namespace Model

/-! ### The double-newline format -/

theorem splitDoubleNewlineAux_run (e cur rest : List Char) (he : ∀ c ∈ e, c.toNat ≠ 10) :
    splitDoubleNewlineAux cur (e ++ rest) = splitDoubleNewlineAux (e.reverse ++ cur) rest := by
  induction e generalizing cur with
  | nil => rfl
  | cons c e ih =>
    have hc : c.toNat ≠ 10 := he c (List.mem_cons_self _ _)
    have hrest : ∀ d ∈ e, d.toNat ≠ 10 := fun d hd => he d (List.mem_cons_of_mem _ hd)
    have hstep : splitDoubleNewlineAux cur (c :: (e ++ rest))
        = splitDoubleNewlineAux (c :: cur) (e ++ rest) := by
      cases hl : e ++ rest with
      | nil => simp [splitDoubleNewlineAux]
      | cons d tail => simp [splitDoubleNewlineAux, hc]
    rw [List.cons_append, hstep, ih (c :: cur) hrest]
    simp

theorem splitDoubleNewlineAux_separator (cur rest : List Char) :
    splitDoubleNewlineAux cur (Char.ofNat 10 :: Char.ofNat 10 :: rest)
      = cur.reverse :: splitDoubleNewlineAux [] rest := by
  have h10 : (Char.ofNat 10).toNat = 10 := by decide
  simp [splitDoubleNewlineAux, h10]

/-- The characters of the text `convertArrayToText` builds. -/
theorem convertArrayToText_data (first : String) (rest : List String) :
    (rest.foldl (fun result item => result ++ "\n\n" ++ item) first).data
      = first.data ++ rest.foldr
          (fun item acc => Char.ofNat 10 :: Char.ofNat 10 :: (item.data ++ acc)) [] := by
  induction rest generalizing first with
  | nil => simp
  | cons item rest ih =>
    rw [List.foldl_cons, ih]
    have hsep : ("\n\n" : String).data = [Char.ofNat 10, Char.ofNat 10] := by decide
    simp [String.data_append, hsep]

theorem splitDoubleNewlineAux_entries (rest : List String) (cur e : List Char)
    (he : ∀ c ∈ e, c.toNat ≠ 10) (hrest : ∀ x ∈ rest, ∀ c ∈ x.data, c.toNat ≠ 10) :
    splitDoubleNewlineAux cur (e ++ rest.foldr
        (fun item acc => Char.ofNat 10 :: Char.ofNat 10 :: (item.data ++ acc)) [])
      = (cur.reverse ++ e) :: rest.map String.data := by
  induction rest generalizing cur e with
  | nil =>
    rw [List.foldr_nil, splitDoubleNewlineAux_run e cur [] he]
    simp [splitDoubleNewlineAux]
  | cons item rest ih =>
    rw [List.foldr_cons, splitDoubleNewlineAux_run e cur _ he, splitDoubleNewlineAux_separator,
      ih [] item.data (hrest item (List.mem_cons_self _ _))
        (fun x hx => hrest x (List.mem_cons_of_mem _ hx))]
    simp

/-- A text in the format is read back as its entries. -/
theorem splitTextByDoubleNewline_convertArrayToText (entries : List String)
    (h : ∀ e ∈ entries, IsHistoryValue e) :
    splitTextByDoubleNewline (convertArrayToText entries) = entries := by
  cases entries with
  | nil => rfl
  | cons first rest =>
    have hfirst := h first (List.mem_cons_self _ _)
    have hdata := convertArrayToText_data first rest
    have hne : convertArrayToText (first :: rest) ≠ "" := by
      intro hempty
      have hd := congrArg String.data hempty
      rw [show convertArrayToText (first :: rest)
        = rest.foldl (fun result item => result ++ "\n\n" ++ item) first from rfl, hdata] at hd
      have hd2 : first.data ++ rest.foldr
          (fun item acc => Char.ofNat 10 :: Char.ofNat 10 :: (item.data ++ acc)) [] = [] := hd
      exact hfirst.1 (String.ext (List.append_eq_nil.mp hd2).1)
    unfold splitTextByDoubleNewline
    rw [if_neg hne]
    rw [show convertArrayToText (first :: rest)
      = rest.foldl (fun result item => result ++ "\n\n" ++ item) first from rfl, hdata]
    have hsplit := splitDoubleNewlineAux_entries rest [] first.data hfirst.2
      (fun x hx => (h x (List.mem_cons_of_mem _ hx)).2)
    rw [hsplit]
    have hall : ∀ part ∈ ([].reverse ++ first.data) :: rest.map String.data,
        decide (part ≠ []) = true := by
      intro part hpart
      simp only [List.reverse_nil, List.nil_append, List.mem_cons, List.mem_map] at hpart
      rcases hpart with hp | ⟨x, hx, hp⟩
      · have : first.data ≠ [] := fun hd => hfirst.1 (String.ext hd)
        simpa [hp] using this
      · have : x.data ≠ [] := fun hd => (h x (List.mem_cons_of_mem _ hx)).1 (String.ext hd)
        simpa [← hp] using this
    rw [List.filter_eq_self.mpr hall]
    have hid : (String.mk ∘ String.data) = id := by
      funext x
      rfl
    simp [hid]

theorem convertArrayToText_eq_empty (entries : List String)
    (h : ∀ e ∈ entries, IsHistoryValue e) (hempty : convertArrayToText entries = "") :
    entries = [] := by
  have hsplit := splitTextByDoubleNewline_convertArrayToText entries h
  rw [hempty] at hsplit
  exact hsplit.symm

theorem convertArrayToText_append (entries : List String) (v : String) (hne : entries ≠ []) :
    convertArrayToText (entries ++ [v]) = convertArrayToText entries ++ "\n\n" ++ v := by
  cases entries with
  | nil => exact absurd rfl hne
  | cons first rest =>
    show (rest ++ [v]).foldl (fun result item => result ++ "\n\n" ++ item) first = _
    rw [List.foldl_append]
    rfl

end Model

namespace Model

/-! ### Recording a value in a history -/

/-- The stable form of a value is a value. -/
theorem GetStableDeviceInfo_value (v : String) (hv : IsHistoryValue v) :
    IsHistoryValue (GetStableDeviceInfo v) := by
  unfold GetStableDeviceInfo
  rw [if_neg hv.1]
  split
  · rename_i hmatch
    obtain ⟨before, m, n, hm, hn, hl⟩ := (matchToEnd_memoryPattern _).mp hmatch
    have hsplit : v.data = (before ++ (m ++ ['M', 'B'])) ++ '_' :: n := by
      rw [hl]; simp
    have hidx : lastIndexUnderscore v.data = ((before ++ (m ++ ['M', 'B'])).length : Int) := by
      rw [hsplit]
      exact lastIndexUnderscore_append _ _ (underscore_not_mem_digits n hn.2)
    have hdrop : List.drop (lastIndexUnderscore v.data + 1).toNat v.data = n := by
      rw [hidx]
      have : (((before ++ (m ++ ['M', 'B'])).length : Int) + 1).toNat
          = (before ++ (m ++ ['M', 'B'])).length + 1 := by omega
      rw [this, hsplit, List.drop_append_eq_append_drop]
      simp
    constructor
    · intro hempty
      have hd := congrArg String.data hempty
      simp only [hdrop] at hd
      exact hn.1 (List.append_eq_nil.mp hd).2
    · intro c hc
      simp only [List.mem_append] at hc
      rcases hc with hc | hc
      · exact hv.2 c (List.mem_of_mem_take (List.mem_of_mem_take hc))
      · exact hv.2 c (List.mem_of_mem_drop hc)
  · exact hv

/-- The text of a history after the value `v` is recorded by the branch of the
`Add` methods for the double-newline format. -/
theorem IsHistoryOf_record (text v : String) (entries : List String)
    (hh : IsHistoryOf text entries) (hv : IsHistoryValue v) :
    IsHistoryOf
      (if text = "" then v
        else if (splitTextByDoubleNewline text).contains v then text
        else text ++ "\n\n" ++ v)
      (recordValue entries v) := by
  obtain ⟨htext, hentries⟩ := hh
  have hsplit : splitTextByDoubleNewline text = entries := by
    rw [htext]; exact splitTextByDoubleNewline_convertArrayToText entries hentries
  by_cases hempty : text = ""
  · have hnil : entries = [] := convertArrayToText_eq_empty entries hentries (htext ▸ hempty)
    rw [if_pos hempty, hnil]
    refine ⟨rfl, ?_⟩
    intro e he
    have : e = v := by simpa [recordValue] using he
    rw [this]; exact hv
  · rw [if_neg hempty, hsplit]
    by_cases hmem : v ∈ entries
    · have hc : entries.contains v = true := by simpa using hmem
      rw [hc, if_pos rfl]
      unfold recordValue
      rw [if_pos hmem]
      exact ⟨htext, hentries⟩
    · have hc : entries.contains v = false := by simpa using hmem
      rw [hc]
      simp only [Bool.false_eq_true, if_false]
      unfold recordValue
      rw [if_neg hmem]
      have hne : entries ≠ [] := by
        intro hnil
        apply hempty
        rw [htext, hnil]
        rfl
      refine ⟨?_, ?_⟩
      · rw [convertArrayToText_append entries v hne, ← htext]
      · intro e he
        rcases List.mem_append.mp he with h | h
        · exact hentries e h
        · have : e = v := by simpa using h
          rw [this]; exact hv

theorem AddIP_IP (decodeStrings : String → Option (List String)) (p : PlayerInfo) (v : String)
    (h1 : p.IP ≠ "Invalid value.") (h2 : p.IP ≠ "null") (hjson : decodeStrings p.IP = none) :
    (p.AddIP decodeStrings v).IP =
      if p.IP = "" then v
      else if (splitTextByDoubleNewline p.IP).contains v then p.IP
      else p.IP ++ "\n\n" ++ v := by
  unfold PlayerInfo.AddIP
  by_cases hempty : p.IP = ""
  · simp [hempty]
  · by_cases hc : v ∈ splitTextByDoubleNewline p.IP
    · simp [hempty, h1, h2, hjson, hc]
    · simp [hempty, h1, h2, hjson, hc]

theorem AddRealDeviceID_RealDeviceID (decodeStrings : String → Option (List String))
    (p : PlayerInfo) (v : String) (h1 : p.RealDeviceID ≠ "Invalid value.")
    (h2 : p.RealDeviceID ≠ "null") (hjson : decodeStrings p.RealDeviceID = none) :
    (p.AddRealDeviceID decodeStrings v).RealDeviceID =
      if p.RealDeviceID = "" then v
      else if (splitTextByDoubleNewline p.RealDeviceID).contains v then p.RealDeviceID
      else p.RealDeviceID ++ "\n\n" ++ v := by
  unfold PlayerInfo.AddRealDeviceID
  by_cases hempty : p.RealDeviceID = ""
  · simp [hempty]
  · by_cases hc : v ∈ splitTextByDoubleNewline p.RealDeviceID
    · simp [hempty, h1, h2, hjson, hc]
    · simp [hempty, h1, h2, hjson, hc]

theorem AddDeviceInfo_DeviceInfo (decodeStrings : String → Option (List String))
    (p : PlayerInfo) (v : String) (h1 : p.DeviceInfo ≠ "Invalid value.")
    (h2 : p.DeviceInfo ≠ "null") (hjson : decodeStrings p.DeviceInfo = none) :
    (p.AddDeviceInfo decodeStrings v).DeviceInfo =
      if p.DeviceInfo = "" then GetStableDeviceInfo v
      else if (splitTextByDoubleNewline p.DeviceInfo).contains (GetStableDeviceInfo v) then
        p.DeviceInfo
      else p.DeviceInfo ++ "\n\n" ++ GetStableDeviceInfo v := by
  unfold PlayerInfo.AddDeviceInfo
  by_cases hempty : p.DeviceInfo = ""
  · simp [hempty]
  · by_cases hc : GetStableDeviceInfo v ∈ splitTextByDoubleNewline p.DeviceInfo
    · simp [hempty, h1, h2, hjson, hc]
    · simp [hempty, h1, h2, hjson, hc]

end Model

namespace Model

theorem history_entry_of_sentinel (text v : String) (entries : List String)
    (hh : IsHistoryOf text entries) (hmem : v ∈ entries)
    (hs : text = "" ∨ text = "Invalid value." ∨ text = "null") : v = text := by
  have hsplit : splitTextByDoubleNewline text = entries := by
    rw [hh.1]; exact splitTextByDoubleNewline_convertArrayToText entries hh.2
  rcases hs with h | h | h
  · have hnil : splitTextByDoubleNewline "" = [] := by decide
    rw [h, hnil] at hsplit
    rw [← hsplit] at hmem
    cases hmem
  · have hone : splitTextByDoubleNewline "Invalid value." = ["Invalid value."] := by decide
    rw [h, hone] at hsplit
    rw [← hsplit] at hmem
    rw [h]
    simpa using hmem
  · have hone : splitTextByDoubleNewline "null" = ["null"] := by decide
    rw [h, hone] at hsplit
    rw [← hsplit] at hmem
    rw [h]
    simpa using hmem

theorem AddIP_known (decodeStrings : String → Option (List String)) (p : PlayerInfo)
    (v : String) (entries : List String) (hh : IsHistoryOf p.IP entries) (hmem : v ∈ entries)
    (hjson : decodeStrings p.IP = none) : p.AddIP decodeStrings v = p := by
  have hsplit : splitTextByDoubleNewline p.IP = entries := by
    rw [hh.1]; exact splitTextByDoubleNewline_convertArrayToText entries hh.2
  unfold PlayerInfo.AddIP
  by_cases hs : p.IP = "" ∨ p.IP = "Invalid value." ∨ p.IP = "null"
  · rw [if_pos hs, history_entry_of_sentinel p.IP v entries hh hmem hs]
  · rw [if_neg hs, hjson]
    simp [hsplit, hmem]

theorem AddRealDeviceID_known (decodeStrings : String → Option (List String)) (p : PlayerInfo)
    (v : String) (entries : List String) (hh : IsHistoryOf p.RealDeviceID entries)
    (hmem : v ∈ entries) (hjson : decodeStrings p.RealDeviceID = none) :
    p.AddRealDeviceID decodeStrings v = p := by
  have hsplit : splitTextByDoubleNewline p.RealDeviceID = entries := by
    rw [hh.1]; exact splitTextByDoubleNewline_convertArrayToText entries hh.2
  unfold PlayerInfo.AddRealDeviceID
  by_cases hs : p.RealDeviceID = "" ∨ p.RealDeviceID = "Invalid value." ∨ p.RealDeviceID = "null"
  · rw [if_pos hs, history_entry_of_sentinel p.RealDeviceID v entries hh hmem hs]
  · rw [if_neg hs, hjson]
    simp [hsplit, hmem]

theorem AddDeviceInfo_known (decodeStrings : String → Option (List String)) (p : PlayerInfo)
    (v : String) (entries : List String) (hh : IsHistoryOf p.DeviceInfo entries)
    (hmem : GetStableDeviceInfo v ∈ entries) (hjson : decodeStrings p.DeviceInfo = none) :
    p.AddDeviceInfo decodeStrings v = p := by
  have hsplit : splitTextByDoubleNewline p.DeviceInfo = entries := by
    rw [hh.1]; exact splitTextByDoubleNewline_convertArrayToText entries hh.2
  unfold PlayerInfo.AddDeviceInfo
  by_cases hs : p.DeviceInfo = "" ∨ p.DeviceInfo = "Invalid value." ∨ p.DeviceInfo = "null"
  · simp only [if_pos hs]
    rw [history_entry_of_sentinel p.DeviceInfo _ entries hh hmem hs]
  · simp only [if_neg hs, hjson]
    simp [hsplit, hmem]

theorem mem_recordValue (entries : List String) (v : String) : v ∈ recordValue entries v := by
  unfold recordValue
  split
  · assumption
  · simp

theorem recordValue_length (entries : List String) (v : String) :
    entries <+: recordValue entries v ∧
    (recordValue entries v).length ≤ entries.length + 1 ∧
    (v ∈ entries → recordValue entries v = entries) ∧
    (v ∉ entries → recordValue entries v = entries ++ [v]) := by
  unfold recordValue
  split
  · exact ⟨List.prefix_refl _, by omega, fun _ => rfl, fun h => absurd ‹v ∈ entries› h⟩
  · exact ⟨List.prefix_append _ _, by simp, fun h => absurd h ‹v ∉ entries›, fun _ => rfl⟩

theorem AddIP_history (decodeStrings : String → Option (List String)) (p : PlayerInfo)
    (v : String) (entries : List String) (hv : IsHistoryValue v)
    (hs : IsStoredHistory decodeStrings p.IP entries) :
    IsHistoryOf (p.AddIP decodeStrings v).IP (recordValue entries v) := by
  rw [AddIP_IP decodeStrings p v hs.2.1 hs.2.2.1 hs.2.2.2]
  exact IsHistoryOf_record p.IP v entries hs.1 hv

theorem AddRealDeviceID_history (decodeStrings : String → Option (List String))
    (p : PlayerInfo) (v : String) (entries : List String) (hv : IsHistoryValue v)
    (hs : IsStoredHistory decodeStrings p.RealDeviceID entries) :
    IsHistoryOf (p.AddRealDeviceID decodeStrings v).RealDeviceID (recordValue entries v) := by
  rw [AddRealDeviceID_RealDeviceID decodeStrings p v hs.2.1 hs.2.2.1 hs.2.2.2]
  exact IsHistoryOf_record p.RealDeviceID v entries hs.1 hv

theorem AddDeviceInfo_history (decodeStrings : String → Option (List String))
    (p : PlayerInfo) (v : String) (entries : List String) (hv : IsHistoryValue v)
    (hs : IsStoredHistory decodeStrings p.DeviceInfo entries) :
    IsHistoryOf (p.AddDeviceInfo decodeStrings v).DeviceInfo
      (recordValue entries (GetStableDeviceInfo v)) := by
  rw [AddDeviceInfo_DeviceInfo decodeStrings p v hs.2.1 hs.2.2.1 hs.2.2.2]
  exact IsHistoryOf_record p.DeviceInfo _ entries hs.1 (GetStableDeviceInfo_value v hv)

end Model

namespace Model

/-- C24, counterexample. Starting from the record without histories, with
`json.Unmarshal` as the decoder: after `AddRealDeviceID("null")` the history is
the one entry `null`, and `AddRealDeviceID("hw1")` then replaces it, the
history is the one entry `hw1`; after `AddIP("[]")` the history is the one
entry `[]`, and `AddIP("1.1.1.1")` replaces it; after `AddIP("[\"a\"]")` the
history is that one entry, and the same `AddIP` a second time makes it the two
entries `a` and `["a"]`. All values are non-empty and without a newline. -/
theorem Add_replaces_entries :
    (IsHistoryValue "null" ∧ IsHistoryValue "hw1" ∧ IsHistoryValue "[]" ∧
      IsHistoryValue "1.1.1.1" ∧ IsHistoryValue "[\"a\"]") ∧
    splitTextByDoubleNewline
      (emptyInfo.AddRealDeviceID Json.unmarshalStrings "null").RealDeviceID = ["null"] ∧
    splitTextByDoubleNewline
      ((emptyInfo.AddRealDeviceID Json.unmarshalStrings "null").AddRealDeviceID
        Json.unmarshalStrings "hw1").RealDeviceID = ["hw1"] ∧
    splitTextByDoubleNewline (emptyInfo.AddIP Json.unmarshalStrings "[]").IP = ["[]"] ∧
    splitTextByDoubleNewline
      ((emptyInfo.AddIP Json.unmarshalStrings "[]").AddIP Json.unmarshalStrings "1.1.1.1").IP
      = ["1.1.1.1"] ∧
    splitTextByDoubleNewline (emptyInfo.AddIP Json.unmarshalStrings "[\"a\"]").IP
      = ["[\"a\"]"] ∧
    splitTextByDoubleNewline
      ((emptyInfo.AddIP Json.unmarshalStrings "[\"a\"]").AddIP Json.unmarshalStrings
        "[\"a\"]").IP = ["a", "[\"a\"]"] := by
  refine ⟨⟨?_, ?_, ?_, ?_, ?_⟩, ?_, ?_, ?_, ?_, ?_, ?_⟩
  · unfold IsHistoryValue; decide
  · unfold IsHistoryValue; decide
  · unfold IsHistoryValue; decide
  · unfold IsHistoryValue; decide
  · unfold IsHistoryValue; decide
  all_goals decide

/-- C24, amended. Let the stored text be the double-newline format of
`entries` (non-empty values without a newline), not one of the texts
`Invalid value.` and `null`, and not decodable as a JSON array of strings, and
let `v` be a non-empty value without a newline. Then `AddIP`,
`AddRealDeviceID` and `AddDeviceInfo` (the last for the stable form of `v`)
leave the record unchanged when the value is already an entry, and otherwise
make the history the entries followed by the value: the old entries stay a
prefix and the count grows by at most one. When the text after the `Add` is not
decodable as a JSON array either, the same `Add` a second time changes
nothing. -/
theorem Add_records_value (decodeStrings : String → Option (List String)) (p : PlayerInfo)
    (v : String) (entries : List String) (hv : IsHistoryValue v) :
    (IsStoredHistory decodeStrings p.IP entries →
      IsHistoryOf (p.AddIP decodeStrings v).IP (recordValue entries v) ∧
      (v ∈ entries → p.AddIP decodeStrings v = p) ∧
      (decodeStrings (p.AddIP decodeStrings v).IP = none →
        (p.AddIP decodeStrings v).AddIP decodeStrings v = p.AddIP decodeStrings v)) ∧
    (IsStoredHistory decodeStrings p.RealDeviceID entries →
      IsHistoryOf (p.AddRealDeviceID decodeStrings v).RealDeviceID (recordValue entries v) ∧
      (v ∈ entries → p.AddRealDeviceID decodeStrings v = p) ∧
      (decodeStrings (p.AddRealDeviceID decodeStrings v).RealDeviceID = none →
        (p.AddRealDeviceID decodeStrings v).AddRealDeviceID decodeStrings v
          = p.AddRealDeviceID decodeStrings v)) ∧
    (IsStoredHistory decodeStrings p.DeviceInfo entries →
      IsHistoryOf (p.AddDeviceInfo decodeStrings v).DeviceInfo
        (recordValue entries (GetStableDeviceInfo v)) ∧
      (GetStableDeviceInfo v ∈ entries → p.AddDeviceInfo decodeStrings v = p) ∧
      (decodeStrings (p.AddDeviceInfo decodeStrings v).DeviceInfo = none →
        (p.AddDeviceInfo decodeStrings v).AddDeviceInfo decodeStrings v
          = p.AddDeviceInfo decodeStrings v)) ∧
    (∀ w : String,
      entries <+: recordValue entries w ∧
      (recordValue entries w).length ≤ entries.length + 1 ∧
      (w ∈ entries → recordValue entries w = entries) ∧
      (w ∉ entries → recordValue entries w = entries ++ [w])) := by
  refine ⟨?_, ?_, ?_, fun w => recordValue_length entries w⟩
  · intro hs
    have hnew := AddIP_history decodeStrings p v entries hv hs
    exact ⟨hnew, fun hmem => AddIP_known decodeStrings p v entries hs.1 hmem hs.2.2.2,
      fun hjson => AddIP_known decodeStrings _ v _ hnew (mem_recordValue entries v) hjson⟩
  · intro hs
    have hnew := AddRealDeviceID_history decodeStrings p v entries hv hs
    exact ⟨hnew, fun hmem => AddRealDeviceID_known decodeStrings p v entries hs.1 hmem hs.2.2.2,
      fun hjson =>
        AddRealDeviceID_known decodeStrings _ v _ hnew (mem_recordValue entries v) hjson⟩
  · intro hs
    have hnew := AddDeviceInfo_history decodeStrings p v entries hv hs
    exact ⟨hnew, fun hmem => AddDeviceInfo_known decodeStrings p v entries hs.1 hmem hs.2.2.2,
      fun hjson =>
        AddDeviceInfo_known decodeStrings _ v _ hnew (mem_recordValue entries _) hjson⟩

theorem Add_records_value_witness :
    (IsHistoryValue "3.3.3.3" ∧
      IsStoredHistory Json.unmarshalStrings infoTwoAddresses.IP ["1.1.1.1", "2.2.2.2"]) ∧
    recordValue ["1.1.1.1", "2.2.2.2"] "3.3.3.3" = ["1.1.1.1", "2.2.2.2", "3.3.3.3"] ∧
    IsHistoryOf (infoTwoAddresses.AddIP Json.unmarshalStrings "3.3.3.3").IP
      (recordValue ["1.1.1.1", "2.2.2.2"] "3.3.3.3") :=
  have hv : IsHistoryValue "3.3.3.3" := by unfold IsHistoryValue; decide
  have hs : IsStoredHistory Json.unmarshalStrings infoTwoAddresses.IP
      ["1.1.1.1", "2.2.2.2"] := by
    unfold IsStoredHistory IsHistoryOf IsHistoryValue
    decide
  ⟨⟨hv, hs⟩, by decide,
    ((Add_records_value Json.unmarshalStrings infoTwoAddresses "3.3.3.3"
      ["1.1.1.1", "2.2.2.2"] hv).1 hs).1⟩

end Model

namespace Model

/-! ### The cap of `handle30065` -/

theorem AddRealDeviceID_frame (decodeStrings : String → Option (List String)) (p : PlayerInfo)
    (v : String) :
    (p.AddRealDeviceID decodeStrings v).DeviceInfo = p.DeviceInfo ∧
    (p.AddRealDeviceID decodeStrings v).IP = p.IP ∧
    (p.AddRealDeviceID decodeStrings v).DeviceID = p.DeviceID := by
  unfold PlayerInfo.AddRealDeviceID
  split
  · exact ⟨rfl, rfl, rfl⟩
  · split
    · split <;> exact ⟨rfl, rfl, rfl⟩
    · simp only
      split
      · exact ⟨rfl, rfl, rfl⟩
      · split <;> exact ⟨rfl, rfl, rfl⟩

theorem AddDeviceInfo_frame (decodeStrings : String → Option (List String)) (p : PlayerInfo)
    (v : String) :
    (p.AddDeviceInfo decodeStrings v).RealDeviceID = p.RealDeviceID ∧
    (p.AddDeviceInfo decodeStrings v).IP = p.IP ∧
    (p.AddDeviceInfo decodeStrings v).DeviceID = p.DeviceID := by
  unfold PlayerInfo.AddDeviceInfo
  simp only
  split
  · exact ⟨rfl, rfl, rfl⟩
  · split
    · split <;> exact ⟨rfl, rfl, rfl⟩
    · split
      · exact ⟨rfl, rfl, rfl⟩
      · split <;> exact ⟨rfl, rfl, rfl⟩

/-- The counters return the number of entries of a history in the
double-newline format. -/
theorem historyCount_stored (decodeStrings : String → Option (List String)) (text : String)
    (entries : List String) (hs : IsStoredHistory decodeStrings text entries) :
    historyCount decodeStrings text = entries.length := by
  obtain ⟨hh, h1, h2, hjson⟩ := hs
  have hsplit : splitTextByDoubleNewline text = entries := by
    rw [hh.1]; exact splitTextByDoubleNewline_convertArrayToText entries hh.2
  unfold historyCount
  by_cases hempty : text = ""
  · have hnil : entries = [] := convertArrayToText_eq_empty entries hh.2 (hh.1 ▸ hempty)
    simp [hempty, hnil]
  · simp [hempty, h1, h2, hjson, hsplit]

end Model

/-- C23, counterexample. The identity record of `D1` lists the ten addresses
`10.0.0.1` to `10.0.0.10`. `RecordClientIP` for a request of `D1` from
`10.0.0.11` returns nil and saves a record whose address history holds eleven
distinct values. -/
theorem RecordClientIP_eleventh_address :
    (Handler.dbTenAddresses.firstPlayerInfo "D1").map
      (fun p => p.GetIPCount Json.unmarshalStrings) = some 10 ∧
    (Utils.RecordClientIP Json.unmarshalStrings "10.0.0.11" "D1" Handler.dbTenAddresses).1
      = none ∧
    ((Utils.RecordClientIP Json.unmarshalStrings "10.0.0.11" "D1"
        Handler.dbTenAddresses).2.firstPlayerInfo "D1").map
      (fun p => splitTextByDoubleNewline p.IP)
      = some ["10.0.0.1", "10.0.0.2", "10.0.0.3", "10.0.0.4", "10.0.0.5", "10.0.0.6",
          "10.0.0.7", "10.0.0.8", "10.0.0.9", "10.0.0.10", "10.0.0.11"] ∧
    ((Utils.RecordClientIP Json.unmarshalStrings "10.0.0.11" "D1"
        Handler.dbTenAddresses).2.firstPlayerInfo "D1").map
      (fun p => p.GetIPCount Json.unmarshalStrings) = some 11 := by
  decide

/-- C23, amended. For an existing identity record, `handle30065` returns the
error -14 and leaves the tables as they are when `GetRealDeviceIDCount` or
`GetDeviceInfoCount` is 10 or more. Otherwise it saves the record with both
values recorded. When the two stored histories are in the double-newline
format and the submitted hardware id and device information are non-empty
and contain no newline, the counters are the numbers of entries, each history
becomes its entries with the value recorded (the device information in its
stable form; at most one entry more), and both hold at most 10 entries
afterwards; the address history is not touched. For a device without an
identity record (and with a free role id) the record is created and inserted;
for such values each of its two histories has exactly one entry.
`RecordClientIP` records the address of a request in the history of an
existing record whatever the length of the history. -/
theorem handle30065_caps_histories (decodeStrings : String → Option (List String))
    (playerData : Model.PlayerData) (deviceID deviceInfo realDeviceID : String) (db : DB)
    (hreal : realDeviceID ≠ "") :
    (∀ playerInfo : Model.PlayerInfo, db.firstPlayerInfo deviceID = some playerInfo →
      (playerInfo.GetRealDeviceIDCount decodeStrings ≥ 10 ∨
        playerInfo.GetDeviceInfoCount decodeStrings ≥ 10) →
      Handler.handle30065 decodeStrings playerData deviceID deviceInfo (some realDeviceID) db
        = (some (Error.gameError (-14)), db)) ∧
    (∀ (playerInfo : Model.PlayerInfo) (realDeviceIDs deviceInfos : List String),
      db.firstPlayerInfo deviceID = some playerInfo →
      Model.IsStoredHistory decodeStrings playerInfo.RealDeviceID realDeviceIDs →
      Model.IsStoredHistory decodeStrings playerInfo.DeviceInfo deviceInfos →
      Model.IsHistoryValue realDeviceID → Model.IsHistoryValue deviceInfo →
      playerInfo.GetRealDeviceIDCount decodeStrings = realDeviceIDs.length ∧
      playerInfo.GetDeviceInfoCount decodeStrings = deviceInfos.length ∧
      (realDeviceIDs.length < 10 → deviceInfos.length < 10 →
        ∃ saved : Model.PlayerInfo,
          Handler.handle30065 decodeStrings playerData deviceID deviceInfo (some realDeviceID) db
            = (none, db.savePlayerInfo saved) ∧
          Model.IsHistoryOf saved.RealDeviceID
            (Model.recordValue realDeviceIDs realDeviceID) ∧
          Model.IsHistoryOf saved.DeviceInfo
            (Model.recordValue deviceInfos (Model.GetStableDeviceInfo deviceInfo)) ∧
          (Model.recordValue realDeviceIDs realDeviceID).length ≤ 10 ∧
          (Model.recordValue deviceInfos (Model.GetStableDeviceInfo deviceInfo)).length ≤ 10 ∧
          saved.IP = playerInfo.IP)) ∧
    (db.firstPlayerInfo deviceID = none → db.firstPlayerInfoByRole playerData.RoleID = none →
      ∃ created : Model.PlayerInfo,
        Handler.handle30065 decodeStrings playerData deviceID deviceInfo (some realDeviceID) db
          = (none, db.createPlayerInfo created) ∧
        (db.createPlayerInfo created).playerInfo = db.playerInfo ++ [created] ∧
        created.DeviceID = deviceID ∧ created.RoleID = playerData.RoleID ∧
        created.RealDeviceID = realDeviceID ∧
        created.DeviceInfo = Model.GetStableDeviceInfo deviceInfo ∧ created.IP = "" ∧
        (Model.IsHistoryValue realDeviceID → Model.IsHistoryValue deviceInfo →
          Model.IsHistoryOf created.RealDeviceID [realDeviceID] ∧
          splitTextByDoubleNewline created.RealDeviceID = [realDeviceID] ∧
          Model.IsHistoryOf created.DeviceInfo [Model.GetStableDeviceInfo deviceInfo] ∧
          splitTextByDoubleNewline created.DeviceInfo
            = [Model.GetStableDeviceInfo deviceInfo])) ∧
    (∀ (ip : String) (row : Model.PlayerData) (playerInfo : Model.PlayerInfo), ip ≠ "" →
      db.firstPlayerData deviceID = some row → db.firstPlayerInfo deviceID = some playerInfo →
      playerInfo.RoleID = row.RoleID →
      Utils.RecordClientIP decodeStrings ip deviceID db
        = (none, db.savePlayerInfo (playerInfo.AddIP decodeStrings ip))) := by
  refine ⟨?_, ?_, ?_, ?_⟩
  · intro playerInfo hfound hfull
    unfold Handler.handle30065
    simp only [hreal, if_false, hfound]
    rw [if_pos hfull]
  · intro playerInfo realDeviceIDs deviceInfos hfound hreals hinfos hvalue hinfo
    have hcount1 : playerInfo.GetRealDeviceIDCount decodeStrings = realDeviceIDs.length :=
      Model.historyCount_stored decodeStrings _ _ hreals
    have hcount2 : playerInfo.GetDeviceInfoCount decodeStrings = deviceInfos.length :=
      Model.historyCount_stored decodeStrings _ _ hinfos
    refine ⟨hcount1, hcount2, ?_⟩
    intro hlt1 hlt2
    refine ⟨(playerInfo.AddRealDeviceID decodeStrings realDeviceID).AddDeviceInfo decodeStrings
      deviceInfo, ?_, ?_, ?_, ?_, ?_, ?_⟩
    · unfold Handler.handle30065
      simp only [hreal, if_false, hfound]
      rw [if_neg (by rw [hcount1, hcount2]; omega)]
    · rw [(Model.AddDeviceInfo_frame decodeStrings _ deviceInfo).1]
      exact Model.AddRealDeviceID_history decodeStrings playerInfo realDeviceID realDeviceIDs
        hvalue hreals
    · apply Model.AddDeviceInfo_history decodeStrings _ deviceInfo deviceInfos hinfo
      rw [(Model.AddRealDeviceID_frame decodeStrings playerInfo realDeviceID).1]
      exact hinfos
    · have := (Model.recordValue_length realDeviceIDs realDeviceID).2.1
      omega
    · have := (Model.recordValue_length deviceInfos (Model.GetStableDeviceInfo deviceInfo)).2.1
      omega
    · rw [(Model.AddDeviceInfo_frame decodeStrings _ deviceInfo).2.1,
        (Model.AddRealDeviceID_frame decodeStrings playerInfo realDeviceID).2.1]
  · intro hnone hrole
    refine ⟨{ DeviceID := deviceID, RoleID := playerData.RoleID, RealDeviceID := realDeviceID,
              DeviceInfo := Model.GetStableDeviceInfo deviceInfo, IP := "" },
      ?_, ?_, rfl, rfl, rfl, rfl, rfl, ?_⟩
    · unfold Handler.handle30065
      simp only [hreal, if_false, hnone, hrole]
      simp [Model.PlayerInfo.AddRealDeviceID, Model.PlayerInfo.AddDeviceInfo]
    · have hfree : db.playerInfo.any
          (fun p => p.DeviceID == deviceID || p.RoleID == playerData.RoleID) = false := by
        rw [Bool.eq_false_iff]
        intro hany
        obtain ⟨p, hp, hmatch⟩ := List.any_eq_true.mp hany
        have h1 := List.find?_eq_none.mp hnone p hp
        have h2 := List.find?_eq_none.mp hrole p hp
        rcases Bool.or_eq_true _ _ ▸ hmatch with h | h
        · exact h1 h
        · exact h2 h
      unfold DB.createPlayerInfo
      simp only [hfree, Bool.false_eq_true, if_false]
    · intro hvalue hinfo
      have hstable := Model.GetStableDeviceInfo_value deviceInfo hinfo
      have hone : ∀ v : String, Model.IsHistoryValue v → Model.IsHistoryOf v [v] := by
        intro v hv
        refine ⟨rfl, ?_⟩
        intro e he
        rw [List.mem_singleton.mp he]
        exact hv
      refine ⟨hone _ hvalue, ?_, hone _ hstable, ?_⟩
      · exact Model.splitTextByDoubleNewline_convertArrayToText [realDeviceID]
          (hone _ hvalue).2
      · exact Model.splitTextByDoubleNewline_convertArrayToText
          [Model.GetStableDeviceInfo deviceInfo] (hone _ hstable).2
  · intro ip row playerInfo hip hrow hfound hsame
    unfold Utils.RecordClientIP
    simp only [hip, if_false, hrow, hfound]
    simp [hsame]

/-- Witness of `handle30065_caps_histories`: with ten hardware ids recorded the
login of `D1` with an eleventh is rejected; with one hardware id recorded the
login with a second one is saved and the histories are in the format. -/
theorem handle30065_caps_histories_witness :
    ("hw11" ≠ "" ∧
      (Handler.dbTenDevices.firstPlayerInfo "D1").map
        (fun p => p.GetRealDeviceIDCount Json.unmarshalStrings) = some 10) ∧
    Handler.handle30065 Json.unmarshalStrings Handler.exampleRow "D1" "Phone_8_4096MB_50"
        (some "hw11") Handler.dbTenDevices
      = (some (Error.gameError (-14)), Handler.dbTenDevices) ∧
    (Model.IsStoredHistory Json.unmarshalStrings "hw1" ["hw1"] ∧
      Model.IsStoredHistory Json.unmarshalStrings "Phone_8_50" ["Phone_8_50"] ∧
      Model.IsHistoryValue "hw2" ∧ Model.IsHistoryValue "Phone_8_4096MB_50") ∧
    (∃ saved : Model.PlayerInfo,
      Handler.handle30065 Json.unmarshalStrings Handler.exampleRow "D1" "Phone_8_4096MB_50"
          (some "hw2") Handler.dbOneDevice
        = (none, Handler.dbOneDevice.savePlayerInfo saved) ∧
      Model.IsHistoryOf saved.RealDeviceID (Model.recordValue ["hw1"] "hw2") ∧
      Model.IsHistoryOf saved.DeviceInfo
        (Model.recordValue ["Phone_8_50"] (Model.GetStableDeviceInfo "Phone_8_4096MB_50")) ∧
      (Model.recordValue ["hw1"] "hw2").length ≤ 10 ∧
      (Model.recordValue ["Phone_8_50"]
        (Model.GetStableDeviceInfo "Phone_8_4096MB_50")).length ≤ 10 ∧
      saved.IP = "") :=
  have hreals : Model.IsStoredHistory Json.unmarshalStrings "hw1" ["hw1"] := by
    unfold Model.IsStoredHistory Model.IsHistoryOf Model.IsHistoryValue
    decide
  have hinfos : Model.IsStoredHistory Json.unmarshalStrings "Phone_8_50" ["Phone_8_50"] := by
    unfold Model.IsStoredHistory Model.IsHistoryOf Model.IsHistoryValue
    decide
  have hvalue : Model.IsHistoryValue "hw2" := by unfold Model.IsHistoryValue; decide
  have hinfo : Model.IsHistoryValue "Phone_8_4096MB_50" := by
    unfold Model.IsHistoryValue; decide
  ⟨⟨by decide, by decide⟩,
    (handle30065_caps_histories Json.unmarshalStrings Handler.exampleRow "D1"
      "Phone_8_4096MB_50" "hw11" Handler.dbTenDevices (by decide)).1
      { Model.emptyInfo with
        RealDeviceID := "hw1\n\nhw2\n\nhw3\n\nhw4\n\nhw5\n\nhw6\n\nhw7\n\nhw8\n\nhw9\n\nhw10"
        DeviceInfo := "Phone_8_50" }
      (by decide) (Or.inl (by decide)),
    ⟨hreals, hinfos, hvalue, hinfo⟩,
    ((handle30065_caps_histories Json.unmarshalStrings Handler.exampleRow "D1"
      "Phone_8_4096MB_50" "hw2" Handler.dbOneDevice (by decide)).2.1
      { Model.emptyInfo with RealDeviceID := "hw1", DeviceInfo := "Phone_8_50" }
      ["hw1"] ["Phone_8_50"] (by decide) hreals hinfos hvalue hinfo).2.2
      (by decide) (by decide)⟩

end Dmmserver
